import Mathlib

/-!
# ExoTreeView: single-click activation and DnD / rubber-band arbitration

A shallow embedding of `src/exo-tree-view.c`.

* `ExoTreeViewPrivate` is the C struct `_ExoTreeViewPrivate`, field for field.
* The GTK+ base widget (`GtkTreeView`, its `GtkTreeSelection`, the GObject signal
  machinery and the parent class handlers) is external to the file.  It is an
  abstract state `W` together with a record `Gtk W` holding one function per
  library entry point that the C code calls.  Nothing is assumed about those
  functions unless a theorem states the assumption as a hypothesis.
* Every call that mutates the base widget is also appended to a ghost `trace`,
  in program order, so that statements about which calls the controller makes
  (and in which order) can be expressed.
* The parent class cannot see `ExoTreeViewPrivate`, so library functions and
  parent handlers act on `W` only.
* Memory management (`gtk_tree_path_free`, `g_list_free`) is not modelled.
* The `int` arithmetic of the expander test (lines 419-424) is 32-bit: `gint_wrap`
  wraps every intermediate result around, as two's complement hardware does.
-/

namespace Exo

/-! ## Plain data -/

/-- A `GtkTreePath`: the list of child indices from the root; its depth is its length. -/
abbrev GtkTreePath := List Int

/-- A `GtkTreeViewColumn *`, as an opaque identifier. -/
abbrev GtkTreeViewColumn := Nat

/-- A `GdkWindow *`, as an opaque identifier. -/
abbrev GdkWindow := Nat

/-- A finite `gdouble`: the dyadic rational `num / 2 ^ scale`. -/
structure gdouble where
  num : Int
  scale : Nat
deriving DecidableEq, Repr

/-- The C conversion `(gint) d`, which truncates toward zero. -/
def gdouble.to_gint (d : gdouble) : Int :=
  Int.tdiv d.num (2 ^ d.scale)

/-- The C comparison `d <= n` of a `gdouble` with an `int` (the `int` converts exactly). -/
def gdouble.le_gint (d : gdouble) (n : Int) : Bool :=
  decide (d.num ≤ n * 2 ^ d.scale)

/-- The integer `n` as a `gdouble`. -/
def gdouble.of_gint (n : Int) : gdouble := ⟨n, 0⟩

/-- The event types a button handler can receive. -/
inductive GdkEventType
  | GDK_BUTTON_PRESS
  | GDK_2BUTTON_PRESS
  | GDK_3BUTTON_PRESS
  | GDK_BUTTON_RELEASE
deriving DecidableEq, Repr

/-- The fields of `GdkEventButton` that the handlers read. -/
structure GdkEventButton where
  type : GdkEventType
  window : GdkWindow
  x : gdouble
  y : gdouble
  state : Nat
  button : Nat
deriving DecidableEq, Repr

/-- The fields of `GdkEventMotion` that the handler reads. -/
structure GdkEventMotion where
  window : GdkWindow
  x : gdouble
  y : gdouble
deriving DecidableEq, Repr

/-- A `GdkEventCrossing`; the leave handler only forwards it. -/
structure GdkEventCrossing where
  window : GdkWindow
deriving DecidableEq, Repr

/-- A `GdkDragContext *`, as an opaque identifier. -/
abbrev GdkDragContext := Nat

/-- A `GtkMovementStep`, as its enumeration value. -/
abbrev GtkMovementStep := Nat

/-- The selection modes of `GtkTreeSelection`. -/
inductive GtkSelectionMode
  | GTK_SELECTION_NONE
  | GTK_SELECTION_SINGLE
  | GTK_SELECTION_BROWSE
  | GTK_SELECTION_MULTIPLE
deriving DecidableEq, Repr

/-- A non-NULL `GtkTreeSelectionFunc`: either the controller's sentinel
`exo_noop_false` (lines 27-31) or some other function, named by an identifier. -/
inductive GtkTreeSelectionFunc
  | exo_noop_false
  | custom (id : Nat)
deriving DecidableEq, Repr

/-- Lines 27-31: `exo_noop_false` returns `FALSE`. -/
def exo_noop_false : Bool := false

/-- `gtk_tree_path_compare`: lexicographic order on the indices, a proper prefix first. -/
def gtk_tree_path_compare : GtkTreePath → GtkTreePath → Int
  | [], [] => 0
  | [], _ :: _ => -1
  | _ :: _, [] => 1
  | a :: as, b :: bs =>
    if a = b then gtk_tree_path_compare as bs else if a < b then -1 else 1

/-- `gtk_tree_path_get_depth`. -/
def gtk_tree_path_get_depth (p : GtkTreePath) : Int := p.length

/-! ## The controller state -/

/-- Lines 96-112: `struct _ExoTreeViewPrivate`. -/
structure ExoTreeViewPrivate where
  button_release_activates : Bool
  button_release_unblocks_dnd : Bool
  button_release_enables_rubber_banding : Bool
  single_click : Bool
  hover_path : Option GtkTreePath
deriving DecidableEq, Repr

/-- The private data of a fresh instance: GObject zero-fills it and
`exo_tree_view_init` (lines 185-190) writes none of the fields. -/
def ExoTreeViewPrivate.init : ExoTreeViewPrivate :=
  { button_release_activates := false
    button_release_unblocks_dnd := false
    button_release_enables_rubber_banding := false
    single_click := false
    hover_path := none }

/-- A call from the controller into the base widget that may change it. -/
inductive Call
  | unselect_all
  | set_select_function (f : Option GtkTreeSelectionFunc)
  | select_path (p : GtkTreePath)
  | set_rubber_banding (b : Bool)
  | handlers_block_matched
  | handlers_unblock_matched
  | set_cursor (p : GtkTreePath) (c : GtkTreeViewColumn)
  | row_activated (p : GtkTreePath) (c : GtkTreeViewColumn)
  | item_hovered (p : Option GtkTreePath)
  | notify_single_click
  | parent_button_press_event (e : GdkEventButton)
  | parent_button_release_event (e : GdkEventButton)
  | parent_motion_notify_event (e : GdkEventMotion)
  | parent_leave_notify_event (e : GdkEventCrossing)
  | parent_drag_begin (c : GdkDragContext)
  | parent_move_cursor (step : GtkMovementStep) (count : Int)
deriving DecidableEq, Repr

/-- The library entry points used by `exo-tree-view.c`, over a base widget state `W`.
Queries return a value; mutators return the new base state. -/
structure Gtk (W : Type) where
  /-- `gtk_accelerator_get_default_mod_mask ()`. -/
  default_mod_mask : Nat
  /-- `gtk_tree_view_get_bin_window`. -/
  get_bin_window : W → GdkWindow
  /-- `gtk_tree_view_get_path_at_pos`: the row and column at integer coordinates. -/
  get_path_at_pos : W → Int → Int → Option (GtkTreePath × GtkTreeViewColumn)
  /-- `GTK_IS_TREE_SELECTION (gtk_tree_view_get_selection (view))`. -/
  is_tree_selection : W → Bool
  /-- `gtk_tree_selection_path_is_selected`. -/
  path_is_selected : W → GtkTreePath → Bool
  /-- `gtk_tree_selection_get_select_function`; `none` is `NULL`. -/
  get_select_function : W → Option GtkTreeSelectionFunc
  /-- `gtk_tree_selection_get_selected_rows`. -/
  get_selected_rows : W → List GtkTreePath
  /-- `gtk_tree_selection_get_mode`. -/
  get_mode : W → GtkSelectionMode
  /-- `gtk_tree_view_get_rubber_banding`. -/
  get_rubber_banding : W → Bool
  /-- Whether `g_object_get_data (view, "gtk-site-data")` is non-NULL. -/
  has_site_data : W → Bool
  /-- Style property `expander-size`. -/
  style_expander_size : W → Int
  /-- Style property `horizontal-separator`. -/
  style_horizontal_separator : W → Int
  /-- `gtk_tree_selection_unselect_all`. -/
  unselect_all : W → W
  /-- `gtk_tree_selection_set_select_function`. -/
  set_select_function : W → Option GtkTreeSelectionFunc → W
  /-- `gtk_tree_selection_select_path`. -/
  select_path : W → GtkTreePath → W
  /-- `gtk_tree_view_set_rubber_banding`. -/
  set_rubber_banding : W → Bool → W
  /-- `g_signal_handlers_block_matched` on the drag-site data. -/
  handlers_block_matched : W → W
  /-- `g_signal_handlers_unblock_matched` on the drag-site data. -/
  handlers_unblock_matched : W → W
  /-- `gtk_tree_view_set_cursor (view, path, column, FALSE)`. -/
  set_cursor : W → GtkTreePath → GtkTreeViewColumn → W
  /-- `gtk_tree_view_row_activated`. -/
  row_activated : W → GtkTreePath → GtkTreeViewColumn → W
  /-- `g_signal_emit` of `item-hovered`. -/
  emit_item_hovered : W → Option GtkTreePath → W
  /-- `g_object_notify (view, "single-click")`. -/
  notify_single_click : W → W
  /-- The parent class `button_press_event`. -/
  parent_button_press_event : W → GdkEventButton → W × Bool
  /-- The parent class `button_release_event`. -/
  parent_button_release_event : W → GdkEventButton → W × Bool
  /-- The parent class `motion_notify_event`. -/
  parent_motion_notify_event : W → GdkEventMotion → W × Bool
  /-- The parent class `leave_notify_event`. -/
  parent_leave_notify_event : W → GdkEventCrossing → W × Bool
  /-- The parent class `drag_begin`. -/
  parent_drag_begin : W → GdkDragContext → W
  /-- The parent class `move_cursor`. -/
  parent_move_cursor : W → GtkMovementStep → Int → W × Bool

/-- An `ExoTreeView` instance: its private data, the base widget it derives from,
and the ghost trace of the calls made into the base widget so far. -/
structure ExoTreeView (W : Type) where
  priv : ExoTreeViewPrivate
  base : W
  trace : List Call

variable {W : Type}

/-- A fresh instance over the base widget `w`. -/
def ExoTreeView.init (w : W) : ExoTreeView W :=
  { priv := ExoTreeViewPrivate.init, base := w, trace := [] }

/-- Perform one mutating library call: change the base state and record the call. -/
def ExoTreeView.call (tv : ExoTreeView W) (c : Call) (f : W → W) : ExoTreeView W :=
  { tv with base := f tv.base, trace := tv.trace ++ [c] }

/-- The test `(event->state & gtk_accelerator_get_default_mod_mask ()) == 0`. -/
def no_modifier (G : Gtk W) (state : Nat) : Bool :=
  (state &&& G.default_mod_mask) == 0

/-- The path found by `gtk_tree_view_get_path_at_pos` at the event coordinates. -/
def path_at (G : Gtk W) (w : W) (x y : gdouble) : Option GtkTreePath :=
  (G.get_path_at_pos w x.to_gint y.to_gint).map Prod.fst

/-- Assign `priv->button_release_activates`. -/
@[simp] def ExoTreeView.set_activates (tv : ExoTreeView W) (b : Bool) : ExoTreeView W :=
  { tv with priv := { tv.priv with button_release_activates := b } }

/-- Assign `priv->button_release_unblocks_dnd`. -/
@[simp] def ExoTreeView.set_unblocks_dnd (tv : ExoTreeView W) (b : Bool) : ExoTreeView W :=
  { tv with priv := { tv.priv with button_release_unblocks_dnd := b } }

/-- Assign `priv->button_release_enables_rubber_banding`. -/
@[simp] def ExoTreeView.set_enables_rubber_banding (tv : ExoTreeView W) (b : Bool) :
    ExoTreeView W :=
  { tv with priv := { tv.priv with button_release_enables_rubber_banding := b } }

/-- Assign `priv->hover_path`. -/
@[simp] def ExoTreeView.set_hover_path (tv : ExoTreeView W) (p : Option GtkTreePath) :
    ExoTreeView W :=
  { tv with priv := { tv.priv with hover_path := p } }

/-- Assign `priv->single_click`. -/
@[simp] def ExoTreeView.set_single_click (tv : ExoTreeView W) (b : Bool) : ExoTreeView W :=
  { tv with priv := { tv.priv with single_click := b } }

/-- Call a parent class handler that returns a `gboolean`: change the base state,
record the call, and hand back the handler's result. -/
def ExoTreeView.call_parent (tv : ExoTreeView W) (c : Call) (f : W → W × Bool) :
    ExoTreeView W × Bool :=
  (tv.call c (fun w => (f w).1), (f tv.base).2)

/-! ## `exo_tree_view_button_press_event` (lines 251-383) -/

/-- Line 270: the press is on the bin window. -/
def press_on_bin_window (G : Gtk W) (tv : ExoTreeView W) (event : GdkEventButton) : Bool :=
  decide (event.window = G.get_bin_window tv.base)

/-- Lines 257 and 270-273: the local `path`, `NULL` unless the press is on the bin
window and a row is found at the coordinates. -/
def press_path (G : Gtk W) (tv : ExoTreeView W) (event : GdkEventButton) :
    Option GtkTreePath :=
  if press_on_bin_window G tv event then path_at G tv.base event.x event.y else none

/-- Lines 275-279: a click on an empty area with no modifier unselects everything. -/
def press_unselect_empty (G : Gtk W) (tv : ExoTreeView W) (event : GdkEventButton)
    (path : Option GtkTreePath) : ExoTreeView W :=
  if path.isNone && no_modifier G event.state then
    tv.call Call.unselect_all G.unselect_all
  else tv

/-- Line 282: the press is a double-click on the bin window in single-click mode. -/
def press_is_consumed (G : Gtk W) (tv : ExoTreeView W) (event : GdkEventButton) : Bool :=
  press_on_bin_window G tv event && tv.priv.single_click
    && decide (event.type = GdkEventType.GDK_2BUTTON_PRESS)

/-- Lines 292-293: the value assigned to `button_release_activates`. -/
def press_activates (G : Gtk W) (tv : ExoTreeView W) (event : GdkEventButton) : Bool :=
  tv.priv.single_click && decide (event.type = GdkEventType.GDK_BUTTON_PRESS)
    && decide (event.button = 1) && no_modifier G event.state

/-- Lines 263-294, for a press that is not consumed at line 288: reset the
activation flag, unselect on an empty area, and set the activation flag. -/
def press_classify (G : Gtk W) (tv : ExoTreeView W) (event : GdkEventButton) :
    ExoTreeView W :=
  if press_on_bin_window G tv event then
    (press_unselect_empty G (tv.set_activates false) event
      (press_path G tv event)).set_activates (press_activates G tv event)
  else tv.set_activates false

/-- The condition of lines 300-301 and again of lines 354-355. -/
def press_on_selected (G : Gtk W) (w : W) (event : GdkEventButton)
    (path : Option GtkTreePath) : Bool :=
  decide (event.type = GdkEventType.GDK_BUTTON_PRESS) && no_modifier G event.state
    && (match path with
        | none => false
        | some p => G.is_tree_selection w && G.path_is_selected w p)

/-- Lines 300-310: install `exo_noop_false` when no select function is set, else
remember the selected rows.  Returns the new state and the local `selected_paths`. -/
def press_preserve (G : Gtk W) (tv : ExoTreeView W) (event : GdkEventButton)
    (path : Option GtkTreePath) : ExoTreeView W × List GtkTreePath :=
  if press_on_selected G tv.base event path then
    if G.get_select_function tv.base = none then
      (tv.call (Call.set_select_function (some GtkTreeSelectionFunc.exo_noop_false))
        (fun w => G.set_select_function w (some GtkTreeSelectionFunc.exo_noop_false)), [])
    else (tv, G.get_selected_rows tv.base)
  else (tv, [])

/-- Lines 325-332: block the drag-and-drop handlers when the site data exists. -/
def block_dnd (G : Gtk W) (tv : ExoTreeView W) : ExoTreeView W :=
  if G.has_site_data tv.base then
    tv.call Call.handlers_block_matched G.handlers_block_matched
  else tv

/-- Lines 317-319: the condition under which the arbitration applies. -/
def press_arbitrates (G : Gtk W) (w : W) (event : GdkEventButton) : Bool :=
  decide (G.get_mode w = GtkSelectionMode.GTK_SELECTION_MULTIPLE)
    && G.get_rubber_banding w
    && decide (event.button = 1)
    && decide (event.type = GdkEventType.GDK_BUTTON_PRESS)

/-- Line 322: the press is on an empty area or on a row that is not selected. -/
def press_on_unselected (G : Gtk W) (w : W) (path : Option GtkTreePath) : Bool :=
  match path with
  | none => true
  | some p => !G.path_is_selected w p

/-- Lines 317-345: the arbitration between rubber-banding and drag-and-drop. -/
def press_arbitrate (G : Gtk W) (tv : ExoTreeView W) (event : GdkEventButton)
    (path : Option GtkTreePath) : ExoTreeView W :=
  if press_arbitrates G tv.base event then
    if press_on_unselected G tv.base path then
      (block_dnd G tv).set_unblocks_dnd true
    else
      (tv.call (Call.set_rubber_banding false)
        (fun w => G.set_rubber_banding w false)).set_enables_rubber_banding true
  else tv

/-- Line 348: the call of the parent's button press handler. -/
def press_parent (G : Gtk W) (tv : ExoTreeView W) (event : GdkEventButton) :
    ExoTreeView W × Bool :=
  tv.call_parent (Call.parent_button_press_event event)
    (fun w => G.parent_button_press_event w event)

/-- Lines 361-362: select every remembered path again. -/
def select_paths (G : Gtk W) (tv : ExoTreeView W) (paths : List GtkTreePath) :
    ExoTreeView W :=
  paths.foldl (fun t p => t.call (Call.select_path p) (fun w => G.select_path w p)) tv

/-- Lines 353-364: restore the remembered selection if the path is still selected
and the select function is not the sentinel. -/
def press_restore (G : Gtk W) (tv : ExoTreeView W) (event : GdkEventButton)
    (path : Option GtkTreePath) (selected_paths : List GtkTreePath) : ExoTreeView W :=
  if press_on_selected G tv.base event path then
    if G.get_select_function tv.base ≠ some GtkTreeSelectionFunc.exo_noop_false then
      select_paths G tv selected_paths
    else tv
  else tv

/-- Lines 366-373: reset the select function if it is still the sentinel. -/
def press_reset_select_function (G : Gtk W) (tv : ExoTreeView W) : ExoTreeView W :=
  if G.is_tree_selection tv.base
      && decide (G.get_select_function tv.base = some GtkTreeSelectionFunc.exo_noop_false) then
    tv.call (Call.set_select_function none) (fun w => G.set_select_function w none)
  else tv

/-- Lines 263-345, for a press that is not consumed at line 288: the state in which
the parent's handler is called. -/
def press_before_parent (G : Gtk W) (tv : ExoTreeView W) (event : GdkEventButton) :
    ExoTreeView W :=
  press_arbitrate G
    (press_preserve G (press_classify G tv event) event (press_path G tv event)).1
    event (press_path G tv event)

/-- Lines 300-310: the local `selected_paths` when the parent's handler is called. -/
def press_selected_paths (G : Gtk W) (tv : ExoTreeView W) (event : GdkEventButton) :
    List GtkTreePath :=
  (press_preserve G (press_classify G tv event) event (press_path G tv event)).2

/-- Lines 350-373: the processing after the parent's handler has returned. -/
def press_after_parent (G : Gtk W) (tv : ExoTreeView W) (event : GdkEventButton)
    (path : Option GtkTreePath) (selected_paths : List GtkTreePath) : ExoTreeView W :=
  press_reset_select_function G (press_restore G tv event path selected_paths)

/-- Lines 251-383: `exo_tree_view_button_press_event`. -/
def exo_tree_view_button_press_event (G : Gtk W) (tv : ExoTreeView W)
    (event : GdkEventButton) : ExoTreeView W × Bool :=
  if press_is_consumed G tv event then
    (press_unselect_empty G (tv.set_activates false) event (press_path G tv event), true)
  else
    (press_after_parent G (press_parent G (press_before_parent G tv event) event).1 event
        (press_path G tv event) (press_selected_paths G tv event),
      (press_parent G (press_before_parent G tv event) event).2)

/-! ## `exo_tree_view_button_release_event` (lines 387-491) -/

/-- The value of a 32-bit `int` computation whose exact result is `n`: signed
overflow wraps around in two's complement. -/
def gint_wrap (n : Int) : Int :=
  (n + 2147483648) % 4294967296 - 2147483648

/-- Lines 419-424: the right-hand side of the comparison, computed in `int`:
`expander_size += 4`, then `horizontal_separator / 2 + depth * expander_size`. -/
def expander_bound (G : Gtk W) (w : W) (path : GtkTreePath) : Int :=
  gint_wrap (Int.tdiv (gint_wrap (G.style_horizontal_separator w)) 2
    + gint_wrap (gint_wrap (gtk_tree_path_get_depth path)
      * gint_wrap (gint_wrap (G.style_expander_size w) + 4)))

/-- Lines 413-427: the release point is in the expander band of the row at `path`. -/
def on_expander (G : Gtk W) (w : W) (x : gdouble) (path : GtkTreePath) : Bool :=
  x.le_gint (expander_bound G w path)

/-- Lines 431-435 and 453-460: when the row is selected, unselect all rows and place
the cursor on it. -/
def select_only (G : Gtk W) (tv : ExoTreeView W) (path : GtkTreePath)
    (column : GtkTreeViewColumn) : ExoTreeView W :=
  if G.path_is_selected tv.base path then
    (tv.call Call.unselect_all G.unselect_all).call (Call.set_cursor path column)
      (fun w => G.set_cursor w path column)
  else tv

/-- Line 401: the release is on the bin window. -/
def release_on_bin_window (G : Gtk W) (tv : ExoTreeView W) (event : GdkEventButton) :
    Bool :=
  decide (event.window = G.get_bin_window tv.base)

/-- Lines 401-404: the release takes the activation branch. -/
def release_activates (G : Gtk W) (tv : ExoTreeView W) (event : GdkEventButton) : Bool :=
  release_on_bin_window G tv event
    && (tv.priv.single_click && tv.priv.button_release_activates)

/-- Lines 406-442: the activation branch. -/
def release_activate (G : Gtk W) (tv : ExoTreeView W) (event : GdkEventButton) :
    ExoTreeView W :=
  match G.get_path_at_pos tv.base event.x.to_gint event.y.to_gint with
  | some (path, column) =>
    if !on_expander G tv.base event.x path then
      (select_only G (tv.set_activates false) path column).call
        (Call.row_activated path column) (fun w => G.row_activated w path column)
    else tv.set_activates false
  | none => tv.set_activates false

/-- Lines 446-464: the branch that selects only the row released on. -/
def release_select (G : Gtk W) (tv : ExoTreeView W) (event : GdkEventButton) :
    ExoTreeView W :=
  match G.get_path_at_pos tv.base event.x.to_gint event.y.to_gint with
  | some (path, column) => select_only G tv path column
  | none => tv

/-- Lines 401-466: the branch on the target window and the activation flag. -/
def release_branch (G : Gtk W) (tv : ExoTreeView W) (event : GdkEventButton) :
    ExoTreeView W :=
  if release_on_bin_window G tv event then
    if tv.priv.single_click && tv.priv.button_release_activates then
      release_activate G tv event
    else if no_modifier G event.state && !tv.priv.button_release_unblocks_dnd then
      release_select G tv event
    else tv
  else tv

/-- Lines 471-478: unblock the drag-and-drop handlers when the site data exists. -/
def unblock_dnd (G : Gtk W) (tv : ExoTreeView W) : ExoTreeView W :=
  if G.has_site_data tv.base then
    tv.call Call.handlers_unblock_matched G.handlers_unblock_matched
  else tv

/-- Lines 468-480: re-enable drag and drop if it was blocked. -/
def release_unblock_dnd (G : Gtk W) (tv : ExoTreeView W) : ExoTreeView W :=
  if tv.priv.button_release_unblocks_dnd then
    (unblock_dnd G tv).set_unblocks_dnd false
  else tv

/-- Lines 482-487: re-enable rubber-banding if it was disabled. -/
def release_enable_rubber_banding (G : Gtk W) (tv : ExoTreeView W) : ExoTreeView W :=
  if tv.priv.button_release_enables_rubber_banding then
    (tv.call (Call.set_rubber_banding true)
      (fun w => G.set_rubber_banding w true)).set_enables_rubber_banding false
  else tv

/-- Lines 399-487: the release handler's own processing, up to the parent's handler. -/
def release_before_parent (G : Gtk W) (tv : ExoTreeView W) (event : GdkEventButton) :
    ExoTreeView W :=
  release_enable_rubber_banding G (release_unblock_dnd G (release_branch G tv event))

/-- Lines 387-491: `exo_tree_view_button_release_event`. -/
def exo_tree_view_button_release_event (G : Gtk W) (tv : ExoTreeView W)
    (event : GdkEventButton) : ExoTreeView W × Bool :=
  (release_before_parent G tv event).call_parent (Call.parent_button_release_event event)
    (fun w => G.parent_button_release_event w event)

/-! ## Hover tracking and the remaining handlers -/

/-- Lines 494-501: `exo_tree_view_item_hovered` emits `item-hovered`. -/
def exo_tree_view_item_hovered (G : Gtk W) (tv : ExoTreeView W)
    (path : Option GtkTreePath) : ExoTreeView W :=
  tv.call (Call.item_hovered path) (fun w => G.emit_item_hovered w path)

/-- Lines 526-528: the path under the pointer differs from the hover path. -/
def hover_changed (path hover_path : Option GtkTreePath) : Bool :=
  match path, hover_path with
  | none, some _ => true
  | some _, none => true
  | some p, some h => decide (gtk_tree_path_compare p h ≠ 0)
  | none, none => false

/-- Lines 520-541: track the row under the pointer. -/
def motion_hover (G : Gtk W) (tv : ExoTreeView W) (event : GdkEventMotion) :
    ExoTreeView W :=
  if hover_changed (path_at G tv.base event.x event.y) tv.priv.hover_path then
    exo_tree_view_item_hovered G
      (tv.set_hover_path (path_at G tv.base event.x event.y))
      (path_at G tv.base event.x event.y)
  else tv

/-- Lines 511-543: the motion handler's own processing. -/
def motion_before_parent (G : Gtk W) (tv : ExoTreeView W) (event : GdkEventMotion) :
    ExoTreeView W :=
  if decide (event.window = G.get_bin_window tv.base) && tv.priv.single_click then
    if tv.priv.button_release_unblocks_dnd then tv.set_activates false
    else motion_hover G tv event
  else tv

/-- Lines 503-547: `exo_tree_view_motion_notify_event`. -/
def exo_tree_view_motion_notify_event (G : Gtk W) (tv : ExoTreeView W)
    (event : GdkEventMotion) : ExoTreeView W × Bool :=
  (motion_before_parent G tv event).call_parent (Call.parent_motion_notify_event event)
    (fun w => G.parent_motion_notify_event w event)

/-- Lines 551-567: `exo_tree_view_leave_notify_event`. -/
def exo_tree_view_leave_notify_event (G : Gtk W) (tv : ExoTreeView W)
    (event : GdkEventCrossing) : ExoTreeView W × Bool :=
  ((exo_tree_view_item_hovered G (tv.set_hover_path none) none).set_activates
      false).call_parent (Call.parent_leave_notify_event event)
    (fun w => G.parent_leave_notify_event w event)

/-- Lines 571-582: `exo_tree_view_drag_begin`. -/
def exo_tree_view_drag_begin (G : Gtk W) (tv : ExoTreeView W)
    (context : GdkDragContext) : ExoTreeView W :=
  (tv.set_activates false).call (Call.parent_drag_begin context)
    (fun w => G.parent_drag_begin w context)

/-- Lines 586-599: `exo_tree_view_move_cursor`. -/
def exo_tree_view_move_cursor (G : Gtk W) (tv : ExoTreeView W)
    (step : GtkMovementStep) (count : Int) : ExoTreeView W × Bool :=
  (tv.set_hover_path none).call_parent (Call.parent_move_cursor step count)
    (fun w => G.parent_move_cursor w step count)

/-- Lines 630-635: `exo_tree_view_get_single_click`. -/
def exo_tree_view_get_single_click (tv : ExoTreeView W) : Bool :=
  tv.priv.single_click

/-- Lines 649-660: `exo_tree_view_set_single_click`; the argument is a `gboolean`,
that is an `int`, and `!!single_click` is `single_click != 0`. -/
def exo_tree_view_set_single_click (G : Gtk W) (tv : ExoTreeView W)
    (single_click : Int) : ExoTreeView W :=
  if tv.priv.single_click ≠ decide (single_click ≠ 0) then
    (tv.set_single_click (decide (single_click ≠ 0))).call
      Call.notify_single_click G.notify_single_click
  else tv

/-- Lines 665-670: `exo_tree_view_get_hover_path`. -/
def exo_tree_view_get_hover_path (tv : ExoTreeView W) : Option GtkTreePath :=
  tv.priv.hover_path

/-! ## Event sequences -/

/-- The events delivered to the widget by the main loop. -/
inductive Event
  | press (e : GdkEventButton)
  | release (e : GdkEventButton)
  | motion (e : GdkEventMotion)
  | leave (e : GdkEventCrossing)
  | drag_begin (c : GdkDragContext)
  | move_cursor (step : GtkMovementStep) (count : Int)
deriving DecidableEq, Repr

/-- Dispatch one event to its handler, as installed in `exo_tree_view_class_init`
(lines 135-143). -/
def step (G : Gtk W) (tv : ExoTreeView W) : Event → ExoTreeView W
  | Event.press e => (exo_tree_view_button_press_event G tv e).1
  | Event.release e => (exo_tree_view_button_release_event G tv e).1
  | Event.motion e => (exo_tree_view_motion_notify_event G tv e).1
  | Event.leave e => (exo_tree_view_leave_notify_event G tv e).1
  | Event.drag_begin c => exo_tree_view_drag_begin G tv c
  | Event.move_cursor s n => (exo_tree_view_move_cursor G tv s n).1

/-- Process a finite sequence of events in order. -/
def run (G : Gtk W) (tv : ExoTreeView W) (events : List Event) : ExoTreeView W :=
  events.foldl (step G) tv

/-- The press is a first press of button 1: the only presses that pass the test of
line 319. -/
def is_primary_first_press (e : GdkEventButton) : Bool :=
  decide (e.button = 1) && decide (e.type = GdkEventType.GDK_BUTTON_PRESS)

/-- No first press of button 1 is delivered while an earlier one still waits for a
release; `pending` tells whether one is outstanding at the start.  Presses of other
buttons and double- or triple-click presses may arrive at any time, so the sequence
`GDK_BUTTON_PRESS`, release, `GDK_BUTTON_PRESS`, `GDK_2BUTTON_PRESS`, release of a
double-click is paired. -/
def presses_paired : Bool → List Event → Bool
  | _, [] => true
  | pending, Event.press e :: es =>
    if is_primary_first_press e then !pending && presses_paired true es
    else presses_paired pending es
  | _, Event.release _ :: es => presses_paired false es
  | pending, _ :: es => presses_paired pending es

/-- The calls made between the state `tv` and a later state `tv1`. -/
def new_calls (tv tv1 : ExoTreeView W) : List Call :=
  tv1.trace.drop tv.trace.length

/-! ## A reference base widget

A small executable base widget, used to evaluate the handlers on concrete inputs.
Rows are one pixel high: row `i` of `rows` is found at `y = i`, in column `0`.
The selection honours the select function: while `exo_noop_false` is installed
no row changes its selected state. -/

/-- The state of the reference base widget. -/
structure RefWidget where
  rows : List GtkTreePath
  selected : List GtkTreePath
  select_function : Option GtkTreeSelectionFunc
  mode : GtkSelectionMode
  rubber_banding : Bool
  site_data : Bool
  blocked : Int
  cursor : Option (GtkTreePath × GtkTreeViewColumn)
  activated : List (GtkTreePath × GtkTreeViewColumn)
  hovered : List (Option GtkTreePath)
  notified : Nat
deriving DecidableEq, Repr

/-- The row at integer coordinates in the reference widget. -/
def RefWidget.path_at_pos (w : RefWidget) (_x y : Int) :
    Option (GtkTreePath × GtkTreeViewColumn) :=
  if 0 ≤ y then (w.rows.get? y.toNat).map (fun p => (p, 0)) else none

/-- Replace the selection, unless the sentinel select function forbids it. -/
def RefWidget.set_selected (w : RefWidget) (sel : List GtkTreePath) : RefWidget :=
  if w.select_function = some GtkTreeSelectionFunc.exo_noop_false then w
  else { w with selected := sel }

/-- The reference parent press handler: an unmodified press on a row selects that
row alone and places the cursor on it. -/
def RefWidget.parent_press (mask : Nat) (w : RefWidget) (e : GdkEventButton) :
    RefWidget × Bool :=
  match w.path_at_pos e.x.to_gint e.y.to_gint with
  | some (p, c) =>
    if (e.state &&& mask) == 0 then
      ({ w.set_selected [p] with cursor := some (p, c) }, false)
    else (w, false)
  | none => (w, false)

/-- The reference library: bin window `1`, expander size `10`, separator `2`. -/
def refGtk : Gtk RefWidget :=
  { default_mod_mask := 469762061
    get_bin_window := fun _ => 1
    get_path_at_pos := RefWidget.path_at_pos
    is_tree_selection := fun _ => true
    path_is_selected := fun w p => decide (p ∈ w.selected)
    get_select_function := fun w => w.select_function
    get_selected_rows := fun w => w.selected
    get_mode := fun w => w.mode
    get_rubber_banding := fun w => w.rubber_banding
    has_site_data := fun w => w.site_data
    style_expander_size := fun _ => 10
    style_horizontal_separator := fun _ => 2
    unselect_all := fun w => w.set_selected []
    set_select_function := fun w f => { w with select_function := f }
    select_path := fun w p => if p ∈ w.selected then w else w.set_selected (w.selected ++ [p])
    set_rubber_banding := fun w b => { w with rubber_banding := b }
    handlers_block_matched := fun w => { w with blocked := w.blocked + 1 }
    handlers_unblock_matched := fun w => { w with blocked := w.blocked - 1 }
    set_cursor := fun w p c => { w.set_selected [p] with cursor := some (p, c) }
    row_activated := fun w p c => { w with activated := w.activated ++ [(p, c)] }
    emit_item_hovered := fun w p => { w with hovered := w.hovered ++ [p] }
    notify_single_click := fun w => { w with notified := w.notified + 1 }
    parent_button_press_event := RefWidget.parent_press 469762061
    parent_button_release_event := fun w _ => (w, false)
    parent_motion_notify_event := fun w _ => (w, false)
    parent_leave_notify_event := fun w _ => (w, false)
    parent_drag_begin := fun w _ => w
    parent_move_cursor := fun w _ _ => (w, false) }

/-- A reference widget with two rows, `[0]` and `[1]`, the given selection, multiple
selection mode and rubber-banding enabled. -/
def refWidget (selected : List GtkTreePath) : RefWidget :=
  { rows := [[0], [1]]
    selected := selected
    select_function := none
    mode := GtkSelectionMode.GTK_SELECTION_MULTIPLE
    rubber_banding := true
    site_data := true
    blocked := 0
    cursor := none
    activated := []
    hovered := []
    notified := 0 }

/-- An unmodified first press of button 1 on the bin window at `(x, y)`. -/
def press_at (x y : Int) : GdkEventButton :=
  { type := GdkEventType.GDK_BUTTON_PRESS, window := 1
    x := gdouble.of_gint x, y := gdouble.of_gint y, state := 0, button := 1 }

/-- An unmodified release of button 1 on the bin window at `(x, y)`. -/
def release_at (x y : Int) : GdkEventButton :=
  { type := GdkEventType.GDK_BUTTON_RELEASE, window := 1
    x := gdouble.of_gint x, y := gdouble.of_gint y, state := 0, button := 1 }

/-! ## The calls made by the release handler -/

/-- The calls of `select_only`: none unless the row is selected. -/
def select_only_calls (G : Gtk W) (w : W) (path : GtkTreePath)
    (column : GtkTreeViewColumn) : List Call :=
  if G.path_is_selected w path then [Call.unselect_all, Call.set_cursor path column]
  else []

/-- The calls made by lines 401-466 of the release handler. -/
def release_branch_calls (G : Gtk W) (tv : ExoTreeView W) (event : GdkEventButton) :
    List Call :=
  if release_on_bin_window G tv event then
    if tv.priv.single_click && tv.priv.button_release_activates then
      match G.get_path_at_pos tv.base event.x.to_gint event.y.to_gint with
      | some (path, column) =>
        if !on_expander G tv.base event.x path then
          select_only_calls G tv.base path column ++ [Call.row_activated path column]
        else []
      | none => []
    else if no_modifier G event.state && !tv.priv.button_release_unblocks_dnd then
      match G.get_path_at_pos tv.base event.x.to_gint event.y.to_gint with
      | some (path, column) => select_only_calls G tv.base path column
      | none => []
    else []
  else []

/-- The calls made by lines 468-487 of the release handler: the site data is looked up
in the base state left by lines 401-466. -/
def release_epilogue_calls (G : Gtk W) (tv : ExoTreeView W) (event : GdkEventButton) :
    List Call :=
  (if tv.priv.button_release_unblocks_dnd && G.has_site_data (release_branch G tv event).base
    then [Call.handlers_unblock_matched] else [])
  ++ (if tv.priv.button_release_enables_rubber_banding
    then [Call.set_rubber_banding true] else [])

/-- The call is an emission of `row-activated`. -/
def Call.is_row_activated : Call → Bool
  | Call.row_activated _ _ => true
  | _ => false

/-- The call changes the selection or the cursor. -/
def Call.is_selection_change : Call → Bool
  | Call.unselect_all => true
  | Call.select_path _ => true
  | Call.set_cursor _ _ => true
  | _ => false

/-- The call sets the rubber-banding mode. -/
def Call.is_set_rubber_banding : Call → Bool
  | Call.set_rubber_banding _ => true
  | _ => false

/-- The calls the press handler can make for the event `e`. -/
def Call.is_press_call (e : GdkEventButton) : Call → Bool
  | Call.unselect_all => true
  | Call.set_select_function _ => true
  | Call.select_path _ => true
  | Call.set_rubber_banding b => !b
  | Call.handlers_block_matched => true
  | Call.parent_button_press_event e1 => decide (e1 = e)
  | _ => false

/-- The trace of `tv1` extends the trace of `tv` by calls that all satisfy `P`. -/
def Extends (P : Call → Prop) (tv tv1 : ExoTreeView W) : Prop :=
  ∃ cs, tv1.trace = tv.trace ++ cs ∧ ∀ c ∈ cs, P c

/-! ## Base widgets that honour the sentinel select function -/

/-- What the selection round trip needs from the base widget: the selection object
is valid; the select function slot holds what was stored in it; storing a select
function, switching rubber-banding and unblocking handlers leave the set of selected
rows alone; switching rubber-banding leaves the select function alone; and the
parent's press handler changes no row's selected state while `exo_noop_false` is
installed. -/
structure HonoursSentinel (G : Gtk W) : Prop where
  is_tree_selection : ∀ w, G.is_tree_selection w = true
  get_set_select_function : ∀ w f, G.get_select_function (G.set_select_function w f) = f
  selected_set_select_function : ∀ w f p,
    G.path_is_selected (G.set_select_function w f) p = G.path_is_selected w p
  selected_set_rubber_banding : ∀ w b p,
    G.path_is_selected (G.set_rubber_banding w b) p = G.path_is_selected w p
  select_function_set_rubber_banding : ∀ w b,
    G.get_select_function (G.set_rubber_banding w b) = G.get_select_function w
  selected_unblock : ∀ w p,
    G.path_is_selected (G.handlers_unblock_matched w) p = G.path_is_selected w p
  parent_press_selected : ∀ w e p,
    G.get_select_function w = some GtkTreeSelectionFunc.exo_noop_false →
    G.path_is_selected (G.parent_button_press_event w e).1 p = G.path_is_selected w p

/-! ## The calls made by the press handler -/

/-- Lines 263-310 of a press that is not consumed: the state in which the test of
line 317 is made. -/
def press_at_arbitration (G : Gtk W) (tv : ExoTreeView W) (event : GdkEventButton) :
    ExoTreeView W :=
  (press_preserve G (press_classify G tv event) event (press_path G tv event)).1

/-- The call made by lines 275-279. -/
def press_classify_calls (G : Gtk W) (tv : ExoTreeView W) (event : GdkEventButton) :
    List Call :=
  if press_on_bin_window G tv event
      && ((press_path G tv event).isNone && no_modifier G event.state) then
    [Call.unselect_all]
  else []

/-- The call made by lines 300-310, in the base state `w` in which they run. -/
def press_preserve_calls (G : Gtk W) (w : W) (event : GdkEventButton)
    (path : Option GtkTreePath) : List Call :=
  if press_on_selected G w event path && decide (G.get_select_function w = none) then
    [Call.set_select_function (some GtkTreeSelectionFunc.exo_noop_false)]
  else []

/-- The calls made by lines 317-345, in the base state `w` in which they run. -/
def press_arbitrate_calls (G : Gtk W) (w : W) (event : GdkEventButton)
    (path : Option GtkTreePath) : List Call :=
  if press_arbitrates G w event then
    if press_on_unselected G w path then
      if G.has_site_data w then [Call.handlers_block_matched] else []
    else [Call.set_rubber_banding false]
  else []

/-- The call blocks or unblocks the drag-and-drop handlers or sets rubber-banding. -/
def Call.is_suspension_call : Call → Bool
  | Call.handlers_block_matched => true
  | Call.handlers_unblock_matched => true
  | Call.set_rubber_banding _ => true
  | _ => false

/-- A first press on the bin window at `(x, y)` with the given modifier state and
button. -/
def press_with (state button : Nat) (x y : Int) : GdkEventButton :=
  { type := GdkEventType.GDK_BUTTON_PRESS, window := 1
    x := gdouble.of_gint x, y := gdouble.of_gint y, state := state, button := button }

/-! ## Observations on traces -/

/-- The effect of one call on the block count of the drag-and-drop handlers; an
unblock at count 0 does nothing. -/
def block_step (n : Nat) : Call → Nat
  | Call.handlers_block_matched => n + 1
  | Call.handlers_unblock_matched => n - 1
  | _ => n

/-- The block count of the drag-and-drop handlers after the calls of a trace, starting
from 0 and changed only by the calls in the trace. -/
def block_count (trace : List Call) : Nat :=
  trace.foldl block_step 0

/-- The effect of one call on whether the controller has rubber-banding disabled. -/
def rubber_banding_step (d : Bool) : Call → Bool
  | Call.set_rubber_banding b => !b
  | _ => d

/-- Whether the last `set_rubber_banding` call of the trace, if any, disabled
rubber-banding. -/
def rubber_banding_disabled (trace : List Call) : Bool :=
  trace.foldl rubber_banding_step false

/-- The payloads of the `item-hovered` emissions in a list of calls, in order. -/
def hover_payloads : List Call → List (Option GtkTreePath)
  | [] => []
  | Call.item_hovered p :: cs => p :: hover_payloads cs
  | _ :: cs => hover_payloads cs

/-- The payload of the most recent `item-hovered` emission, if there was one. -/
def last_hovered (calls : List Call) : Option (Option GtkTreePath) :=
  (hover_payloads calls).getLast?

/-- The calls made by lines 511-543 of the motion handler. -/
def motion_calls (G : Gtk W) (tv : ExoTreeView W) (event : GdkEventMotion) : List Call :=
  if decide (event.window = G.get_bin_window tv.base) && tv.priv.single_click
      && !tv.priv.button_release_unblocks_dnd
      && hover_changed (path_at G tv.base event.x event.y) tv.priv.hover_path then
    [Call.item_hovered (path_at G tv.base event.x event.y)]
  else []

/-- The calls of one event that touch the drag-and-drop handlers or rubber-banding. -/
def step_suspension_calls (G : Gtk W) (tv : ExoTreeView W) : Event → List Call
  | Event.press e =>
    if press_is_consumed G tv e then []
    else press_arbitrate_calls G (press_at_arbitration G tv e).base e (press_path G tv e)
  | Event.release e => release_epilogue_calls G tv e
  | _ => []

/-- The payloads of the `item-hovered` emissions of one event. -/
def step_hover_payloads (G : Gtk W) (tv : ExoTreeView W) : Event → List (Option GtkTreePath)
  | Event.motion e => hover_payloads (motion_calls G tv e)
  | Event.leave _ => [none]
  | _ => []

/-- The sequence holds no cursor-move event. -/
def no_move_cursor : List Event → Bool
  | [] => true
  | Event.move_cursor _ _ :: _ => false
  | _ :: es => no_move_cursor es

/-- Process a finite sequence of motion events in order. -/
def run_motions (G : Gtk W) (tv : ExoTreeView W) (events : List GdkEventMotion) :
    ExoTreeView W :=
  events.foldl (fun t e => (exo_tree_view_motion_notify_event G t e).1) tv

/-- Every motion event of the sequence is on the bin window when it is processed. -/
def motions_on_bin_window (G : Gtk W) (tv : ExoTreeView W) : List GdkEventMotion → Bool
  | [] => true
  | e :: es =>
    decide (e.window = G.get_bin_window tv.base)
      && motions_on_bin_window G (exo_tree_view_motion_notify_event G tv e).1 es

/-- A motion event on the bin window at `(x, y)`. -/
def motion_at (x y : Int) : GdkEventMotion :=
  { window := 1, x := gdouble.of_gint x, y := gdouble.of_gint y }

/-- The library with the hit-test `gtk_tree_view_get_path_at_pos` replaced by `hit`. -/
def Gtk.with_path_at_pos (G : Gtk W)
    (hit : W → Int → Int → Option (GtkTreePath × GtkTreeViewColumn)) : Gtk W :=
  { G with get_path_at_pos := hit }

/-- What the select function slot needs from the library: the slot of a valid
selection holds what `set_select_function` stored; an invalid selection reports no
select function (`g_return_val_if_fail`); and `unselect_all`, `select_path`,
`set_rubber_banding` and the blocking of handlers do not write the slot. -/
structure SelectFunctionSlot (G : Gtk W) : Prop where
  get_set : ∀ w f, G.is_tree_selection w = true →
    G.get_select_function (G.set_select_function w f) = f
  get_invalid : ∀ w, G.is_tree_selection w = false → G.get_select_function w = none
  get_unselect_all : ∀ w, G.get_select_function (G.unselect_all w) = G.get_select_function w
  get_select_path : ∀ w p,
    G.get_select_function (G.select_path w p) = G.get_select_function w
  get_set_rubber_banding : ∀ w b,
    G.get_select_function (G.set_rubber_banding w b) = G.get_select_function w
  get_block : ∀ w,
    G.get_select_function (G.handlers_block_matched w) = G.get_select_function w

/-- The reference library over a widget that is always a drag source: the drag-site
data exists whenever it is looked up. -/
def refGtkSite : Gtk RefWidget :=
  { refGtk with has_site_data := fun _ => true }

/-- The call invokes a handler of the parent class. -/
def Call.is_parent_call : Call → Bool
  | Call.parent_button_press_event _ => true
  | Call.parent_button_release_event _ => true
  | Call.parent_motion_notify_event _ => true
  | Call.parent_leave_notify_event _ => true
  | Call.parent_drag_begin _ => true
  | Call.parent_move_cursor _ _ => true
  | _ => false

/-- The value of a finite `gdouble` as a rational number. -/
def gdouble.value (d : gdouble) : ℚ :=
  (d.num : ℚ) / 2 ^ d.scale

/-- The call changes the selection or the cursor, or emits `row-activated`. -/
def Call.is_selection_or_activation (c : Call) : Bool :=
  c.is_selection_change || c.is_row_activated

/-! ## The library functions behind the calls -/

/-- The library function that a call stands for, applied to the base widget. -/
def Gtk.apply (G : Gtk W) (w : W) : Call → W
  | Call.unselect_all => G.unselect_all w
  | Call.set_select_function f => G.set_select_function w f
  | Call.select_path p => G.select_path w p
  | Call.set_rubber_banding b => G.set_rubber_banding w b
  | Call.handlers_block_matched => G.handlers_block_matched w
  | Call.handlers_unblock_matched => G.handlers_unblock_matched w
  | Call.set_cursor p c => G.set_cursor w p c
  | Call.row_activated p c => G.row_activated w p c
  | Call.item_hovered p => G.emit_item_hovered w p
  | Call.notify_single_click => G.notify_single_click w
  | Call.parent_button_press_event e => (G.parent_button_press_event w e).1
  | Call.parent_button_release_event e => (G.parent_button_release_event w e).1
  | Call.parent_motion_notify_event e => (G.parent_motion_notify_event w e).1
  | Call.parent_leave_notify_event e => (G.parent_leave_notify_event w e).1
  | Call.parent_drag_begin c => G.parent_drag_begin w c
  | Call.parent_move_cursor s n => (G.parent_move_cursor w s n).1

/-- The base widget after the library functions of a list of calls, in order. -/
def Gtk.apply_all (G : Gtk W) (w : W) (calls : List Call) : W :=
  calls.foldl G.apply w

/-- The state `tv1` comes from `tv` by calls that are recorded in the trace and whose
library functions were all applied to the base widget, in that order. -/
def Applied (G : Gtk W) (tv tv1 : ExoTreeView W) : Prop :=
  ∃ cs, tv1.trace = tv.trace ++ cs ∧ tv1.base = G.apply_all tv.base cs

/-- The double-click type of the press at `(x, y)`: `GDK_2BUTTON_PRESS`. -/
def double_press_at (x y : Int) : GdkEventButton :=
  { type := GdkEventType.GDK_2BUTTON_PRESS, window := 1
    x := gdouble.of_gint x, y := gdouble.of_gint y, state := 0, button := 1 }

/-- The number fits a 32-bit `int`. -/
def fits_gint (n : Int) : Prop :=
  -2147483648 ≤ n ∧ n ≤ 2147483647

/-- The reference library with the style property `expander-size` at its maximum,
`G_MAXINT`. -/
def refGtkWide : Gtk RefWidget :=
  { refGtk with style_expander_size := fun _ => 2147483647 }

/-- A reference widget whose second row, `[0, 0]`, is a child of the first: it has
depth 2.  No row is selected. -/
def refTree : RefWidget :=
  { refWidget [] with rows := [[0], [0, 0]] }

/-- Lines 444-460: the release takes the branch that selects only the row released
on, and that row is selected, so that every other row is unselected. -/
def release_narrows (G : Gtk W) (tv : ExoTreeView W) (event : GdkEventButton) : Bool :=
  release_on_bin_window G tv event
    && !(tv.priv.single_click && tv.priv.button_release_activates)
    && (no_modifier G event.state && !tv.priv.button_release_unblocks_dnd)
    && (match G.get_path_at_pos tv.base event.x.to_gint event.y.to_gint with
        | some (path, _) => G.path_is_selected tv.base path
        | none => false)

/-- What the restoring of the selection (lines 308-309 and 353-364) needs from the
library: `gtk_tree_selection_get_selected_rows` lists the selected rows;
`gtk_tree_selection_select_path` selects its path and changes no other row, unless
the sentinel is installed; and it does not write the select function slot. -/
structure SelectsPaths (G : Gtk W) : Prop where
  selected_rows : ∀ w p, p ∈ G.get_selected_rows w ↔ G.path_is_selected w p = true
  select_path : ∀ w p q,
    G.get_select_function w ≠ some GtkTreeSelectionFunc.exo_noop_false →
    G.path_is_selected (G.select_path w p) q = (decide (q = p) || G.path_is_selected w q)
  slot_select_path : ∀ w p,
    G.get_select_function (G.select_path w p) = G.get_select_function w

/-- The reference library with select functions that let no row be selected: while a
select function is installed, `gtk_tree_selection_select_path` changes nothing.
Unselecting a row stays possible unless the function is the sentinel. -/
def refGtkVeto : Gtk RefWidget :=
  { refGtk with
    select_path := fun w p => if w.select_function = none then refGtk.select_path w p else w }

/-- The reference widget with rows `[0]` and `[1]` selected and the select function
`custom 0` installed by the application. -/
def refWidgetCustom : RefWidget :=
  { refWidget [[0], [1]] with select_function := some (GtkTreeSelectionFunc.custom 0) }

/-! ## Basic facts about the building blocks -/

@[simp] theorem call_priv (tv : ExoTreeView W) (c : Call) (f : W → W) :
    (tv.call c f).priv = tv.priv := rfl

@[simp] theorem call_trace (tv : ExoTreeView W) (c : Call) (f : W → W) :
    (tv.call c f).trace = tv.trace ++ [c] := rfl

@[simp] theorem call_base (tv : ExoTreeView W) (c : Call) (f : W → W) :
    (tv.call c f).base = f tv.base := rfl

@[simp] theorem call_parent_priv (tv : ExoTreeView W) (c : Call) (f : W → W × Bool) :
    (tv.call_parent c f).1.priv = tv.priv := rfl

@[simp] theorem call_parent_trace (tv : ExoTreeView W) (c : Call) (f : W → W × Bool) :
    (tv.call_parent c f).1.trace = tv.trace ++ [c] := rfl

@[simp] theorem call_parent_base (tv : ExoTreeView W) (c : Call) (f : W → W × Bool) :
    (tv.call_parent c f).1.base = (f tv.base).1 := rfl

@[simp] theorem call_parent_result (tv : ExoTreeView W) (c : Call) (f : W → W × Bool) :
    (tv.call_parent c f).2 = (f tv.base).2 := rfl

@[simp] theorem press_unselect_empty_priv (G : Gtk W) (tv : ExoTreeView W)
    (e : GdkEventButton) (path : Option GtkTreePath) :
    (press_unselect_empty G tv e path).priv = tv.priv := by
  unfold press_unselect_empty; split <;> rfl

@[simp] theorem press_preserve_priv (G : Gtk W) (tv : ExoTreeView W)
    (e : GdkEventButton) (path : Option GtkTreePath) :
    (press_preserve G tv e path).1.priv = tv.priv := by
  unfold press_preserve; split_ifs <;> rfl

@[simp] theorem block_dnd_priv (G : Gtk W) (tv : ExoTreeView W) :
    (block_dnd G tv).priv = tv.priv := by
  unfold block_dnd; split <;> rfl

@[simp] theorem unblock_dnd_priv (G : Gtk W) (tv : ExoTreeView W) :
    (unblock_dnd G tv).priv = tv.priv := by
  unfold unblock_dnd; split <;> rfl

@[simp] theorem press_parent_priv (G : Gtk W) (tv : ExoTreeView W) (e : GdkEventButton) :
    (press_parent G tv e).1.priv = tv.priv := rfl

@[simp] theorem select_paths_priv (G : Gtk W) (paths : List GtkTreePath) :
    ∀ tv : ExoTreeView W, (select_paths G tv paths).priv = tv.priv := by
  induction paths with
  | nil => intro tv; rfl
  | cons p ps ih =>
    intro tv
    show (select_paths G (tv.call (Call.select_path p) (fun w => G.select_path w p)) ps).priv
      = tv.priv
    rw [ih]; rfl

@[simp] theorem press_restore_priv (G : Gtk W) (tv : ExoTreeView W) (e : GdkEventButton)
    (path : Option GtkTreePath) (sp : List GtkTreePath) :
    (press_restore G tv e path sp).priv = tv.priv := by
  unfold press_restore; split_ifs <;> simp

@[simp] theorem press_reset_select_function_priv (G : Gtk W) (tv : ExoTreeView W) :
    (press_reset_select_function G tv).priv = tv.priv := by
  unfold press_reset_select_function; split <;> rfl

@[simp] theorem press_after_parent_priv (G : Gtk W) (tv : ExoTreeView W)
    (e : GdkEventButton) (path : Option GtkTreePath) (sp : List GtkTreePath) :
    (press_after_parent G tv e path sp).priv = tv.priv := by
  simp [press_after_parent]

@[simp] theorem select_only_priv (G : Gtk W) (tv : ExoTreeView W) (path : GtkTreePath)
    (column : GtkTreeViewColumn) : (select_only G tv path column).priv = tv.priv := by
  unfold select_only; split <;> rfl

/-- The private data after lines 263-294 of a press that is not consumed. -/
theorem press_classify_priv (G : Gtk W) (tv : ExoTreeView W) (e : GdkEventButton) :
    (press_classify G tv e).priv =
      { tv.priv with
        button_release_activates := press_on_bin_window G tv e && press_activates G tv e } := by
  unfold press_classify; split_ifs with h <;> simp [h]

/-- The private data after the arbitration step. -/
theorem press_arbitrate_priv (G : Gtk W) (tv : ExoTreeView W) (e : GdkEventButton)
    (path : Option GtkTreePath) :
    (press_arbitrate G tv e path).priv =
      if press_arbitrates G tv.base e then
        if press_on_unselected G tv.base path then
          { tv.priv with button_release_unblocks_dnd := true }
        else { tv.priv with button_release_enables_rubber_banding := true }
      else tv.priv := by
  unfold press_arbitrate; split_ifs <;> simp

/-- The private data after the press handler. -/
theorem press_event_priv (G : Gtk W) (tv : ExoTreeView W) (e : GdkEventButton) :
    (exo_tree_view_button_press_event G tv e).1.priv =
      if press_is_consumed G tv e then { tv.priv with button_release_activates := false }
      else (press_before_parent G tv e).priv := by
  unfold exo_tree_view_button_press_event; split_ifs <;> simp

/-- The arbitration sets at most one of the two suspension flags, clears none, and
leaves the activation flag and the mode alone. -/
theorem press_before_parent_priv (G : Gtk W) (tv : ExoTreeView W) (e : GdkEventButton) :
    (press_before_parent G tv e).priv =
        { tv.priv with
          button_release_activates := press_on_bin_window G tv e && press_activates G tv e }
    ∨ (press_before_parent G tv e).priv =
        { tv.priv with
          button_release_activates := press_on_bin_window G tv e && press_activates G tv e
          button_release_unblocks_dnd := true }
    ∨ (press_before_parent G tv e).priv =
        { tv.priv with
          button_release_activates := press_on_bin_window G tv e && press_activates G tv e
          button_release_enables_rubber_banding := true } := by
  unfold press_before_parent
  rw [press_arbitrate_priv, press_preserve_priv, press_classify_priv]
  split_ifs <;> simp

/-- The private data after the release handler's own branch (lines 401-466). -/
theorem release_branch_priv (G : Gtk W) (tv : ExoTreeView W) (e : GdkEventButton) :
    (release_branch G tv e).priv =
      { tv.priv with
        button_release_activates :=
          tv.priv.button_release_activates
            && !(release_on_bin_window G tv e && tv.priv.single_click) } := by
  rcases tv with ⟨⟨a, u, r, sc, hp⟩, base, trace⟩
  unfold release_branch release_activate release_select
  cases a <;> cases sc <;> cases hw : release_on_bin_window G _ e <;>
    simp only [hw] <;> simp <;> (repeat' split) <;> simp

/-- The private data after the release handler's own processing (lines 399-487). -/
theorem release_before_parent_priv (G : Gtk W) (tv : ExoTreeView W) (e : GdkEventButton) :
    (release_before_parent G tv e).priv =
      { tv.priv with
        button_release_activates :=
          tv.priv.button_release_activates
            && !(release_on_bin_window G tv e && tv.priv.single_click)
        button_release_unblocks_dnd := false
        button_release_enables_rubber_banding := false } := by
  unfold release_before_parent release_enable_rubber_banding release_unblock_dnd
  simp only [unblock_dnd_priv, release_branch_priv]
  rcases tv with ⟨⟨a, u, r, sc, hp⟩, base, trace⟩
  cases u <;> cases r <;> simp [release_branch_priv]

/-- The private data after the release handler. -/
theorem release_event_priv (G : Gtk W) (tv : ExoTreeView W) (e : GdkEventButton) :
    (exo_tree_view_button_release_event G tv e).1.priv =
      { tv.priv with
        button_release_activates :=
          tv.priv.button_release_activates
            && !(release_on_bin_window G tv e && tv.priv.single_click)
        button_release_unblocks_dnd := false
        button_release_enables_rubber_banding := false } := by
  unfold exo_tree_view_button_release_event
  rw [call_parent_priv, release_before_parent_priv]

/-- The calls made since `tv`, when the later trace extends the earlier one. -/
theorem new_calls_eq (tv tv1 : ExoTreeView W) (cs : List Call)
    (h : tv1.trace = tv.trace ++ cs) : new_calls tv tv1 = cs := by
  unfold new_calls; rw [h]; exact List.drop_left _ _

/-- The motion handler changes neither suspension flag. -/
theorem motion_event_suspension_flags (G : Gtk W) (tv : ExoTreeView W) (e : GdkEventMotion) :
    (exo_tree_view_motion_notify_event G tv e).1.priv.button_release_unblocks_dnd
        = tv.priv.button_release_unblocks_dnd
    ∧ (exo_tree_view_motion_notify_event G tv e).1.priv.button_release_enables_rubber_banding
        = tv.priv.button_release_enables_rubber_banding := by
  unfold exo_tree_view_motion_notify_event motion_before_parent motion_hover
    exo_tree_view_item_hovered
  rw [call_parent_priv]
  split_ifs <;> simp

/-- One event keeps the two suspension flags apart, provided a press only arrives
while both are clear; after a release both are clear. -/
theorem step_suspension_flags (G : Gtk W) (tv : ExoTreeView W) (ev : Event) :
    (∀ e, ev = Event.press e →
        tv.priv.button_release_unblocks_dnd = false
          ∧ tv.priv.button_release_enables_rubber_banding = false →
        ¬ ((step G tv ev).priv.button_release_unblocks_dnd = true
          ∧ (step G tv ev).priv.button_release_enables_rubber_banding = true))
    ∧ (∀ e, ev = Event.release e →
        (step G tv ev).priv.button_release_unblocks_dnd = false
          ∧ (step G tv ev).priv.button_release_enables_rubber_banding = false)
    ∧ ((∀ e, ev ≠ Event.press e) → (∀ e, ev ≠ Event.release e) →
        (step G tv ev).priv.button_release_unblocks_dnd = tv.priv.button_release_unblocks_dnd
          ∧ (step G tv ev).priv.button_release_enables_rubber_banding
            = tv.priv.button_release_enables_rubber_banding) := by
  refine ⟨?_, ?_, ?_⟩
  · rintro e rfl ⟨hu, hr⟩
    show ¬ ((exo_tree_view_button_press_event G tv e).1.priv.button_release_unblocks_dnd = true
      ∧ (exo_tree_view_button_press_event G tv e).1.priv.button_release_enables_rubber_banding
        = true)
    rw [press_event_priv]
    split_ifs
    · simp [hu]
    · rcases press_before_parent_priv G tv e with h | h | h <;> rw [h] <;> simp [hu, hr]
  · rintro e rfl
    show (exo_tree_view_button_release_event G tv e).1.priv.button_release_unblocks_dnd = false
      ∧ (exo_tree_view_button_release_event G tv e).1.priv.button_release_enables_rubber_banding
        = false
    rw [release_event_priv]; simp
  · intro hp hr
    cases ev with
    | press e => exact absurd rfl (hp e)
    | release e => exact absurd rfl (hr e)
    | motion e => exact motion_event_suspension_flags G tv e
    | leave e => exact ⟨rfl, rfl⟩
    | drag_begin c => exact ⟨rfl, rfl⟩
    | move_cursor s n => exact ⟨rfl, rfl⟩

/-! ## Traces -/

theorem Extends.refl (P : Call → Prop) (tv : ExoTreeView W) : Extends P tv tv :=
  ⟨[], by simp, by simp⟩

theorem Extends.of_trace_eq (P : Call → Prop) (tv tv1 : ExoTreeView W)
    (h : tv1.trace = tv.trace) : Extends P tv tv1 :=
  ⟨[], by simp [h], by simp⟩

theorem Extends.trans {P : Call → Prop} {a b c : ExoTreeView W}
    (h1 : Extends P a b) (h2 : Extends P b c) : Extends P a c := by
  obtain ⟨cs1, e1, p1⟩ := h1
  obtain ⟨cs2, e2, p2⟩ := h2
  refine ⟨cs1 ++ cs2, by rw [e2, e1, List.append_assoc], ?_⟩
  intro x hx
  rcases List.mem_append.mp hx with h | h
  · exact p1 x h
  · exact p2 x h

theorem Extends.call {P : Call → Prop} (tv : ExoTreeView W) (c : Call) (f : W → W)
    (h : P c) : Extends P tv (tv.call c f) :=
  ⟨[c], rfl, by simpa using h⟩

theorem Extends.new_calls {P : Call → Prop} {tv tv1 : ExoTreeView W}
    (h : Extends P tv tv1) : ∀ c ∈ new_calls tv tv1, P c := by
  obtain ⟨cs, e, p⟩ := h
  rw [new_calls_eq tv tv1 cs e]; exact p

theorem select_paths_extends (G : Gtk W) (e : GdkEventButton) (paths : List GtkTreePath) :
    ∀ tv : ExoTreeView W,
      Extends (fun c => Call.is_press_call e c = true) tv (select_paths G tv paths) := by
  induction paths with
  | nil => intro tv; exact Extends.refl _ _
  | cons p ps ih =>
    intro tv
    exact Extends.trans (Extends.call tv (Call.select_path p) _ rfl) (ih _)

/-- Every call of the press handler for `e` is one of: `unselect_all`,
`set_select_function`, `select_path`, `set_rubber_banding FALSE`,
`handlers_block_matched`, or the parent's press handler for `e`. -/
theorem press_event_extends (G : Gtk W) (tv : ExoTreeView W) (e : GdkEventButton) :
    Extends (fun c => Call.is_press_call e c = true) tv
      (exo_tree_view_button_press_event G tv e).1 := by
  have hun : ∀ (t : ExoTreeView W) (path : Option GtkTreePath),
      Extends (fun c => Call.is_press_call e c = true) t (press_unselect_empty G t e path) := by
    intro t path
    unfold press_unselect_empty
    split
    · exact Extends.call _ _ _ rfl
    · exact Extends.refl _ _
  unfold exo_tree_view_button_press_event
  split_ifs
  · exact Extends.trans (Extends.of_trace_eq _ tv (tv.set_activates false) rfl) (hun _ _)
  · have h1 : Extends (fun c => Call.is_press_call e c = true) tv (press_classify G tv e) := by
      unfold press_classify
      split_ifs
      · exact Extends.trans (Extends.trans
          (Extends.of_trace_eq _ tv (tv.set_activates false) rfl) (hun _ _))
          (Extends.of_trace_eq _ _ _ rfl)
      · exact Extends.of_trace_eq _ _ _ rfl
    have h2 : ∀ (t : ExoTreeView W) (path : Option GtkTreePath),
        Extends (fun c => Call.is_press_call e c = true) t (press_preserve G t e path).1 := by
      intro t path
      unfold press_preserve
      split_ifs
      · exact Extends.call _ _ _ rfl
      · exact Extends.refl _ _
      · exact Extends.refl _ _
    have h3 : ∀ (t : ExoTreeView W) (path : Option GtkTreePath),
        Extends (fun c => Call.is_press_call e c = true) t (press_arbitrate G t e path) := by
      intro t path
      unfold press_arbitrate block_dnd
      split_ifs
      · exact ⟨[Call.handlers_block_matched], rfl, by simp [Call.is_press_call]⟩
      · exact Extends.of_trace_eq _ _ _ rfl
      · exact ⟨[Call.set_rubber_banding false], rfl, by simp [Call.is_press_call]⟩
      · exact Extends.refl _ _
    have h4 : ∀ (t : ExoTreeView W),
        Extends (fun c => Call.is_press_call e c = true) t (press_parent G t e).1 := by
      intro t
      exact ⟨[Call.parent_button_press_event e], rfl, by simp [Call.is_press_call]⟩
    have h5 : ∀ (t : ExoTreeView W) (path : Option GtkTreePath) (sp : List GtkTreePath),
        Extends (fun c => Call.is_press_call e c = true) t (press_after_parent G t e path sp) := by
      intro t path sp
      have h51 : Extends (fun c => Call.is_press_call e c = true) t
          (press_restore G t e path sp) := by
        unfold press_restore
        split_ifs
        · exact select_paths_extends G e sp t
        · exact Extends.refl _ _
        · exact Extends.refl _ _
      refine Extends.trans h51 ?_
      unfold press_after_parent press_reset_select_function
      split
      · exact Extends.call _ _ _ rfl
      · exact Extends.refl _ _
    exact Extends.trans (Extends.trans (Extends.trans (Extends.trans h1 (h2 _ _)) (h3 _ _))
      (h4 _)) (h5 _ _ _)

theorem select_only_trace (G : Gtk W) (tv : ExoTreeView W) (path : GtkTreePath)
    (column : GtkTreeViewColumn) :
    (select_only G tv path column).trace
      = tv.trace ++ select_only_calls G tv.base path column := by
  unfold select_only select_only_calls; split <;> simp

theorem release_branch_trace (G : Gtk W) (tv : ExoTreeView W) (e : GdkEventButton) :
    (release_branch G tv e).trace = tv.trace ++ release_branch_calls G tv e := by
  unfold release_branch release_branch_calls release_activate release_select
  split_ifs <;> (try split) <;> (try split_ifs) <;>
    simp_all [select_only_trace]

/-- The trace after the release handler: the calls of the branch, then the calls that
lift the suspensions, then the parent's release handler. -/
theorem release_event_trace (G : Gtk W) (tv : ExoTreeView W) (e : GdkEventButton) :
    (exo_tree_view_button_release_event G tv e).1.trace
      = tv.trace ++ release_branch_calls G tv e ++ release_epilogue_calls G tv e
        ++ [Call.parent_button_release_event e] := by
  have hp := release_branch_priv G tv e
  have ht := release_branch_trace G tv e
  unfold exo_tree_view_button_release_event release_before_parent
    release_enable_rubber_banding release_unblock_dnd unblock_dnd release_epilogue_calls
  rw [call_parent_trace]
  cases hu : tv.priv.button_release_unblocks_dnd <;>
    cases hr : tv.priv.button_release_enables_rubber_banding <;>
    cases hd : G.has_site_data (release_branch G tv e).base <;>
    simp [hp, ht, hu, hr, hd]

/-- The branch of the release handler only unselects, sets the cursor and activates. -/
theorem release_branch_calls_kind (G : Gtk W) (tv : ExoTreeView W) (e : GdkEventButton) :
    ∀ c ∈ release_branch_calls G tv e,
      c = Call.unselect_all ∨ (∃ p col, c = Call.set_cursor p col)
        ∨ ∃ p col, c = Call.row_activated p col := by
  unfold release_branch_calls select_only_calls
  intro c hc
  split_ifs at hc <;> (try split at hc) <;> (try split_ifs at hc) <;> (try simp_all) <;>
    (try (rcases hc with rfl | rfl | rfl <;> simp))

/-- The calls that lift the suspensions only unblock and re-enable rubber-banding. -/
theorem release_epilogue_calls_kind (G : Gtk W) (tv : ExoTreeView W) (e : GdkEventButton) :
    ∀ c ∈ release_epilogue_calls G tv e,
      c = Call.handlers_unblock_matched ∨ c = Call.set_rubber_banding true := by
  unfold release_epilogue_calls
  intro c hc
  split_ifs at hc <;> simp_all

/-! ## C1: the two suspension flags -/

/-- C1 (counterexample): two presses of button 1 on the same unselected row with no
release between them, in multiple selection mode with rubber-banding enabled, reach a
state in which `button_release_unblocks_dnd` and
`button_release_enables_rubber_banding` are both true. -/
theorem both_suspension_flags_after_two_presses :
    (run refGtk (ExoTreeView.init (refWidget []))
        [Event.press (press_at 0 0), Event.press (press_at 0 0)]).priv.button_release_unblocks_dnd
      = true
    ∧ (run refGtk (ExoTreeView.init (refWidget []))
        [Event.press (press_at 0 0),
          Event.press (press_at 0 0)]).priv.button_release_enables_rubber_banding
      = true := by
  constructor <;> rfl

/-! ## C2: a double-click in single-click mode -/

/-- C2: a press on the bin window in single-click mode whose type is
`GDK_2BUTTON_PRESS` returns `TRUE`; the only call it can make into the base widget is
`unselect_all` (on an empty area with no modifier), so the parent's press handler is
not called, `row-activated` is not emitted and no select function is installed; the
activation flag is false afterwards and the other private fields are unchanged. -/
theorem double_click_consumed (G : Gtk W) (tv : ExoTreeView W) (e : GdkEventButton)
    (hw : e.window = G.get_bin_window tv.base) (hs : tv.priv.single_click = true)
    (ht : e.type = GdkEventType.GDK_2BUTTON_PRESS) :
    (exo_tree_view_button_press_event G tv e).2 = true
    ∧ (exo_tree_view_button_press_event G tv e).1.priv
        = { tv.priv with button_release_activates := false }
    ∧ (exo_tree_view_button_press_event G tv e).1.trace
        = tv.trace ++
          (if (path_at G tv.base e.x e.y).isNone ∧ e.state &&& G.default_mod_mask = 0
            then [Call.unselect_all] else [])
    ∧ (∀ c ∈ new_calls tv (exo_tree_view_button_press_event G tv e).1,
        c = Call.unselect_all) := by
  have hc : press_is_consumed G tv e = true := by
    simp [press_is_consumed, press_on_bin_window, hw, hs, ht]
  have htr : (exo_tree_view_button_press_event G tv e).1.trace
      = tv.trace ++
        (if (path_at G tv.base e.x e.y).isNone ∧ e.state &&& G.default_mod_mask = 0
          then [Call.unselect_all] else []) := by
    unfold exo_tree_view_button_press_event
    rw [if_pos hc]
    simp only [press_unselect_empty, press_path, press_on_bin_window, hw, decide_True,
      if_true, no_modifier]
    split_ifs <;> simp_all
  refine ⟨?_, ?_, htr, ?_⟩
  · unfold exo_tree_view_button_press_event; rw [if_pos hc]
  · rw [press_event_priv, if_pos hc]
  · rw [new_calls_eq tv _ _ htr]
    split_ifs <;> simp

/-- C2 (witness): a double-click on row `[0]` of the reference widget in single-click
mode. -/
theorem double_click_consumed_witness :
    (exo_tree_view_button_press_event refGtk
        ((ExoTreeView.init (refWidget [])).set_single_click true)
        { press_at 0 0 with type := GdkEventType.GDK_2BUTTON_PRESS }).2 = true
    ∧ (exo_tree_view_button_press_event refGtk
        ((ExoTreeView.init (refWidget [])).set_single_click true)
        { press_at 0 0 with type := GdkEventType.GDK_2BUTTON_PRESS }).1.priv
        = { ((ExoTreeView.init (refWidget [])).set_single_click true).priv with
            button_release_activates := false }
    ∧ (exo_tree_view_button_press_event refGtk
        ((ExoTreeView.init (refWidget [])).set_single_click true)
        { press_at 0 0 with type := GdkEventType.GDK_2BUTTON_PRESS }).1.trace = [] :=
  ⟨(double_click_consumed refGtk ((ExoTreeView.init (refWidget [])).set_single_click true)
      { press_at 0 0 with type := GdkEventType.GDK_2BUTTON_PRESS } rfl rfl rfl).1,
    (double_click_consumed refGtk ((ExoTreeView.init (refWidget [])).set_single_click true)
      { press_at 0 0 with type := GdkEventType.GDK_2BUTTON_PRESS } rfl rfl rfl).2.1, rfl⟩

/-! ## C3: the activation flag after a press -/

/-- C3: after the press handler `button_release_activates` is true exactly when the
press is on the bin window, single-click mode is on, the type is `GDK_BUTTON_PRESS`,
the button is 1 and no default modifier is held, whether or not a row was found; and
the handler's outcome is the same whatever the value of the flag on entry, as the flag
is reset before anything reads it. -/
theorem press_sets_activation_flag (G : Gtk W) (tv : ExoTreeView W) (e : GdkEventButton) :
    ((exo_tree_view_button_press_event G tv e).1.priv.button_release_activates = true
      ↔ (e.window = G.get_bin_window tv.base ∧ tv.priv.single_click = true
          ∧ e.type = GdkEventType.GDK_BUTTON_PRESS ∧ e.button = 1
          ∧ e.state &&& G.default_mod_mask = 0))
    ∧ (∀ b : Bool, exo_tree_view_button_press_event G (tv.set_activates b) e
        = exo_tree_view_button_press_event G (tv.set_activates false) e) := by
  constructor
  · rw [press_event_priv]
    by_cases hc : press_is_consumed G tv e = true
    · rw [if_pos hc]
      simp only [press_is_consumed, press_on_bin_window, Bool.and_eq_true,
        decide_eq_true_eq] at hc
      simp [hc.2]
    · rw [if_neg hc]
      have hact : (press_before_parent G tv e).priv.button_release_activates
          = (press_on_bin_window G tv e && press_activates G tv e) := by
        rcases press_before_parent_priv G tv e with h | h | h <;> rw [h]
      rw [hact]
      simp [press_on_bin_window, press_activates, no_modifier, and_assoc]
  · intro b
    rfl

/-! ## C4: drag-begin, leave and cursor-move -/

/-- C4 (counterexample): in single-click mode, after a qualifying press has set
`button_release_activates`, the cursor-move handler leaves the flag true. -/
theorem activation_flag_survives_move_cursor :
    (exo_tree_view_move_cursor refGtk
        (exo_tree_view_button_press_event refGtk
          (exo_tree_view_set_single_click refGtk (ExoTreeView.init (refWidget [])) 1)
          (press_at 100 0)).1 0 1).1.priv.button_release_activates = true := by
  rfl

/-- C4 (amended): after the drag-begin handler and after the leave handler
`button_release_activates` is false; the cursor-move handler leaves the flag as it
was. -/
theorem activation_flag_after_cancelling_handlers (G : Gtk W) (tv : ExoTreeView W)
    (c : GdkDragContext) (e : GdkEventCrossing) (s : GtkMovementStep) (n : Int) :
    (exo_tree_view_drag_begin G tv c).priv.button_release_activates = false
    ∧ (exo_tree_view_leave_notify_event G tv e).1.priv.button_release_activates = false
    ∧ (exo_tree_view_move_cursor G tv s n).1.priv.button_release_activates
        = tv.priv.button_release_activates :=
  ⟨rfl, rfl, rfl⟩

/-! ## C5: the activation flag after a release -/

/-- C5 (counterexample): a qualifying press in single-click mode, then a switch to
double-click mode, then a release on the same row: `button_release_activates` is
still true after the release handler. -/
theorem activation_flag_survives_release :
    (exo_tree_view_button_release_event refGtk
        (exo_tree_view_set_single_click refGtk
          (exo_tree_view_button_press_event refGtk
            (exo_tree_view_set_single_click refGtk (ExoTreeView.init (refWidget [])) 1)
            (press_at 100 0)).1 0)
        (release_at 100 0)).1.priv.button_release_activates = true := by
  rfl

/-- C5 (amended): the release handler clears `button_release_activates` when the
release is on the bin window and single-click mode is on, and otherwise leaves the
flag as it was. -/
theorem release_activation_flag (G : Gtk W) (tv : ExoTreeView W) (e : GdkEventButton) :
    (exo_tree_view_button_release_event G tv e).1.priv.button_release_activates
      = (tv.priv.button_release_activates
          && !(decide (e.window = G.get_bin_window tv.base) && tv.priv.single_click)) := by
  rw [release_event_priv]; rfl

/-! ## C6: press then release in single-click mode -/

/-- The state after a press that qualifies for activation: single-click mode is still
on and the activation flag is set. -/
theorem press_qualifying_priv (G : Gtk W) (tv : ExoTreeView W) (e : GdkEventButton)
    (hs : tv.priv.single_click = true) (hw : e.window = G.get_bin_window tv.base)
    (ht : e.type = GdkEventType.GDK_BUTTON_PRESS) (hb : e.button = 1)
    (hm : e.state &&& G.default_mod_mask = 0) :
    (exo_tree_view_button_press_event G tv e).1.priv.single_click = true
    ∧ (exo_tree_view_button_press_event G tv e).1.priv.button_release_activates = true := by
  have hc : ¬ press_is_consumed G tv e = true := by
    simp [press_is_consumed, ht]
  have ha : (press_on_bin_window G tv e && press_activates G tv e) = true := by
    simp [press_on_bin_window, press_activates, no_modifier, hs, hw, ht, hb, hm]
  rw [press_event_priv, if_neg hc]
  rcases press_before_parent_priv G tv e with h | h | h <;> rw [h] <;> simp [hs, ha]

/-- The press handler never emits `row-activated`. -/
theorem press_event_no_row_activated (G : Gtk W) (tv : ExoTreeView W) (e : GdkEventButton) :
    ∀ c ∈ new_calls tv (exo_tree_view_button_press_event G tv e).1,
      Call.is_row_activated c = false := by
  intro c hc
  have h := (press_event_extends G tv e).new_calls c hc
  cases c <;> simp_all [Call.is_press_call, Call.is_row_activated]

/-- C6 (counterexample): in single-click mode, a primary first-press with no modifier
on the unselected row `[0]` followed by a release on the same row at `x = 0`, which is
inside the expander band, emits no `row-activated` at all. -/
theorem press_release_on_expander_no_activation :
    path_at refGtk (refWidget []) (press_at 0 0).x (press_at 0 0).y = some [0]
    ∧ refGtk.path_is_selected (refWidget []) [0] = false
    ∧ refGtk.get_path_at_pos
        (exo_tree_view_button_press_event refGtk
          ((ExoTreeView.init (refWidget [])).set_single_click true) (press_at 0 0)).1.base
        (release_at 0 0).x.to_gint (release_at 0 0).y.to_gint = some ([0], 0)
    ∧ (new_calls
        (exo_tree_view_button_press_event refGtk
          ((ExoTreeView.init (refWidget [])).set_single_click true) (press_at 0 0)).1
        (exo_tree_view_button_release_event refGtk
          (exo_tree_view_button_press_event refGtk
            ((ExoTreeView.init (refWidget [])).set_single_click true) (press_at 0 0)).1
          (release_at 0 0)).1).filter Call.is_row_activated = [] := by
  refine ⟨rfl, rfl, rfl, rfl⟩

/-! ## C9: the selection across a press and a release -/

/-- The reference base widget honours the sentinel select function. -/
theorem refGtk_honours_sentinel : HonoursSentinel refGtk where
  is_tree_selection := fun _ => rfl
  get_set_select_function := fun _ _ => rfl
  selected_set_select_function := fun _ _ _ => rfl
  selected_set_rubber_banding := fun _ _ _ => rfl
  select_function_set_rubber_banding := fun _ _ => rfl
  selected_unblock := fun _ _ => rfl
  parent_press_selected := by
    intro w e p h
    have h1 : w.select_function = some GtkTreeSelectionFunc.exo_noop_false := h
    show decide (p ∈ (RefWidget.parent_press 469762061 w e).1.selected) = decide (p ∈ w.selected)
    have hs : ∀ sel, w.set_selected sel = w := by
      intro sel; unfold RefWidget.set_selected; rw [if_pos h1]
    unfold RefWidget.parent_press
    simp only [hs]
    split <;> [split_ifs; skip] <;> rfl

/-- A press of type `GDK_BUTTON_PRESS` with no modifier on a selected row, with no
select function installed, leaves every row's selected state as it was, over a base
widget that honours the sentinel. -/
theorem press_on_selected_keeps_selection (G : Gtk W) (hG : HonoursSentinel G)
    (tv : ExoTreeView W) (e : GdkEventButton) (R : GtkTreePath)
    (ht : e.type = GdkEventType.GDK_BUTTON_PRESS)
    (hm : e.state &&& G.default_mod_mask = 0)
    (hw : e.window = G.get_bin_window tv.base)
    (hp : path_at G tv.base e.x e.y = some R)
    (hsel : G.path_is_selected tv.base R = true)
    (hf : G.get_select_function tv.base = none) :
    ∀ p, G.path_is_selected (exo_tree_view_button_press_event G tv e).1.base p
      = G.path_is_selected tv.base p := by
  intro p
  have hpath : press_path G tv e = some R := by
    simp [press_path, press_on_bin_window, hw, hp]
  have hc : ¬ press_is_consumed G tv e = true := by simp [press_is_consumed, ht]
  have hcl : (press_classify G tv e).base = tv.base := by
    unfold press_classify press_unselect_empty
    rw [hpath]; simp [press_on_bin_window, hw]
  have hpre : (press_preserve G (press_classify G tv e) e (some R)).1.base
        = G.set_select_function tv.base (some GtkTreeSelectionFunc.exo_noop_false)
      ∧ (press_preserve G (press_classify G tv e) e (some R)).2 = [] := by
    unfold press_preserve
    simp [press_on_selected, ht, no_modifier, hm, hG.is_tree_selection, hsel, hf, hcl]
  have hbp : ∃ w, (press_before_parent G tv e).base = w
      ∧ G.get_select_function w = some GtkTreeSelectionFunc.exo_noop_false
      ∧ G.path_is_selected w p = G.path_is_selected tv.base p := by
    unfold press_before_parent press_arbitrate
    rw [hpath]
    have hon : press_on_unselected G
        (press_preserve G (press_classify G tv e) e (some R)).1.base (some R) = false := by
      rw [hpre.1]
      simp [press_on_unselected, hG.selected_set_select_function, hsel]
    by_cases harb : press_arbitrates G
        (press_preserve G (press_classify G tv e) e (some R)).1.base e = true
    · rw [if_pos harb, hon]
      refine ⟨_, rfl, ?_, ?_⟩
      · simp [hpre.1, hG.select_function_set_rubber_banding, hG.get_set_select_function]
      · simp [hpre.1, hG.selected_set_rubber_banding, hG.selected_set_select_function]
    · rw [if_neg harb]
      refine ⟨_, rfl, ?_, ?_⟩
      · simp [hpre.1, hG.get_set_select_function]
      · simp [hpre.1, hG.selected_set_select_function]
  obtain ⟨w, hw1, hw2, hw3⟩ := hbp
  have hsp : press_selected_paths G tv e = [] := by
    unfold press_selected_paths; rw [hpath]; exact hpre.2
  have hpar : G.path_is_selected (press_parent G (press_before_parent G tv e) e).1.base p
      = G.path_is_selected tv.base p := by
    show G.path_is_selected (G.parent_button_press_event (press_before_parent G tv e).base e).1 p
      = G.path_is_selected tv.base p
    rw [hw1, hG.parent_press_selected w e p hw2, hw3]
  unfold exo_tree_view_button_press_event
  rw [if_neg hc, hsp]
  show G.path_is_selected (press_after_parent G _ e (press_path G tv e) []).base p = _
  unfold press_after_parent press_reset_select_function press_restore
  split_ifs <;> simp [select_paths, hG.selected_set_select_function, hpar]

/-- The branch of the release handler leaves the base widget alone when it makes no
call. -/
theorem release_branch_base (G : Gtk W) (tv : ExoTreeView W) (e : GdkEventButton)
    (h : release_branch_calls G tv e = []) : (release_branch G tv e).base = tv.base := by
  unfold release_branch_calls select_only_calls at h
  unfold release_branch release_activate release_select select_only
  split_ifs at h ⊢ <;> (try split at h) <;> (try split_ifs at h) <;> simp_all

/-! ## The trace of the press handler -/

theorem press_classify_trace (G : Gtk W) (tv : ExoTreeView W) (e : GdkEventButton) :
    (press_classify G tv e).trace = tv.trace ++ press_classify_calls G tv e := by
  unfold press_classify press_classify_calls press_unselect_empty
  cases press_on_bin_window G tv e <;>
    cases (press_path G tv e).isNone && no_modifier G e.state <;> simp

theorem press_preserve_trace (G : Gtk W) (tv : ExoTreeView W) (e : GdkEventButton)
    (path : Option GtkTreePath) :
    (press_preserve G tv e path).1.trace
      = tv.trace ++ press_preserve_calls G tv.base e path := by
  unfold press_preserve press_preserve_calls
  cases press_on_selected G tv.base e path <;>
    by_cases h : G.get_select_function tv.base = none <;> simp [h]

theorem press_arbitrate_trace (G : Gtk W) (tv : ExoTreeView W) (e : GdkEventButton)
    (path : Option GtkTreePath) :
    (press_arbitrate G tv e path).trace
      = tv.trace ++ press_arbitrate_calls G tv.base e path := by
  unfold press_arbitrate press_arbitrate_calls block_dnd
  cases press_arbitrates G tv.base e <;> cases press_on_unselected G tv.base path <;>
    cases G.has_site_data tv.base <;> simp

theorem select_paths_trace (G : Gtk W) (paths : List GtkTreePath) :
    ∀ tv : ExoTreeView W,
      (select_paths G tv paths).trace = tv.trace ++ paths.map Call.select_path := by
  induction paths with
  | nil => intro tv; simp [select_paths]
  | cons p ps ih =>
    intro tv
    show (select_paths G (tv.call (Call.select_path p) (fun w => G.select_path w p)) ps).trace
      = tv.trace ++ (p :: ps).map Call.select_path
    rw [ih]; simp

/-- After the parent's handler the press handler only selects paths again and resets
the select function. -/
theorem press_after_parent_trace (G : Gtk W) (tv : ExoTreeView W) (e : GdkEventButton)
    (path : Option GtkTreePath) (sp : List GtkTreePath) :
    ∃ post, (press_after_parent G tv e path sp).trace = tv.trace ++ post
      ∧ ∀ c ∈ post, (∃ p, c = Call.select_path p) ∨ c = Call.set_select_function none := by
  unfold press_after_parent press_reset_select_function press_restore
  split_ifs
  · exact ⟨sp.map Call.select_path ++ [Call.set_select_function none],
      by simp [select_paths_trace], by simp; tauto⟩
  · exact ⟨sp.map Call.select_path, by simp [select_paths_trace], by simp⟩
  · exact ⟨[Call.set_select_function none], by simp, by simp⟩
  · exact ⟨[], by simp, by simp⟩
  · exact ⟨[Call.set_select_function none], by simp, by simp⟩
  · exact ⟨[], by simp, by simp⟩

/-- The trace of a press that is not consumed: the calls of lines 275-279, of lines
300-310 and of lines 317-345, the parent's press handler, and then only calls that
select a path or reset the select function. -/
theorem press_event_trace (G : Gtk W) (tv : ExoTreeView W) (e : GdkEventButton)
    (hc : press_is_consumed G tv e = false) :
    ∃ post, (exo_tree_view_button_press_event G tv e).1.trace
        = tv.trace ++ press_classify_calls G tv e
          ++ press_preserve_calls G (press_classify G tv e).base e (press_path G tv e)
          ++ press_arbitrate_calls G (press_at_arbitration G tv e).base e (press_path G tv e)
          ++ [Call.parent_button_press_event e] ++ post
      ∧ ∀ c ∈ post, (∃ p, c = Call.select_path p) ∨ c = Call.set_select_function none := by
  unfold exo_tree_view_button_press_event
  rw [hc]
  simp only [Bool.false_eq_true, if_false]
  obtain ⟨post, h1, h2⟩ := press_after_parent_trace G
    (press_parent G (press_before_parent G tv e) e).1 e (press_path G tv e)
    (press_selected_paths G tv e)
  refine ⟨post, ?_, h2⟩
  rw [h1]
  show (press_before_parent G tv e).trace ++ [Call.parent_button_press_event e] ++ post = _
  unfold press_before_parent
  rw [press_arbitrate_trace, press_preserve_trace, press_classify_trace]
  rfl

/-- The trace of a press that is consumed at line 288. -/
theorem press_event_trace_consumed (G : Gtk W) (tv : ExoTreeView W) (e : GdkEventButton)
    (hc : press_is_consumed G tv e = true) :
    (exo_tree_view_button_press_event G tv e).1.trace
      = tv.trace ++ press_classify_calls G tv e := by
  have hw : press_on_bin_window G tv e = true := by
    simp only [press_is_consumed, Bool.and_eq_true] at hc
    exact hc.1.1
  unfold exo_tree_view_button_press_event
  rw [if_pos hc]
  unfold press_unselect_empty press_classify_calls
  rw [hw]
  cases (press_path G tv e).isNone && no_modifier G e.state <;> simp

/-- The calls of the press handler that touch the drag-and-drop handlers or
rubber-banding are those of lines 317-345. -/
theorem press_event_suspension_calls (G : Gtk W) (tv : ExoTreeView W) (e : GdkEventButton) :
    (new_calls tv (exo_tree_view_button_press_event G tv e).1).filter Call.is_suspension_call
      = if press_is_consumed G tv e then []
        else press_arbitrate_calls G (press_at_arbitration G tv e).base e
          (press_path G tv e) := by
  cases hc : press_is_consumed G tv e
  · obtain ⟨post, h1, h2⟩ := press_event_trace G tv e hc
    have h1a : (exo_tree_view_button_press_event G tv e).1.trace
        = tv.trace ++ (press_classify_calls G tv e
          ++ press_preserve_calls G (press_classify G tv e).base e (press_path G tv e)
          ++ press_arbitrate_calls G (press_at_arbitration G tv e).base e (press_path G tv e)
          ++ [Call.parent_button_press_event e] ++ post) := by
      rw [h1]; simp only [List.append_assoc]
    rw [new_calls_eq _ _ _ h1a]
    have hpost : post.filter Call.is_suspension_call = [] := by
      rw [List.filter_eq_nil_iff]
      intro c hmem
      rcases h2 c hmem with ⟨p, h⟩ | h <;> subst h <;> simp [Call.is_suspension_call]
    simp only [List.filter_append, hpost, Bool.false_eq_true, if_false]
    unfold press_classify_calls press_preserve_calls press_arbitrate_calls
    split_ifs <;> simp [Call.is_suspension_call]
  · rw [new_calls_eq _ _ _ (press_event_trace_consumed G tv e hc)]
    unfold press_classify_calls
    simp only [if_true]
    split_ifs <;> simp [Call.is_suspension_call]

/-- The suspension flags after the press handler. -/
theorem press_event_flags (G : Gtk W) (tv : ExoTreeView W) (e : GdkEventButton) :
    (exo_tree_view_button_press_event G tv e).1.priv.button_release_unblocks_dnd
        = (tv.priv.button_release_unblocks_dnd
          || (!press_is_consumed G tv e
            && (press_arbitrates G (press_at_arbitration G tv e).base e
              && press_on_unselected G (press_at_arbitration G tv e).base (press_path G tv e))))
    ∧ (exo_tree_view_button_press_event G tv e).1.priv.button_release_enables_rubber_banding
        = (tv.priv.button_release_enables_rubber_banding
          || (!press_is_consumed G tv e
            && (press_arbitrates G (press_at_arbitration G tv e).base e
              && !press_on_unselected G (press_at_arbitration G tv e).base
                (press_path G tv e)))) := by
  rw [press_event_priv]
  cases hc : press_is_consumed G tv e
  · simp only [Bool.false_eq_true, if_false]
    unfold press_before_parent
    rw [press_arbitrate_priv, press_preserve_priv, press_classify_priv]
    unfold press_at_arbitration
    cases press_arbitrates G
        (press_preserve G (press_classify G tv e) e (press_path G tv e)).1.base e <;>
      cases press_on_unselected G
        (press_preserve G (press_classify G tv e) e (press_path G tv e)).1.base
        (press_path G tv e) <;> simp
  · simp

/-! ## C11: the arbitration between drag-and-drop and rubber-banding -/

/-- C11 (counterexample): on a widget in multiple selection mode with rubber-banding
enabled and no drag-site data, an unmodified primary first-press on the unselected row
`[0]` sets `button_release_unblocks_dnd` although the handler makes no call that
blocks the drag-and-drop handlers. -/
theorem press_without_site_data_blocks_nothing :
    refGtk.get_mode { refWidget [] with site_data := false }
        = GtkSelectionMode.GTK_SELECTION_MULTIPLE
    ∧ refGtk.get_rubber_banding { refWidget [] with site_data := false } = true
    ∧ refGtk.path_is_selected { refWidget [] with site_data := false } [0] = false
    ∧ (new_calls (ExoTreeView.init { refWidget [] with site_data := false })
        (exo_tree_view_button_press_event refGtk
          (ExoTreeView.init { refWidget [] with site_data := false })
          (press_at 100 0)).1).filter Call.is_suspension_call = []
    ∧ (exo_tree_view_button_press_event refGtk
        (ExoTreeView.init { refWidget [] with site_data := false })
        (press_at 100 0)).1.priv.button_release_unblocks_dnd = true := by
  exact ⟨rfl, rfl, rfl, rfl, rfl⟩

/-! ## C12: a press with a modifier held -/

/-- With a modifier held, lines 263-310 make no call: line 317 is reached in the base
state of entry. -/
theorem press_at_arbitration_modified (G : Gtk W) (tv : ExoTreeView W) (e : GdkEventButton)
    (hm : e.state &&& G.default_mod_mask ≠ 0) :
    (press_at_arbitration G tv e).base = tv.base := by
  have hn : no_modifier G e.state = false := by simp [no_modifier, hm]
  unfold press_at_arbitration press_preserve press_on_selected press_classify
    press_unselect_empty
  rw [hn]
  cases press_on_bin_window G tv e <;> simp

/-- C12 (counterexample): on the reference widget in multiple selection mode with
rubber-banding enabled, a first press of button 1 with Shift held on the unselected
row `[0]` blocks the drag-and-drop handlers and sets `button_release_unblocks_dnd`. -/
theorem press_with_modifier_blocks_dnd :
    (press_with 1 1 100 0).state &&& refGtk.default_mod_mask ≠ 0
    ∧ (new_calls (ExoTreeView.init (refWidget []))
        (exo_tree_view_button_press_event refGtk (ExoTreeView.init (refWidget []))
          (press_with 1 1 100 0)).1).filter Call.is_suspension_call
      = [Call.handlers_block_matched]
    ∧ (ExoTreeView.init (refWidget [])).priv.button_release_unblocks_dnd = false
    ∧ (exo_tree_view_button_press_event refGtk (ExoTreeView.init (refWidget []))
        (press_with 1 1 100 0)).1.priv.button_release_unblocks_dnd = true := by
  exact ⟨by decide, rfl, rfl, rfl⟩

/-! ## The calls of one event -/

theorem motion_before_parent_trace (G : Gtk W) (tv : ExoTreeView W) (e : GdkEventMotion) :
    (motion_before_parent G tv e).trace = tv.trace ++ motion_calls G tv e := by
  unfold motion_before_parent motion_hover motion_calls exo_tree_view_item_hovered
  cases decide (e.window = G.get_bin_window tv.base) <;> cases tv.priv.single_click <;>
    cases tv.priv.button_release_unblocks_dnd <;>
    cases hover_changed (path_at G tv.base e.x e.y) tv.priv.hover_path <;> simp

theorem motion_event_trace (G : Gtk W) (tv : ExoTreeView W) (e : GdkEventMotion) :
    (exo_tree_view_motion_notify_event G tv e).1.trace
      = tv.trace ++ (motion_calls G tv e ++ [Call.parent_motion_notify_event e]) := by
  unfold exo_tree_view_motion_notify_event
  rw [call_parent_trace, motion_before_parent_trace, List.append_assoc]

theorem hover_payloads_append (a b : List Call) :
    hover_payloads (a ++ b) = hover_payloads a ++ hover_payloads b := by
  induction a with
  | nil => rfl
  | cons c cs ih => cases c <;> simp [hover_payloads, ih]

theorem hover_payloads_of_not_hovered (cs : List Call)
    (h : ∀ c ∈ cs, ∀ p, c ≠ Call.item_hovered p) : hover_payloads cs = [] := by
  induction cs with
  | nil => rfl
  | cons c cs ih =>
    have hc := h c (List.mem_cons_self _ _)
    have ih1 := ih (fun d hd => h d (List.mem_cons_of_mem _ hd))
    cases c <;> simp_all [hover_payloads]

/-- The trace after one event extends the trace before it; the new calls that touch
the drag-and-drop handlers or rubber-banding, and the payloads of the new
`item-hovered` emissions, are the ones listed for the event. -/
theorem step_trace (G : Gtk W) (tv : ExoTreeView W) (ev : Event) :
    ∃ cs, (step G tv ev).trace = tv.trace ++ cs
      ∧ cs.filter Call.is_suspension_call = step_suspension_calls G tv ev
      ∧ hover_payloads cs = step_hover_payloads G tv ev := by
  cases ev with
  | press e =>
    obtain ⟨cs, h1, h2⟩ := press_event_extends G tv e
    refine ⟨cs, h1, ?_, ?_⟩
    · have h := press_event_suspension_calls G tv e
      rw [new_calls_eq _ _ _ h1] at h
      exact h
    · apply hover_payloads_of_not_hovered
      intro c hc p hp
      have := h2 c hc
      subst hp
      simp [Call.is_press_call] at this
  | release e =>
    refine ⟨release_branch_calls G tv e ++ release_epilogue_calls G tv e
      ++ [Call.parent_button_release_event e], ?_, ?_, ?_⟩
    · show (exo_tree_view_button_release_event G tv e).1.trace = _
      rw [release_event_trace]; simp only [List.append_assoc]
    · have hb : (release_branch_calls G tv e).filter Call.is_suspension_call = [] := by
        rw [List.filter_eq_nil_iff]
        intro c hmem
        rcases release_branch_calls_kind G tv e c hmem with h | ⟨p, c1, h⟩ | ⟨p, c1, h⟩ <;>
          subst h <;> simp [Call.is_suspension_call]
      have he : (release_epilogue_calls G tv e).filter Call.is_suspension_call
          = release_epilogue_calls G tv e := by
        rw [List.filter_eq_self]
        intro c hmem
        rcases release_epilogue_calls_kind G tv e c hmem with h | h <;>
          subst h <;> simp [Call.is_suspension_call]
      simp [List.filter_append, hb, he, step_suspension_calls, Call.is_suspension_call]
    · apply hover_payloads_of_not_hovered
      intro c hc p hp
      subst hp
      simp only [List.mem_append, List.mem_singleton] at hc
      rcases hc with (hc | hc) | hc
      · rcases release_branch_calls_kind G tv e _ hc with h | ⟨p1, c1, h⟩ | ⟨p1, c1, h⟩ <;>
          simp at h
      · rcases release_epilogue_calls_kind G tv e _ hc with h | h <;> simp at h
      · simp at hc
  | motion e =>
    refine ⟨motion_calls G tv e ++ [Call.parent_motion_notify_event e],
      motion_event_trace G tv e, ?_, ?_⟩
    · unfold motion_calls
      split_ifs <;> simp [step_suspension_calls, Call.is_suspension_call]
    · simp [hover_payloads_append, hover_payloads, step_hover_payloads]
  | leave e =>
    refine ⟨[Call.item_hovered none, Call.parent_leave_notify_event e], ?_, rfl, rfl⟩
    show (exo_tree_view_leave_notify_event G tv e).1.trace = _
    simp [exo_tree_view_leave_notify_event, exo_tree_view_item_hovered]
  | drag_begin c => exact ⟨[Call.parent_drag_begin c], rfl, rfl, rfl⟩
  | move_cursor s n => exact ⟨[Call.parent_move_cursor s n], rfl, rfl, rfl⟩

/-- The trace after a sequence of events extends the trace before it. -/
theorem run_trace (G : Gtk W) (events : List Event) :
    ∀ tv : ExoTreeView W, ∃ cs, (run G tv events).trace = tv.trace ++ cs := by
  induction events with
  | nil => intro tv; exact ⟨[], by simp [run]⟩
  | cons ev es ih =>
    intro tv
    obtain ⟨cs1, h1, _⟩ := step_trace G tv ev
    obtain ⟨cs2, h2⟩ := ih (step G tv ev)
    refine ⟨cs1 ++ cs2, ?_⟩
    show (run G (step G tv ev) es).trace = _
    rw [h2, h1, List.append_assoc]

theorem foldl_block_step_filter (cs : List Call) :
    ∀ n, cs.foldl block_step n = (cs.filter Call.is_suspension_call).foldl block_step n := by
  induction cs with
  | nil => intro n; rfl
  | cons c cs ih =>
    intro n
    cases c <;> simp [List.filter, Call.is_suspension_call, block_step, ih]

theorem foldl_rubber_banding_step_filter (cs : List Call) :
    ∀ d, cs.foldl rubber_banding_step d
      = (cs.filter Call.is_suspension_call).foldl rubber_banding_step d := by
  induction cs with
  | nil => intro d; rfl
  | cons c cs ih =>
    intro d
    cases c <;> simp [List.filter, Call.is_suspension_call, rubber_banding_step, ih]

/-! ## C13: the flags and the calls they stand for -/

/-- C13 (counterexample): with `button_release_unblocks_dnd` true the block count is
not 1 in two reachable states: it is 0 after a press on a widget without drag-site
data, and it is 2 after two presses on unselected rows with no release between them. -/
theorem block_count_differs_from_flag :
    ((run refGtk (ExoTreeView.init { refWidget [] with site_data := false })
          [Event.press (press_at 100 0)]).priv.button_release_unblocks_dnd = true
      ∧ block_count (run refGtk (ExoTreeView.init { refWidget [] with site_data := false })
          [Event.press (press_at 100 0)]).trace = 0)
    ∧ ((run refGtk (ExoTreeView.init (refWidget []))
          [Event.press (press_at 100 0),
            Event.press (press_at 100 1)]).priv.button_release_unblocks_dnd = true
      ∧ block_count (run refGtk (ExoTreeView.init (refWidget []))
          [Event.press (press_at 100 0), Event.press (press_at 100 1)]).trace = 2) := by
  exact ⟨⟨rfl, rfl⟩, rfl, rfl⟩

/-! ## C14: hover notifications along motion events -/

/-- `gtk_tree_path_compare` returns 0 exactly on equal paths. -/
theorem gtk_tree_path_compare_eq_zero : ∀ p h : GtkTreePath,
    gtk_tree_path_compare p h = 0 ↔ p = h := by
  intro p
  induction p with
  | nil => intro h; cases h <;> simp [gtk_tree_path_compare]
  | cons a as ih =>
    intro h
    cases h with
    | nil => simp [gtk_tree_path_compare]
    | cons b bs =>
      unfold gtk_tree_path_compare
      by_cases hab : a = b
      · simp [hab, ih]
      · by_cases hlt : a < b <;> simp [hab, hlt]

/-- The test of lines 526-528 holds exactly when the two optional paths differ. -/
theorem hover_changed_iff (path hover_path : Option GtkTreePath) :
    hover_changed path hover_path = true ↔ path ≠ hover_path := by
  cases path <;> cases hover_path <;> simp [hover_changed, gtk_tree_path_compare_eq_zero]

/-- A motion event changes neither the mode nor the suspension flags. -/
theorem motion_event_mode (G : Gtk W) (tv : ExoTreeView W) (e : GdkEventMotion) :
    (exo_tree_view_motion_notify_event G tv e).1.priv.single_click = tv.priv.single_click := by
  unfold exo_tree_view_motion_notify_event motion_before_parent motion_hover
    exo_tree_view_item_hovered
  rw [call_parent_priv]
  split_ifs <;> simp

/-- One tracked motion event: the calls it makes and the hover path it leaves. -/
theorem motion_event_tracked (G : Gtk W) (tv : ExoTreeView W) (e : GdkEventMotion)
    (hs : tv.priv.single_click = true) (hd : tv.priv.button_release_unblocks_dnd = false)
    (hw : e.window = G.get_bin_window tv.base) :
    new_calls tv (exo_tree_view_motion_notify_event G tv e).1
        = (if path_at G tv.base e.x e.y ≠ tv.priv.hover_path
            then [Call.item_hovered (path_at G tv.base e.x e.y)] else [])
          ++ [Call.parent_motion_notify_event e]
    ∧ (exo_tree_view_motion_notify_event G tv e).1.priv.hover_path
        = path_at G tv.base e.x e.y := by
  constructor
  · rw [new_calls_eq _ _ _ (motion_event_trace G tv e)]
    unfold motion_calls
    by_cases h : path_at G tv.base e.x e.y ≠ tv.priv.hover_path
    · simp [hw, hs, hd, (hover_changed_iff _ _).mpr h, h]
    · have h1 : hover_changed (path_at G tv.base e.x e.y) tv.priv.hover_path = false := by
        rw [← Bool.not_eq_true, hover_changed_iff]; exact h
      simp [h1, h]
  · unfold exo_tree_view_motion_notify_event motion_before_parent motion_hover
      exo_tree_view_item_hovered
    rw [call_parent_priv]
    by_cases h : path_at G tv.base e.x e.y ≠ tv.priv.hover_path
    · simp [hw, hs, hd, (hover_changed_iff _ _).mpr h]
    · have h1 : hover_changed (path_at G tv.base e.x e.y) tv.priv.hover_path = false := by
        rw [← Bool.not_eq_true, hover_changed_iff]; exact h
      simp only [not_not] at h
      rw [h1]
      simp [hw, hs, hd, h]

/-- The trace after a sequence of motion events extends the trace before it. -/
theorem run_motions_trace (G : Gtk W) (es : List GdkEventMotion) :
    ∀ tv : ExoTreeView W, ∃ cs, (run_motions G tv es).trace = tv.trace ++ cs := by
  induction es with
  | nil => intro tv; exact ⟨[], by simp [run_motions]⟩
  | cons e es ih =>
    intro tv
    obtain ⟨cs, h⟩ := ih (exo_tree_view_motion_notify_event G tv e).1
    refine ⟨(motion_calls G tv e ++ [Call.parent_motion_notify_event e]) ++ cs, ?_⟩
    show (run_motions G (exo_tree_view_motion_notify_event G tv e).1 es).trace = _
    rw [h, motion_event_trace, List.append_assoc]

/-- Along tracked motion events the payloads of the notifications form a chain of
unequal neighbours that starts at the hover path of entry. -/
theorem run_motions_chain (G : Gtk W) (es : List GdkEventMotion) :
    ∀ tv : ExoTreeView W, tv.priv.single_click = true →
      tv.priv.button_release_unblocks_dnd = false →
      motions_on_bin_window G tv es = true →
      List.Chain (fun a b => a ≠ b) tv.priv.hover_path
          (hover_payloads (new_calls tv (run_motions G tv es)))
        ∧ (run_motions G tv es).priv.single_click = true
        ∧ (run_motions G tv es).priv.button_release_unblocks_dnd = false := by
  induction es with
  | nil =>
    intro tv hs hd _
    refine ⟨?_, hs, hd⟩
    rw [new_calls_eq tv _ [] (by simp [run_motions])]
    exact List.Chain.nil
  | cons e es ih =>
    intro tv hs hd hon
    simp only [motions_on_bin_window, Bool.and_eq_true, decide_eq_true_eq] at hon
    obtain ⟨hw, hon1⟩ := hon
    obtain ⟨hcalls, hhover⟩ := motion_event_tracked G tv e hs hd hw
    have hs1 := (motion_event_mode G tv e).trans hs
    have hd1 := (motion_event_suspension_flags G tv e).1.trans hd
    obtain ⟨ih1, ih2, ih3⟩ := ih _ hs1 hd1 hon1
    obtain ⟨cs, hcs⟩ := run_motions_trace G es (exo_tree_view_motion_notify_event G tv e).1
    have hrun : run_motions G tv (e :: es)
        = run_motions G (exo_tree_view_motion_notify_event G tv e).1 es := rfl
    rw [hrun]
    refine ⟨?_, ih2, ih3⟩
    rw [new_calls_eq _ _ _ hcs, hhover] at ih1
    have htr : (run_motions G (exo_tree_view_motion_notify_event G tv e).1 es).trace
        = tv.trace ++ (new_calls tv (exo_tree_view_motion_notify_event G tv e).1 ++ cs) := by
      rw [hcs, motion_event_trace,
        new_calls_eq _ _ _ (motion_event_trace G tv e), List.append_assoc]
    rw [new_calls_eq _ _ _ htr, hover_payloads_append, hcalls]
    by_cases h : path_at G tv.base e.x e.y ≠ tv.priv.hover_path
    · rw [if_pos h]
      show List.Chain (fun a b => a ≠ b) tv.priv.hover_path
        (path_at G tv.base e.x e.y :: hover_payloads cs)
      exact List.Chain.cons (Ne.symm h) ih1
    · rw [if_neg h]
      show List.Chain (fun a b => a ≠ b) tv.priv.hover_path (hover_payloads cs)
      simp only [not_not] at h
      rw [← h]; exact ih1

/-! ## C15: motion events outside hover tracking -/

/-- C15: a motion event in double-click mode or off the bin window leaves the private
data unchanged and makes no call but the parent's motion handler.  In single-click
mode on the bin window with `button_release_unblocks_dnd` set it clears
`button_release_activates`, leaves the rest of the private data (the hover path
included) unchanged, makes no call but the parent's handler, and its outcome is the
same for every hit-test function, so no hit-test is consulted.  In every case the
parent's motion handler is the last call and its result is returned. -/
theorem motion_outside_tracking (G : Gtk W) (tv : ExoTreeView W) (e : GdkEventMotion) :
    ((tv.priv.single_click = false ∨ e.window ≠ G.get_bin_window tv.base) →
      (exo_tree_view_motion_notify_event G tv e).1.priv = tv.priv
        ∧ new_calls tv (exo_tree_view_motion_notify_event G tv e).1 = [Call.parent_motion_notify_event e]
        ∧ (exo_tree_view_motion_notify_event G tv e).2 = (G.parent_motion_notify_event tv.base e).2)
    ∧ (tv.priv.single_click = true → e.window = G.get_bin_window tv.base →
      tv.priv.button_release_unblocks_dnd = true →
      (exo_tree_view_motion_notify_event G tv e).1.priv = { tv.priv with button_release_activates := false }
        ∧ new_calls tv (exo_tree_view_motion_notify_event G tv e).1 = [Call.parent_motion_notify_event e]
        ∧ (exo_tree_view_motion_notify_event G tv e).2 = (G.parent_motion_notify_event tv.base e).2
        ∧ ∀ hit, exo_tree_view_motion_notify_event (G.with_path_at_pos hit) tv e = (exo_tree_view_motion_notify_event G tv e))
    ∧ ((exo_tree_view_motion_notify_event G tv e).1.trace = (motion_before_parent G tv e).trace ++ [Call.parent_motion_notify_event e]
      ∧ (exo_tree_view_motion_notify_event G tv e).1.base = (G.parent_motion_notify_event (motion_before_parent G tv e).base e).1
      ∧ (exo_tree_view_motion_notify_event G tv e).2 = (G.parent_motion_notify_event (motion_before_parent G tv e).base e).2) := by
  refine ⟨?_, ?_, rfl, rfl, rfl⟩
  · intro h
    have hb : motion_before_parent G tv e = tv := by
      unfold motion_before_parent
      rcases h with h | h <;> simp [h]
    have hc : motion_calls G tv e = [] := by
      unfold motion_calls
      rcases h with h | h <;> simp [h]
    refine ⟨?_, ?_, ?_⟩
    · unfold exo_tree_view_motion_notify_event; rw [call_parent_priv, hb]
    · rw [new_calls_eq _ _ _ (motion_event_trace G tv e), hc]; rfl
    · unfold exo_tree_view_motion_notify_event; rw [call_parent_result, hb]
  · intro hs hw hd
    have hb : motion_before_parent G tv e = tv.set_activates false := by
      unfold motion_before_parent
      simp [hs, hw, hd]
    have hc : motion_calls G tv e = [] := by
      unfold motion_calls
      simp [hd]
    refine ⟨?_, ?_, ?_, ?_⟩
    · unfold exo_tree_view_motion_notify_event; rw [call_parent_priv, hb]; rfl
    · rw [new_calls_eq _ _ _ (motion_event_trace G tv e), hc]; rfl
    · unfold exo_tree_view_motion_notify_event; rw [call_parent_result, hb]; rfl
    · intro hit
      have hw1 : e.window = (G.with_path_at_pos hit).get_bin_window tv.base := hw
      have hb1 : motion_before_parent (G.with_path_at_pos hit) tv e
          = tv.set_activates false := by
        unfold motion_before_parent
        simp [hs, hw1, hd]
      unfold exo_tree_view_motion_notify_event
      rw [hb, hb1]
      rfl

/-- C15 (witness): on the reference widget, a motion event in double-click mode, and
one in single-click mode while `button_release_unblocks_dnd` is set. -/
theorem motion_outside_tracking_witness :
    ((exo_tree_view_motion_notify_event refGtk (ExoTreeView.init (refWidget []))
          (motion_at 100 0)).1.priv = (ExoTreeView.init (refWidget [])).priv
      ∧ new_calls (ExoTreeView.init (refWidget []))
          (exo_tree_view_motion_notify_event refGtk (ExoTreeView.init (refWidget []))
            (motion_at 100 0)).1 = [Call.parent_motion_notify_event (motion_at 100 0)])
    ∧ (exo_tree_view_motion_notify_event refGtk
        ((((ExoTreeView.init (refWidget [])).set_single_click true).set_unblocks_dnd
          true).set_activates true)
        (motion_at 100 0)).1.priv.button_release_activates = false :=
  ⟨⟨((motion_outside_tracking refGtk (ExoTreeView.init (refWidget []))
        (motion_at 100 0)).1 (Or.inl rfl)).1,
      ((motion_outside_tracking refGtk (ExoTreeView.init (refWidget []))
        (motion_at 100 0)).1 (Or.inl rfl)).2.1⟩,
    congrArg ExoTreeViewPrivate.button_release_activates
      ((motion_outside_tracking refGtk
        ((((ExoTreeView.init (refWidget [])).set_single_click true).set_unblocks_dnd
          true).set_activates true)
        (motion_at 100 0)).2.1 rfl rfl rfl).1⟩

/-! ## C17: the leave handler -/

/-- C17: in every state the leave handler clears the hover path and
`button_release_activates` and leaves the mode and both suspension flags unchanged;
it emits `item-hovered` once, with an empty payload, and then calls the parent's leave
handler, whose result it returns; a second leave event leaves the private data as the
first one left it. -/
theorem leave_clears_hover (G : Gtk W) (tv : ExoTreeView W) (e e1 : GdkEventCrossing) :
    (exo_tree_view_leave_notify_event G tv e).1.priv
        = { tv.priv with hover_path := none, button_release_activates := false }
    ∧ new_calls tv (exo_tree_view_leave_notify_event G tv e).1
        = [Call.item_hovered none, Call.parent_leave_notify_event e]
    ∧ (exo_tree_view_leave_notify_event G tv e).2
        = (G.parent_leave_notify_event (G.emit_item_hovered tv.base none) e).2
    ∧ (exo_tree_view_leave_notify_event G
          (exo_tree_view_leave_notify_event G tv e).1 e1).1.priv
        = (exo_tree_view_leave_notify_event G tv e).1.priv := by
  refine ⟨rfl, ?_, rfl, rfl⟩
  apply new_calls_eq
  simp [exo_tree_view_leave_notify_event, exo_tree_view_item_hovered]

/-! ## C16: the hover path and the notifications -/

/-- The hover path after a motion event. -/
theorem motion_event_hover_path (G : Gtk W) (tv : ExoTreeView W) (e : GdkEventMotion) :
    (exo_tree_view_motion_notify_event G tv e).1.priv.hover_path
      = (if motion_calls G tv e = [] then tv.priv.hover_path
          else path_at G tv.base e.x e.y) := by
  unfold exo_tree_view_motion_notify_event motion_before_parent motion_hover
    exo_tree_view_item_hovered motion_calls
  rw [call_parent_priv]
  cases decide (e.window = G.get_bin_window tv.base) <;> cases tv.priv.single_click <;>
    cases tv.priv.button_release_unblocks_dnd <;>
    cases hover_changed (path_at G tv.base e.x e.y) tv.priv.hover_path <;> simp

/-- The press and release handlers leave the hover path alone. -/
theorem button_event_hover_path (G : Gtk W) (tv : ExoTreeView W) (e : GdkEventButton) :
    (exo_tree_view_button_press_event G tv e).1.priv.hover_path = tv.priv.hover_path
    ∧ (exo_tree_view_button_release_event G tv e).1.priv.hover_path = tv.priv.hover_path := by
  constructor
  · rw [press_event_priv]
    split_ifs
    · rfl
    · rcases press_before_parent_priv G tv e with h | h | h <;> rw [h]
  · rw [release_event_priv]

/-- One event other than a cursor move either emits no `item-hovered` and leaves the
hover path as it was, or leaves the hover path equal to the last payload it emitted. -/
theorem step_hover_path (G : Gtk W) (tv : ExoTreeView W) (ev : Event)
    (h : ∀ s n, ev ≠ Event.move_cursor s n) :
    (step_hover_payloads G tv ev = [] ∧ (step G tv ev).priv.hover_path = tv.priv.hover_path)
    ∨ (step_hover_payloads G tv ev).getLast? = some (step G tv ev).priv.hover_path := by
  cases ev with
  | press e => exact Or.inl ⟨rfl, (button_event_hover_path G tv e).1⟩
  | release e => exact Or.inl ⟨rfl, (button_event_hover_path G tv e).2⟩
  | motion e =>
    show (hover_payloads (motion_calls G tv e) = []
        ∧ (exo_tree_view_motion_notify_event G tv e).1.priv.hover_path = tv.priv.hover_path)
      ∨ (hover_payloads (motion_calls G tv e)).getLast?
        = some (exo_tree_view_motion_notify_event G tv e).1.priv.hover_path
    rw [motion_event_hover_path]
    unfold motion_calls
    split_ifs <;> simp_all [hover_payloads]
  | leave e => exact Or.inr rfl
  | drag_begin c => exact Or.inl ⟨rfl, rfl⟩
  | move_cursor s n => exact absurd rfl (h s n)

/-- Along a sequence with no cursor move, either nothing was emitted and the hover
path is as it was, or the hover path is the last payload emitted. -/
theorem run_hover_path (G : Gtk W) (events : List Event) :
    ∀ tv : ExoTreeView W, no_move_cursor events = true →
      (hover_payloads (new_calls tv (run G tv events)) = []
        ∧ (run G tv events).priv.hover_path = tv.priv.hover_path)
      ∨ last_hovered (new_calls tv (run G tv events))
        = some (run G tv events).priv.hover_path := by
  induction events with
  | nil =>
    intro tv _
    left
    rw [new_calls_eq tv _ [] (by simp [run])]
    exact ⟨rfl, rfl⟩
  | cons ev es ih =>
    intro tv hn
    have hev : ∀ s n, ev ≠ Event.move_cursor s n := by
      intro s n hc; subst hc; simp [no_move_cursor] at hn
    have hes : no_move_cursor es = true := by
      cases ev <;> simp_all [no_move_cursor]
    obtain ⟨cs1, h1, _, hp1⟩ := step_trace G tv ev
    obtain ⟨cs2, h2⟩ := run_trace G es (step G tv ev)
    have hrun : run G tv (ev :: es) = run G (step G tv ev) es := rfl
    have htr : (run G (step G tv ev) es).trace = tv.trace ++ (cs1 ++ cs2) := by
      rw [h2, h1, List.append_assoc]
    have ih1 := ih (step G tv ev) hes
    rw [new_calls_eq _ _ _ h2] at ih1
    rw [hrun, new_calls_eq _ _ _ htr]
    unfold last_hovered at ih1 ⊢
    rw [hover_payloads_append, hp1]
    rcases ih1 with ⟨hnil, hsame⟩ | hlast
    · rw [hnil, List.append_nil, hsame]
      exact step_hover_path G tv ev hev
    · right
      have hne : hover_payloads cs2 ≠ [] := by
        intro hc; rw [hc] at hlast; simp at hlast
      rw [List.getLast?_append_of_ne_nil _ hne]
      exact hlast

/-- C16 (counterexample): in single-click mode, a motion event onto row `[0]` emits
`item-hovered` for `[0]`; a cursor move then clears the hover path and emits nothing,
so the accessor returns none while the most recent payload is `[0]`. -/
theorem move_cursor_clears_hover_silently :
    last_hovered (run refGtk ((ExoTreeView.init (refWidget [])).set_single_click true)
        [Event.motion (motion_at 100 0), Event.move_cursor 0 1]).trace = some (some [0])
    ∧ exo_tree_view_get_hover_path
        (run refGtk ((ExoTreeView.init (refWidget [])).set_single_click true)
          [Event.motion (motion_at 100 0)]) = some [0]
    ∧ exo_tree_view_get_hover_path
        (run refGtk ((ExoTreeView.init (refWidget [])).set_single_click true)
          [Event.motion (motion_at 100 0), Event.move_cursor 0 1]) = none := by
  exact ⟨rfl, rfl, rfl⟩

/-! ## C18 and C19: the select function slot -/

/-- The reference library satisfies the facts about the select function slot. -/
theorem refGtk_select_function_slot : SelectFunctionSlot refGtk where
  get_set := fun _ _ _ => rfl
  get_invalid := fun _ h => by simp [refGtk] at h
  get_unselect_all := by
    intro w
    show (w.set_selected []).select_function = w.select_function
    unfold RefWidget.set_selected; split <;> rfl
  get_select_path := by
    intro w p
    show (if p ∈ w.selected then w else w.set_selected (w.selected ++ [p])).select_function
      = w.select_function
    unfold RefWidget.set_selected; split_ifs <;> rfl
  get_set_rubber_banding := fun _ _ => rfl
  get_block := fun _ => rfl

/-- The reference parent press handler does not write the select function slot. -/
theorem refGtk_parent_press_slot (w : RefWidget) (e : GdkEventButton) :
    refGtk.get_select_function (refGtk.parent_button_press_event w e).1
      = refGtk.get_select_function w := by
  show (RefWidget.parent_press 469762061 w e).1.select_function = w.select_function
  unfold RefWidget.parent_press RefWidget.set_selected
  split <;> [split_ifs; skip] <;> rfl

theorem press_classify_slot (G : Gtk W) (hL : SelectFunctionSlot G) (tv : ExoTreeView W)
    (e : GdkEventButton) :
    G.get_select_function (press_classify G tv e).base = G.get_select_function tv.base := by
  unfold press_classify press_unselect_empty
  split_ifs <;> simp [hL.get_unselect_all]

/-- The test of lines 300-301 sees the base state of entry: `unselect_all` is only
called when no row was resolved. -/
theorem press_on_selected_classify (G : Gtk W) (tv : ExoTreeView W) (e : GdkEventButton) :
    press_on_selected G (press_classify G tv e).base e (press_path G tv e)
      = press_on_selected G tv.base e (press_path G tv e) := by
  cases hp : press_path G tv e with
  | none => simp [press_on_selected]
  | some p =>
    have hb : (press_classify G tv e).base = tv.base := by
      unfold press_classify press_unselect_empty
      rw [hp]; split_ifs <;> simp_all
    rw [hb]

theorem press_on_selected_valid (G : Gtk W) (w : W) (e : GdkEventButton)
    (path : Option GtkTreePath) (h : press_on_selected G w e path = true) :
    G.is_tree_selection w = true := by
  unfold press_on_selected at h
  cases path <;> simp_all

theorem press_preserve_slot (G : Gtk W) (hL : SelectFunctionSlot G) (tv : ExoTreeView W)
    (e : GdkEventButton) (path : Option GtkTreePath) :
    G.get_select_function (press_preserve G tv e path).1.base
      = (if press_on_selected G tv.base e path = true ∧ G.get_select_function tv.base = none
          then some GtkTreeSelectionFunc.exo_noop_false else G.get_select_function tv.base) := by
  unfold press_preserve
  by_cases h1 : press_on_selected G tv.base e path = true
  · by_cases h2 : G.get_select_function tv.base = none
    · simp [h1, h2, hL.get_set _ _ (press_on_selected_valid G _ e path h1)]
    · simp [h1, h2]
  · simp [h1]

theorem press_arbitrate_slot (G : Gtk W) (hL : SelectFunctionSlot G) (tv : ExoTreeView W)
    (e : GdkEventButton) (path : Option GtkTreePath) :
    G.get_select_function (press_arbitrate G tv e path).base
      = G.get_select_function tv.base := by
  unfold press_arbitrate block_dnd
  split_ifs <;> simp [hL.get_block, hL.get_set_rubber_banding]

theorem select_paths_slot (G : Gtk W) (hL : SelectFunctionSlot G)
    (paths : List GtkTreePath) :
    ∀ tv : ExoTreeView W, G.get_select_function (select_paths G tv paths).base
      = G.get_select_function tv.base := by
  induction paths with
  | nil => intro tv; rfl
  | cons p ps ih =>
    intro tv
    show G.get_select_function
      (select_paths G (tv.call (Call.select_path p) (fun w => G.select_path w p)) ps).base = _
    rw [ih]; exact hL.get_select_path _ _

/-- After lines 350-373 the slot never holds the sentinel: a sentinel found there is
replaced by `NULL`, anything else is kept. -/
theorem press_after_parent_slot (G : Gtk W) (hL : SelectFunctionSlot G) (tv : ExoTreeView W)
    (e : GdkEventButton) (path : Option GtkTreePath) (sp : List GtkTreePath) :
    G.get_select_function (press_after_parent G tv e path sp).base
      = (if G.get_select_function tv.base = some GtkTreeSelectionFunc.exo_noop_false then none
          else G.get_select_function tv.base) := by
  have hr : G.get_select_function (press_restore G tv e path sp).base
      = G.get_select_function tv.base := by
    unfold press_restore
    split_ifs <;> simp [select_paths_slot G hL]
  unfold press_after_parent press_reset_select_function
  cases hts : G.is_tree_selection (press_restore G tv e path sp).base
  · have hnone := hL.get_invalid _ hts
    rw [hr] at hnone
    simp [hr, hnone]
  · by_cases hs : G.get_select_function tv.base = some GtkTreeSelectionFunc.exo_noop_false
    · simp [hr, hs, hL.get_set _ _ hts]
    · simp [hr, hs]

/-- The select function slot in the state in which the parent's handler is called. -/
theorem press_before_parent_slot (G : Gtk W) (hL : SelectFunctionSlot G) (tv : ExoTreeView W)
    (e : GdkEventButton) :
    G.get_select_function (press_before_parent G tv e).base
      = (if press_on_selected G tv.base e (press_path G tv e) = true
            ∧ G.get_select_function tv.base = none
          then some GtkTreeSelectionFunc.exo_noop_false else G.get_select_function tv.base) := by
  unfold press_before_parent
  rw [press_arbitrate_slot G hL, press_preserve_slot G hL, press_on_selected_classify,
    press_classify_slot G hL]

/-- C18: over a library in which only `set_select_function` writes the select function
slot, and from a state whose slot does not hold the sentinel (it is a static function
that only this handler installs): on every exit path of the press handler, the
consumed double-click included, if the parent's press handler does not write the slot
then the slot on return holds what it held on entry; and whatever the parent's handler
does, the slot on return does not hold `exo_noop_false`. -/
theorem press_restores_select_function (G : Gtk W) (hL : SelectFunctionSlot G)
    (tv : ExoTreeView W) (e : GdkEventButton)
    (hentry : G.get_select_function tv.base ≠ some GtkTreeSelectionFunc.exo_noop_false) :
    ((∀ w, G.get_select_function (G.parent_button_press_event w e).1
          = G.get_select_function w) →
      G.get_select_function (exo_tree_view_button_press_event G tv e).1.base
        = G.get_select_function tv.base)
    ∧ G.get_select_function (exo_tree_view_button_press_event G tv e).1.base
        ≠ some GtkTreeSelectionFunc.exo_noop_false := by
  unfold exo_tree_view_button_press_event
  by_cases hc : press_is_consumed G tv e = true
  · rw [if_pos hc]
    have hs : G.get_select_function
        (press_unselect_empty G (tv.set_activates false) e (press_path G tv e)).base
        = G.get_select_function tv.base := by
      unfold press_unselect_empty
      split_ifs <;> simp [hL.get_unselect_all]
    exact ⟨fun _ => hs, by rw [hs]; exact hentry⟩
  · rw [if_neg hc]
    simp only [press_after_parent_slot G hL]
    refine ⟨?_, ?_⟩
    · intro hpar
      have hp : G.get_select_function (press_parent G (press_before_parent G tv e) e).1.base
          = G.get_select_function (press_before_parent G tv e).base :=
        hpar (press_before_parent G tv e).base
      rw [hp, press_before_parent_slot G hL]
      by_cases h : press_on_selected G tv.base e (press_path G tv e) = true
          ∧ G.get_select_function tv.base = none
      · simp [h]
      · simp [h, hentry]
    · split_ifs with h
      · simp
      · exact h

/-- C18 (witness): on the reference widget, a press on the selected row `[0]` with no
select function installed, and a press with the select function `custom 7` installed. -/
theorem press_restores_select_function_witness :
    (refGtk.get_select_function
          (exo_tree_view_button_press_event refGtk (ExoTreeView.init (refWidget [[0]]))
            (press_at 100 0)).1.base = none
      ∧ refGtk.get_select_function
          (exo_tree_view_button_press_event refGtk (ExoTreeView.init (refWidget [[0]]))
            (press_at 100 0)).1.base ≠ some GtkTreeSelectionFunc.exo_noop_false)
    ∧ refGtk.get_select_function
        (exo_tree_view_button_press_event refGtk
          (ExoTreeView.init
            { refWidget [[0]] with select_function := some (GtkTreeSelectionFunc.custom 7) })
          (press_at 100 0)).1.base = some (GtkTreeSelectionFunc.custom 7) :=
  ⟨⟨(press_restores_select_function refGtk refGtk_select_function_slot
        (ExoTreeView.init (refWidget [[0]])) (press_at 100 0) (by decide)).1
        (fun w => refGtk_parent_press_slot w _),
      (press_restores_select_function refGtk refGtk_select_function_slot
        (ExoTreeView.init (refWidget [[0]])) (press_at 100 0) (by decide)).2⟩,
    (press_restores_select_function refGtk refGtk_select_function_slot
      (ExoTreeView.init
        { refWidget [[0]] with select_function := some (GtkTreeSelectionFunc.custom 7) })
      (press_at 100 0) (by decide)).1 (fun w => refGtk_parent_press_slot w _)⟩

/-- C19 (counterexample): an unmodified first press of button 3 on the selected row
`[0]`, with no select function installed, is not consumed and reaches the parent's
press handler with `exo_noop_false` installed. -/
theorem press_button_three_installs_sentinel :
    (press_with 0 3 100 0).button ≠ 1
    ∧ press_is_consumed refGtk (ExoTreeView.init (refWidget [[0]])) (press_with 0 3 100 0)
        = false
    ∧ refGtk.get_select_function
        (press_before_parent refGtk (ExoTreeView.init (refWidget [[0]]))
          (press_with 0 3 100 0)).base = some GtkTreeSelectionFunc.exo_noop_false
    ∧ new_calls (ExoTreeView.init (refWidget [[0]]))
        (exo_tree_view_button_press_event refGtk (ExoTreeView.init (refWidget [[0]]))
          (press_with 0 3 100 0)).1
      = [Call.set_select_function (some GtkTreeSelectionFunc.exo_noop_false),
          Call.parent_button_press_event (press_with 0 3 100 0),
          Call.set_select_function none] := by
  exact ⟨by decide, rfl, rfl, rfl⟩

/-- C19 (amended): over a library in which only `set_select_function` writes the
select function slot, with a valid selection object and a slot that does not hold the
sentinel on entry: the parent's press handler is called, and called with
`exo_noop_false` installed, exactly when no select function is installed on entry and
the event is an unmodified first press, of any button, on the bin window whose
coordinates resolve to a row that is selected. -/
theorem parent_press_runs_with_sentinel (G : Gtk W) (hL : SelectFunctionSlot G)
    (tv : ExoTreeView W) (e : GdkEventButton)
    (hts : G.is_tree_selection tv.base = true)
    (hentry : G.get_select_function tv.base ≠ some GtkTreeSelectionFunc.exo_noop_false) :
    (press_is_consumed G tv e = false
        ∧ G.get_select_function (press_before_parent G tv e).base = some GtkTreeSelectionFunc.exo_noop_false)
      ↔ (G.get_select_function tv.base = none
        ∧ e.type = GdkEventType.GDK_BUTTON_PRESS
        ∧ e.state &&& G.default_mod_mask = 0
        ∧ e.window = G.get_bin_window tv.base
        ∧ ∃ p, path_at G tv.base e.x e.y = some p ∧ G.path_is_selected tv.base p = true) := by
  rw [press_before_parent_slot G hL]
  have hsel : press_on_selected G tv.base e (press_path G tv e) = true
      ↔ (e.type = GdkEventType.GDK_BUTTON_PRESS ∧ e.state &&& G.default_mod_mask = 0
        ∧ e.window = G.get_bin_window tv.base
        ∧ ∃ p, path_at G tv.base e.x e.y = some p ∧ G.path_is_selected tv.base p = true) := by
    unfold press_on_selected press_path press_on_bin_window no_modifier
    by_cases hw : e.window = G.get_bin_window tv.base
    · simp only [hw, decide_True, if_true]
      cases hp : path_at G tv.base e.x e.y <;> simp [hts, and_assoc]
    · simp [hw]
  constructor
  · rintro ⟨_, h⟩
    by_cases hc : press_on_selected G tv.base e (press_path G tv e) = true
        ∧ G.get_select_function tv.base = none
    · exact ⟨hc.2, hsel.mp hc.1⟩
    · rw [if_neg hc] at h
      exact absurd h hentry
  · rintro ⟨hnone, h⟩
    have hc := hsel.mpr h
    refine ⟨?_, ?_⟩
    · simp [press_is_consumed, h.1]
    · rw [if_pos ⟨hc, hnone⟩]

/-- C19 (witness): on the reference widget, an unmodified first press of button 1 on
the selected row `[0]`, with no select function installed. -/
theorem parent_press_runs_with_sentinel_witness :
    press_is_consumed refGtk (ExoTreeView.init (refWidget [[0]])) (press_at 100 0) = false
    ∧ refGtk.get_select_function
        (press_before_parent refGtk (ExoTreeView.init (refWidget [[0]]))
          (press_at 100 0)).base = some GtkTreeSelectionFunc.exo_noop_false :=
  (parent_press_runs_with_sentinel refGtk refGtk_select_function_slot
    (ExoTreeView.init (refWidget [[0]])) (press_at 100 0) rfl (by decide)).mpr
    ⟨rfl, rfl, rfl, rfl, [0], rfl, rfl⟩

/-! ## C21: the calls of the parent class handlers -/

/-- The parent's handlers called by a press that is not consumed. -/
theorem press_event_parent_calls (G : Gtk W) (tv : ExoTreeView W) (e : GdkEventButton)
    (hc : press_is_consumed G tv e = false) :
    (new_calls tv (exo_tree_view_button_press_event G tv e).1).filter Call.is_parent_call
      = [Call.parent_button_press_event e] := by
  obtain ⟨post, h1, h2⟩ := press_event_trace G tv e hc
  have h1a : (exo_tree_view_button_press_event G tv e).1.trace
      = tv.trace ++ (press_classify_calls G tv e
        ++ press_preserve_calls G (press_classify G tv e).base e (press_path G tv e)
        ++ press_arbitrate_calls G (press_at_arbitration G tv e).base e (press_path G tv e)
        ++ [Call.parent_button_press_event e] ++ post) := by
    rw [h1]; simp only [List.append_assoc]
  rw [new_calls_eq _ _ _ h1a]
  have hpost : post.filter Call.is_parent_call = [] := by
    rw [List.filter_eq_nil_iff]
    intro c hmem
    rcases h2 c hmem with ⟨p, h⟩ | h <;> subst h <;> simp [Call.is_parent_call]
  simp only [List.filter_append, hpost]
  unfold press_classify_calls press_preserve_calls press_arbitrate_calls
  split_ifs <;> simp [Call.is_parent_call]

/-- The parent's handlers called by a release. -/
theorem release_event_parent_calls (G : Gtk W) (tv : ExoTreeView W) (e : GdkEventButton) :
    (new_calls tv (exo_tree_view_button_release_event G tv e).1).filter Call.is_parent_call
      = [Call.parent_button_release_event e] := by
  have htr : (exo_tree_view_button_release_event G tv e).1.trace
      = tv.trace ++ (release_branch_calls G tv e ++ release_epilogue_calls G tv e
        ++ [Call.parent_button_release_event e]) := by
    rw [release_event_trace]; simp only [List.append_assoc]
  rw [new_calls_eq _ _ _ htr]
  have hb : (release_branch_calls G tv e).filter Call.is_parent_call = [] := by
    rw [List.filter_eq_nil_iff]
    intro c hmem
    rcases release_branch_calls_kind G tv e c hmem with h | ⟨p, c1, h⟩ | ⟨p, c1, h⟩ <;>
      subst h <;> simp [Call.is_parent_call]
  have he : (release_epilogue_calls G tv e).filter Call.is_parent_call = [] := by
    rw [List.filter_eq_nil_iff]
    intro c hmem
    rcases release_epilogue_calls_kind G tv e c hmem with h | h <;>
      subst h <;> simp [Call.is_parent_call]
  simp [List.filter_append, hb, he, Call.is_parent_call]

/-- C21 (counterexample): in single-click mode a double-click on the bin window makes
no call of the parent's press handler and returns `TRUE`, whereas the parent's handler
would have returned `FALSE`. -/
theorem consumed_press_skips_parent :
    (new_calls ((ExoTreeView.init (refWidget [])).set_single_click true)
        (exo_tree_view_button_press_event refGtk
          ((ExoTreeView.init (refWidget [])).set_single_click true)
          { press_at 100 0 with type := GdkEventType.GDK_2BUTTON_PRESS }).1).filter
        Call.is_parent_call = []
    ∧ (exo_tree_view_button_press_event refGtk
        ((ExoTreeView.init (refWidget [])).set_single_click true)
        { press_at 100 0 with type := GdkEventType.GDK_2BUTTON_PRESS }).2 = true
    ∧ (refGtk.parent_button_press_event (refWidget [])
        { press_at 100 0 with type := GdkEventType.GDK_2BUTTON_PRESS }).2 = false := by
  exact ⟨rfl, rfl, rfl⟩

/-- C21 (amended): the release, motion, leave, drag-begin and cursor-move handlers
call the parent's handler for their event exactly once, as their last call, and return
its result; so does the press handler, except for a double-click on the bin window in
single-click mode, which calls no parent handler and returns `TRUE`. -/
theorem parent_handler_called_once (G : Gtk W) (tv : ExoTreeView W) (eb : GdkEventButton)
    (em : GdkEventMotion) (ec : GdkEventCrossing) (c : GdkDragContext)
    (s : GtkMovementStep) (n : Int) :
    ((eb.window = G.get_bin_window tv.base ∧ tv.priv.single_click = true
          ∧ eb.type = GdkEventType.GDK_2BUTTON_PRESS) →
        (new_calls tv (exo_tree_view_button_press_event G tv eb).1).filter
            Call.is_parent_call = []
          ∧ (exo_tree_view_button_press_event G tv eb).2 = true)
    ∧ (¬ (eb.window = G.get_bin_window tv.base ∧ tv.priv.single_click = true
          ∧ eb.type = GdkEventType.GDK_2BUTTON_PRESS) →
        (new_calls tv (exo_tree_view_button_press_event G tv eb).1).filter
            Call.is_parent_call = [Call.parent_button_press_event eb]
          ∧ (exo_tree_view_button_press_event G tv eb).2
            = (G.parent_button_press_event (press_before_parent G tv eb).base eb).2)
    ∧ ((new_calls tv (exo_tree_view_button_release_event G tv eb).1).filter
          Call.is_parent_call = [Call.parent_button_release_event eb]
        ∧ (exo_tree_view_button_release_event G tv eb).2
          = (G.parent_button_release_event (release_before_parent G tv eb).base eb).2)
    ∧ ((new_calls tv (exo_tree_view_motion_notify_event G tv em).1).filter
          Call.is_parent_call = [Call.parent_motion_notify_event em]
        ∧ (exo_tree_view_motion_notify_event G tv em).2
          = (G.parent_motion_notify_event (motion_before_parent G tv em).base em).2)
    ∧ ((new_calls tv (exo_tree_view_leave_notify_event G tv ec).1).filter
          Call.is_parent_call = [Call.parent_leave_notify_event ec]
        ∧ (exo_tree_view_leave_notify_event G tv ec).2
          = (G.parent_leave_notify_event (G.emit_item_hovered tv.base none) ec).2)
    ∧ ((new_calls tv (exo_tree_view_drag_begin G tv c)).filter Call.is_parent_call
          = [Call.parent_drag_begin c]
        ∧ (exo_tree_view_drag_begin G tv c).base = G.parent_drag_begin tv.base c)
    ∧ ((new_calls tv (exo_tree_view_move_cursor G tv s n).1).filter Call.is_parent_call
          = [Call.parent_move_cursor s n]
        ∧ (exo_tree_view_move_cursor G tv s n).2 = (G.parent_move_cursor tv.base s n).2) := by
  have hcons : press_is_consumed G tv eb = true
      ↔ (eb.window = G.get_bin_window tv.base ∧ tv.priv.single_click = true
        ∧ eb.type = GdkEventType.GDK_2BUTTON_PRESS) := by
    simp [press_is_consumed, press_on_bin_window, and_assoc]
  refine ⟨?_, ?_, ⟨release_event_parent_calls G tv eb, rfl⟩, ⟨?_, rfl⟩, ⟨?_, rfl⟩,
    ⟨?_, rfl⟩, ⟨?_, rfl⟩⟩
  · intro h
    have hc := hcons.mpr h
    constructor
    · rw [new_calls_eq _ _ _ (press_event_trace_consumed G tv eb hc)]
      unfold press_classify_calls
      split_ifs <;> simp [Call.is_parent_call]
    · unfold exo_tree_view_button_press_event; rw [if_pos hc]
  · intro h
    have hc : press_is_consumed G tv eb = false := by
      rw [← Bool.not_eq_true, hcons]; exact h
    constructor
    · exact press_event_parent_calls G tv eb hc
    · unfold exo_tree_view_button_press_event
      rw [hc]; rfl
  · rw [new_calls_eq _ _ _ (motion_event_trace G tv em)]
    unfold motion_calls
    split_ifs <;> simp [Call.is_parent_call]
  · rw [new_calls_eq tv _ [Call.item_hovered none, Call.parent_leave_notify_event ec]
      (by simp [exo_tree_view_leave_notify_event, exo_tree_view_item_hovered])]
    rfl
  · rw [new_calls_eq tv _ [Call.parent_drag_begin c] rfl]; rfl
  · rw [new_calls_eq tv _ [Call.parent_move_cursor s n] rfl]; rfl

/-- C21 (witness): on the reference widget in single-click mode, a double-click calls
no parent handler, and a first press calls the parent's press handler once. -/
theorem parent_handler_called_once_witness :
    ((new_calls ((ExoTreeView.init (refWidget [])).set_single_click true)
          (exo_tree_view_button_press_event refGtk
            ((ExoTreeView.init (refWidget [])).set_single_click true)
            { press_at 100 0 with type := GdkEventType.GDK_2BUTTON_PRESS }).1).filter
          Call.is_parent_call = []
      ∧ (exo_tree_view_button_press_event refGtk
          ((ExoTreeView.init (refWidget [])).set_single_click true)
          { press_at 100 0 with type := GdkEventType.GDK_2BUTTON_PRESS }).2 = true)
    ∧ (new_calls ((ExoTreeView.init (refWidget [])).set_single_click true)
          (exo_tree_view_button_press_event refGtk
            ((ExoTreeView.init (refWidget [])).set_single_click true)
            (press_at 100 0)).1).filter Call.is_parent_call
        = [Call.parent_button_press_event (press_at 100 0)] :=
  ⟨(parent_handler_called_once refGtk
      ((ExoTreeView.init (refWidget [])).set_single_click true)
      { press_at 100 0 with type := GdkEventType.GDK_2BUTTON_PRESS }
      (motion_at 0 0) ⟨1⟩ 0 0 0).1 ⟨rfl, rfl, rfl⟩,
    ((parent_handler_called_once refGtk
      ((ExoTreeView.init (refWidget [])).set_single_click true) (press_at 100 0)
      (motion_at 0 0) ⟨1⟩ 0 0 0).2.1 (by decide)).1⟩

/-! ## C22: the expander band -/

/-- The comparison `d <= n` of the model is the comparison of the value of `d` with
the integer `n`. -/
theorem gdouble.le_gint_iff (d : gdouble) (n : Int) :
    d.le_gint n = true ↔ d.value ≤ (n : ℚ) := by
  unfold gdouble.le_gint gdouble.value
  rw [decide_eq_true_eq, div_le_iff₀ (by positivity)]
  exact_mod_cast Iff.rfl

/-! ## C23: where `row-activated` is emitted -/

/-- One event leaves the mode as it was. -/
theorem step_single_click (G : Gtk W) (tv : ExoTreeView W) (ev : Event) :
    (step G tv ev).priv.single_click = tv.priv.single_click := by
  cases ev with
  | press e =>
    show (exo_tree_view_button_press_event G tv e).1.priv.single_click = _
    rw [press_event_priv]
    split_ifs
    · rfl
    · rcases press_before_parent_priv G tv e with h | h | h <;> rw [h]
  | release e =>
    show (exo_tree_view_button_release_event G tv e).1.priv.single_click = _
    rw [release_event_priv]
  | motion e => exact motion_event_mode G tv e
  | leave e => rfl
  | drag_begin c => rfl
  | move_cursor s n => rfl

/-- The `row-activated` emissions of the release handler are those of its branch. -/
theorem release_event_row_activated (G : Gtk W) (tv : ExoTreeView W) (e : GdkEventButton) :
    (new_calls tv (exo_tree_view_button_release_event G tv e).1).filter Call.is_row_activated
      = (release_branch_calls G tv e).filter Call.is_row_activated := by
  have htr : (exo_tree_view_button_release_event G tv e).1.trace
      = tv.trace ++ (release_branch_calls G tv e ++ release_epilogue_calls G tv e
        ++ [Call.parent_button_release_event e]) := by
    rw [release_event_trace]; simp only [List.append_assoc]
  have he : (release_epilogue_calls G tv e).filter Call.is_row_activated = [] := by
    rw [List.filter_eq_nil_iff]
    intro c hmem
    rcases release_epilogue_calls_kind G tv e c hmem with h | h <;>
      subst h <;> simp [Call.is_row_activated]
  rw [new_calls_eq _ _ _ htr]
  simp [List.filter_append, he, Call.is_row_activated]

/-- The branch of the release handler emits `row-activated` at most once, and never in
double-click mode. -/
theorem release_branch_row_activated (G : Gtk W) (tv : ExoTreeView W) (e : GdkEventButton) :
    ((release_branch_calls G tv e).filter Call.is_row_activated).length ≤ 1
    ∧ (tv.priv.single_click = false →
      (release_branch_calls G tv e).filter Call.is_row_activated = []) := by
  have hsel : ∀ p c, (select_only_calls G tv.base p c).filter Call.is_row_activated = [] := by
    intro p c
    unfold select_only_calls
    split_ifs <;> simp [Call.is_row_activated]
  constructor
  · unfold release_branch_calls
    split_ifs <;> (try split) <;> (try split_ifs) <;>
      simp [List.filter_append, hsel, Call.is_row_activated]
  · intro hs
    unfold release_branch_calls
    rw [hs]
    simp only [Bool.false_and, Bool.false_eq_true, if_false]
    split_ifs <;> (try split) <;> first | rfl | exact hsel _ _

/-- The `row-activated` emissions of one event: none unless the event is a release. -/
theorem step_row_activated (G : Gtk W) (tv : ExoTreeView W) (ev : Event) :
    (new_calls tv (step G tv ev)).filter Call.is_row_activated
      = match ev with
        | Event.release e => (release_branch_calls G tv e).filter Call.is_row_activated
        | _ => [] := by
  cases ev with
  | press e =>
    show (new_calls tv (exo_tree_view_button_press_event G tv e).1).filter _ = []
    rw [List.filter_eq_nil_iff]
    intro c hc
    simp [press_event_no_row_activated G tv e c hc]
  | release e => exact release_event_row_activated G tv e
  | motion e =>
    show (new_calls tv (exo_tree_view_motion_notify_event G tv e).1).filter _ = []
    rw [new_calls_eq _ _ _ (motion_event_trace G tv e)]
    unfold motion_calls
    split_ifs <;> simp [Call.is_row_activated]
  | leave e =>
    show (new_calls tv (exo_tree_view_leave_notify_event G tv e).1).filter _ = []
    rw [new_calls_eq tv _ [Call.item_hovered none, Call.parent_leave_notify_event e]
      (by simp [exo_tree_view_leave_notify_event, exo_tree_view_item_hovered])]
    rfl
  | drag_begin c =>
    show (new_calls tv (exo_tree_view_drag_begin G tv c)).filter _ = []
    rw [new_calls_eq tv _ [Call.parent_drag_begin c] rfl]; rfl
  | move_cursor s n =>
    show (new_calls tv (exo_tree_view_move_cursor G tv s n).1).filter _ = []
    rw [new_calls_eq tv _ [Call.parent_move_cursor s n] rfl]; rfl

/-- In double-click mode no sequence of events emits `row-activated`. -/
theorem run_row_activated (G : Gtk W) (events : List Event) :
    ∀ tv : ExoTreeView W, tv.priv.single_click = false →
      (new_calls tv (run G tv events)).filter Call.is_row_activated = [] := by
  induction events with
  | nil =>
    intro tv _
    rw [new_calls_eq tv _ [] (by simp [run])]; rfl
  | cons ev es ih =>
    intro tv hs
    obtain ⟨cs1, h1, _⟩ := step_trace G tv ev
    obtain ⟨cs2, h2⟩ := run_trace G es (step G tv ev)
    have hstep := step_row_activated G tv ev
    have ih1 := ih (step G tv ev) ((step_single_click G tv ev).trans hs)
    rw [new_calls_eq _ _ _ h1] at hstep
    rw [new_calls_eq _ _ _ h2] at ih1
    have htr : (run G tv (ev :: es)).trace = tv.trace ++ (cs1 ++ cs2) := by
      show (run G (step G tv ev) es).trace = _
      rw [h2, h1, List.append_assoc]
    rw [new_calls_eq _ _ _ htr, List.filter_append, ih1, hstep, List.append_nil]
    cases ev with
    | release e => exact (release_branch_row_activated G tv e).2 hs
    | press e => rfl
    | motion e => rfl
    | leave e => rfl
    | drag_begin c => rfl
    | move_cursor s n => rfl

/-- C23: while `single_click` is false the press handler leaves
`button_release_activates` false, and no handler and no sequence of events emits
`row-activated`, a release with `button_release_activates` true included; in every
mode only the release handler emits `row-activated`, at most once per release event,
and `exo_tree_view_set_single_click` emits none. -/
theorem row_activated_only_on_release (G : Gtk W) (tv : ExoTreeView W) :
    (tv.priv.single_click = false →
      (∀ e, (exo_tree_view_button_press_event G tv e).1.priv.button_release_activates = false)
      ∧ (∀ ev, (new_calls tv (step G tv ev)).filter Call.is_row_activated = [])
      ∧ (∀ events, (new_calls tv (run G tv events)).filter Call.is_row_activated = []))
    ∧ (∀ ev, (∀ e, ev ≠ Event.release e) →
      (new_calls tv (step G tv ev)).filter Call.is_row_activated = [])
    ∧ (∀ e, ((new_calls tv (exo_tree_view_button_release_event G tv e).1).filter
        Call.is_row_activated).length ≤ 1)
    ∧ (∀ v, (new_calls tv (exo_tree_view_set_single_click G tv v)).filter
        Call.is_row_activated = []) := by
  refine ⟨?_, ?_, ?_, ?_⟩
  · intro hs
    refine ⟨?_, ?_, ?_⟩
    · intro e
      rw [press_event_priv]
      split_ifs
      · rfl
      · have hact : (press_on_bin_window G tv e && press_activates G tv e) = false := by
          simp [press_activates, hs]
        rcases press_before_parent_priv G tv e with h | h | h <;> rw [h] <;> exact hact
    · intro ev
      rw [step_row_activated]
      cases ev with
      | release e => exact (release_branch_row_activated G tv e).2 hs
      | press e => rfl
      | motion e => rfl
      | leave e => rfl
      | drag_begin c => rfl
      | move_cursor s n => rfl
    · intro events
      exact run_row_activated G events tv hs
  · intro ev hev
    rw [step_row_activated]
    cases ev with
    | release e => exact absurd rfl (hev e)
    | press e => rfl
    | motion e => rfl
    | leave e => rfl
    | drag_begin c => rfl
    | move_cursor s n => rfl
  · intro e
    rw [release_event_row_activated]
    exact (release_branch_row_activated G tv e).1
  · intro v
    rw [List.filter_eq_nil_iff]
    intro c hc
    unfold exo_tree_view_set_single_click at hc
    split_ifs at hc
    · rw [new_calls_eq tv _ [Call.notify_single_click] rfl] at hc
      simp only [List.mem_singleton] at hc
      subst hc
      simp [Call.is_row_activated]
    · rw [new_calls_eq tv _ [] (by simp)] at hc
      simp at hc

/-- C23 (witness): in double-click mode on the reference widget, with
`button_release_activates` true on entry, a press and a release on row `[0]` emit no
`row-activated`, and the press leaves the flag false. -/
theorem row_activated_only_on_release_witness :
    (exo_tree_view_button_press_event refGtk
        ((ExoTreeView.init (refWidget [])).set_activates true)
        (press_at 100 0)).1.priv.button_release_activates = false
    ∧ (new_calls ((ExoTreeView.init (refWidget [])).set_activates true)
        (step refGtk ((ExoTreeView.init (refWidget [])).set_activates true)
          (Event.release (release_at 100 0)))).filter Call.is_row_activated = [] :=
  ⟨((row_activated_only_on_release refGtk
      ((ExoTreeView.init (refWidget [])).set_activates true)).1 rfl).1 (press_at 100 0),
    ((row_activated_only_on_release refGtk
      ((ExoTreeView.init (refWidget [])).set_activates true)).1 rfl).2.1
      (Event.release (release_at 100 0))⟩

/-! ## The base widget follows the trace -/

theorem Applied.of_eq (G : Gtk W) (tv tv1 : ExoTreeView W)
    (h1 : tv1.trace = tv.trace) (h2 : tv1.base = tv.base) : Applied G tv tv1 :=
  ⟨[], by simp [h1], by simp [h2, Gtk.apply_all]⟩

theorem Applied.comp {G : Gtk W} {a b c : ExoTreeView W}
    (h1 : Applied G a b) (h2 : Applied G b c) : Applied G a c := by
  obtain ⟨cs1, t1, b1⟩ := h1
  obtain ⟨cs2, t2, b2⟩ := h2
  refine ⟨cs1 ++ cs2, by rw [t2, t1, List.append_assoc], ?_⟩
  rw [b2, b1]
  simp [Gtk.apply_all, List.foldl_append]

theorem Applied.of_call (G : Gtk W) (tv : ExoTreeView W) (c : Call) (f : W → W)
    (h : ∀ w, f w = G.apply w c) : Applied G tv (tv.call c f) :=
  ⟨[c], rfl, by simp [Gtk.apply_all, h]⟩

/-- What `Applied` gives: the base widget is the old one after the new calls. -/
theorem Applied.base {G : Gtk W} {tv tv1 : ExoTreeView W} (h : Applied G tv tv1) :
    tv1.base = G.apply_all tv.base (new_calls tv tv1) := by
  obtain ⟨cs, t, b⟩ := h
  rw [new_calls_eq tv tv1 cs t, b]

theorem Applied.trace {G : Gtk W} {tv tv1 : ExoTreeView W} (h : Applied G tv tv1) :
    tv1.trace = tv.trace ++ new_calls tv tv1 := by
  obtain ⟨cs, t, _⟩ := h
  rw [new_calls_eq tv tv1 cs t, t]

theorem select_paths_applied (G : Gtk W) (paths : List GtkTreePath) :
    ∀ tv : ExoTreeView W, Applied G tv (select_paths G tv paths) := by
  induction paths with
  | nil => intro tv; exact Applied.of_eq G _ _ rfl rfl
  | cons p ps ih =>
    intro tv
    exact Applied.comp (Applied.of_call G tv (Call.select_path p) _ (fun _ => rfl)) (ih _)

theorem press_unselect_empty_applied (G : Gtk W) (tv : ExoTreeView W) (e : GdkEventButton)
    (path : Option GtkTreePath) : Applied G tv (press_unselect_empty G tv e path) := by
  unfold press_unselect_empty
  split
  · exact Applied.of_call G _ _ _ (fun _ => rfl)
  · exact Applied.of_eq G _ _ rfl rfl

theorem press_before_parent_applied (G : Gtk W) (tv : ExoTreeView W) (e : GdkEventButton) :
    Applied G tv (press_before_parent G tv e) := by
  have h1 : Applied G tv (press_classify G tv e) := by
    unfold press_classify
    split_ifs
    · exact Applied.comp (Applied.comp
        (Applied.of_eq G tv (tv.set_activates false) rfl rfl)
        (press_unselect_empty_applied G _ e _)) (Applied.of_eq G _ _ rfl rfl)
    · exact Applied.of_eq G _ _ rfl rfl
  have h2 : ∀ (t : ExoTreeView W) (path : Option GtkTreePath),
      Applied G t (press_preserve G t e path).1 := by
    intro t path
    unfold press_preserve
    split_ifs
    · exact Applied.of_call G _ _ _ (fun _ => rfl)
    · exact Applied.of_eq G _ _ rfl rfl
    · exact Applied.of_eq G _ _ rfl rfl
  have h3 : ∀ (t : ExoTreeView W) (path : Option GtkTreePath),
      Applied G t (press_arbitrate G t e path) := by
    intro t path
    unfold press_arbitrate block_dnd
    split_ifs
    · exact Applied.comp
        (Applied.of_call G t Call.handlers_block_matched G.handlers_block_matched (fun _ => rfl))
        (Applied.of_eq G _ _ rfl rfl)
    · exact Applied.of_eq G _ _ rfl rfl
    · exact Applied.comp
        (Applied.of_call G t (Call.set_rubber_banding false)
          (fun w => G.set_rubber_banding w false) (fun _ => rfl))
        (Applied.of_eq G _ _ rfl rfl)
    · exact Applied.of_eq G _ _ rfl rfl
  unfold press_before_parent
  exact Applied.comp (Applied.comp h1 (h2 _ _)) (h3 _ _)

theorem press_event_applied (G : Gtk W) (tv : ExoTreeView W) (e : GdkEventButton) :
    Applied G tv (exo_tree_view_button_press_event G tv e).1 := by
  unfold exo_tree_view_button_press_event
  split_ifs
  · exact Applied.comp (Applied.of_eq G tv (tv.set_activates false) rfl rfl)
      (press_unselect_empty_applied G _ e _)
  · have h4 : Applied G (press_before_parent G tv e)
        (press_parent G (press_before_parent G tv e) e).1 :=
      Applied.of_call G _ (Call.parent_button_press_event e)
        (fun w => (G.parent_button_press_event w e).1) (fun _ => rfl)
    have h5 : ∀ (t : ExoTreeView W) (path : Option GtkTreePath) (sp : List GtkTreePath),
        Applied G t (press_after_parent G t e path sp) := by
      intro t path sp
      have h51 : Applied G t (press_restore G t e path sp) := by
        unfold press_restore
        split_ifs
        · exact select_paths_applied G sp t
        · exact Applied.of_eq G _ _ rfl rfl
        · exact Applied.of_eq G _ _ rfl rfl
      refine Applied.comp h51 ?_
      unfold press_after_parent press_reset_select_function
      split
      · exact Applied.of_call G _ _ _ (fun _ => rfl)
      · exact Applied.of_eq G _ _ rfl rfl
    exact Applied.comp (Applied.comp (press_before_parent_applied G tv e) h4) (h5 _ _ _)

theorem select_only_applied (G : Gtk W) (tv : ExoTreeView W) (path : GtkTreePath)
    (column : GtkTreeViewColumn) : Applied G tv (select_only G tv path column) := by
  unfold select_only
  split
  · exact Applied.comp
      (Applied.of_call G tv Call.unselect_all G.unselect_all (fun _ => rfl))
      (Applied.of_call G _ (Call.set_cursor path column)
        (fun w => G.set_cursor w path column) (fun _ => rfl))
  · exact Applied.of_eq G _ _ rfl rfl

theorem release_branch_applied (G : Gtk W) (tv : ExoTreeView W) (e : GdkEventButton) :
    Applied G tv (release_branch G tv e) := by
  unfold release_branch release_activate release_select
  split_ifs
  · split
    · split_ifs
      · exact Applied.comp (Applied.comp
          (Applied.of_eq G tv (tv.set_activates false) rfl rfl)
          (select_only_applied G _ _ _))
          (Applied.of_call G _ (Call.row_activated _ _) _ (fun _ => rfl))
      · exact Applied.of_eq G _ _ rfl rfl
    · exact Applied.of_eq G _ _ rfl rfl
  · split
    · exact select_only_applied G _ _ _
    · exact Applied.of_eq G _ _ rfl rfl
  · exact Applied.of_eq G _ _ rfl rfl
  · exact Applied.of_eq G _ _ rfl rfl

theorem release_before_parent_applied (G : Gtk W) (tv : ExoTreeView W) (e : GdkEventButton) :
    Applied G tv (release_before_parent G tv e) := by
  have h2 : ∀ t : ExoTreeView W, Applied G t (release_unblock_dnd G t) := by
    intro t
    unfold release_unblock_dnd unblock_dnd
    split_ifs
    · exact Applied.comp
        (Applied.of_call G t Call.handlers_unblock_matched G.handlers_unblock_matched
          (fun _ => rfl))
        (Applied.of_eq G _ _ rfl rfl)
    · exact Applied.of_eq G _ _ rfl rfl
    · exact Applied.of_eq G _ _ rfl rfl
  have h3 : ∀ t : ExoTreeView W, Applied G t (release_enable_rubber_banding G t) := by
    intro t
    unfold release_enable_rubber_banding
    split_ifs
    · exact Applied.comp
        (Applied.of_call G t (Call.set_rubber_banding true)
          (fun w => G.set_rubber_banding w true) (fun _ => rfl))
        (Applied.of_eq G _ _ rfl rfl)
    · exact Applied.of_eq G _ _ rfl rfl
  unfold release_before_parent
  exact Applied.comp (Applied.comp (release_branch_applied G tv e) (h2 _)) (h3 _)

theorem release_event_applied (G : Gtk W) (tv : ExoTreeView W) (e : GdkEventButton) :
    Applied G tv (exo_tree_view_button_release_event G tv e).1 :=
  Applied.comp (release_before_parent_applied G tv e)
    (Applied.of_call G _ (Call.parent_button_release_event e)
      (fun w => (G.parent_button_release_event w e).1) (fun _ => rfl))

theorem motion_before_parent_applied (G : Gtk W) (tv : ExoTreeView W) (e : GdkEventMotion) :
    Applied G tv (motion_before_parent G tv e) := by
  unfold motion_before_parent motion_hover exo_tree_view_item_hovered
  split_ifs
  · exact Applied.of_eq G _ _ rfl rfl
  · exact Applied.comp (Applied.of_eq G tv (tv.set_hover_path _) rfl rfl)
      (Applied.of_call G _ (Call.item_hovered _) _ (fun _ => rfl))
  · exact Applied.of_eq G _ _ rfl rfl
  · exact Applied.of_eq G _ _ rfl rfl

theorem motion_event_applied (G : Gtk W) (tv : ExoTreeView W) (e : GdkEventMotion) :
    Applied G tv (exo_tree_view_motion_notify_event G tv e).1 :=
  Applied.comp (motion_before_parent_applied G tv e)
    (Applied.of_call G _ (Call.parent_motion_notify_event e)
      (fun w => (G.parent_motion_notify_event w e).1) (fun _ => rfl))

theorem leave_event_applied (G : Gtk W) (tv : ExoTreeView W) (e : GdkEventCrossing) :
    Applied G tv (exo_tree_view_leave_notify_event G tv e).1 :=
  Applied.comp (Applied.comp (Applied.comp
    (Applied.of_eq G tv (tv.set_hover_path none) rfl rfl)
    (Applied.of_call G _ (Call.item_hovered none) (fun w => G.emit_item_hovered w none)
      (fun _ => rfl)))
    (Applied.of_eq G _ ((exo_tree_view_item_hovered G (tv.set_hover_path none)
      none).set_activates false) rfl rfl))
    (Applied.of_call G _ (Call.parent_leave_notify_event e)
      (fun w => (G.parent_leave_notify_event w e).1) (fun _ => rfl))

/-- After one event the base widget is the old one after the new calls. -/
theorem step_applied (G : Gtk W) (tv : ExoTreeView W) (ev : Event) :
    Applied G tv (step G tv ev) := by
  cases ev with
  | press e => exact press_event_applied G tv e
  | release e => exact release_event_applied G tv e
  | motion e => exact motion_event_applied G tv e
  | leave e => exact leave_event_applied G tv e
  | drag_begin c =>
    exact Applied.comp (Applied.of_eq G tv (tv.set_activates false) rfl rfl)
      (Applied.of_call G _ (Call.parent_drag_begin c) (fun w => G.parent_drag_begin w c)
        (fun _ => rfl))
  | move_cursor s n =>
    exact Applied.comp (Applied.of_eq G tv (tv.set_hover_path none) rfl rfl)
      (Applied.of_call G _ (Call.parent_move_cursor s n)
        (fun w => (G.parent_move_cursor w s n).1) (fun _ => rfl))

/-- After a sequence of events the base widget is the old one after the new calls. -/
theorem run_applied (G : Gtk W) (events : List Event) :
    ∀ tv : ExoTreeView W, Applied G tv (run G tv events) := by
  induction events with
  | nil => intro tv; exact Applied.of_eq G _ _ rfl rfl
  | cons ev es ih =>
    intro tv
    exact Applied.comp (step_applied G tv ev) (ih (step G tv ev))

theorem run_motions_applied (G : Gtk W) (es : List GdkEventMotion) :
    ∀ tv : ExoTreeView W, Applied G tv (run_motions G tv es) := by
  induction es with
  | nil => intro tv; exact Applied.of_eq G _ _ rfl rfl
  | cons e es ih =>
    intro tv
    exact Applied.comp (motion_event_applied G tv e)
      (ih (exo_tree_view_motion_notify_event G tv e).1)

/-! ## C1 and C13: the suspension flags along event sequences -/

/-- A press that is not a first press of button 1 fails the test of lines 317-319. -/
theorem press_arbitrates_of_not_primary (G : Gtk W) (w : W) (e : GdkEventButton)
    (h : is_primary_first_press e = false) : press_arbitrates G w e = false := by
  unfold is_primary_first_press at h
  unfold press_arbitrates
  by_cases hb : e.button = 1
  · by_cases ht : e.type = GdkEventType.GDK_BUTTON_PRESS
    · simp [hb, ht] at h
    · simp [ht]
  · simp [hb]

/-- A press that is not a first press of button 1 leaves both suspension flags as
they were and makes no call that touches the drag-and-drop handlers or
rubber-banding. -/
theorem press_not_primary (G : Gtk W) (tv : ExoTreeView W) (e : GdkEventButton)
    (h : is_primary_first_press e = false) :
    (exo_tree_view_button_press_event G tv e).1.priv.button_release_unblocks_dnd
        = tv.priv.button_release_unblocks_dnd
    ∧ (exo_tree_view_button_press_event G tv e).1.priv.button_release_enables_rubber_banding
        = tv.priv.button_release_enables_rubber_banding
    ∧ step_suspension_calls G tv (Event.press e) = [] := by
  obtain ⟨hu, hr⟩ := press_event_flags G tv e
  have ha := press_arbitrates_of_not_primary G (press_at_arbitration G tv e).base e h
  refine ⟨?_, ?_, ?_⟩
  · rw [hu, ha]; simp
  · rw [hr, ha]; simp
  · simp [step_suspension_calls, press_arbitrate_calls, ha]

/-- Along a sequence in which the first presses of button 1 are paired with releases,
the two suspension flags are never both set, starting from any state where they are
not both set and where both are clear unless such a press is outstanding. -/
theorem run_suspension_flags (G : Gtk W) :
    ∀ (events : List Event) (tv : ExoTreeView W) (pending : Bool),
      presses_paired pending events = true →
      (pending = false → tv.priv.button_release_unblocks_dnd = false
        ∧ tv.priv.button_release_enables_rubber_banding = false) →
      ¬ (tv.priv.button_release_unblocks_dnd = true
        ∧ tv.priv.button_release_enables_rubber_banding = true) →
      ¬ ((run G tv events).priv.button_release_unblocks_dnd = true
        ∧ (run G tv events).priv.button_release_enables_rubber_banding = true) := by
  intro events
  induction events with
  | nil => intro tv pending _ _ hex; exact hex
  | cons ev es ih =>
    intro tv pending hp hclear hex
    have hs := step_suspension_flags G tv ev
    show ¬ ((run G (step G tv ev) es).priv.button_release_unblocks_dnd = true
      ∧ (run G (step G tv ev) es).priv.button_release_enables_rubber_banding = true)
    cases ev with
    | press e =>
      cases hprim : is_primary_first_press e
      · simp only [presses_paired, hprim, Bool.false_eq_true, if_false] at hp
        obtain ⟨h1, h2, _⟩ := press_not_primary G tv e hprim
        have h1a : (step G tv (Event.press e)).priv.button_release_unblocks_dnd
            = tv.priv.button_release_unblocks_dnd := h1
        have h2a : (step G tv (Event.press e)).priv.button_release_enables_rubber_banding
            = tv.priv.button_release_enables_rubber_banding := h2
        exact ih _ pending hp (by rw [h1a, h2a]; exact hclear) (by rw [h1a, h2a]; exact hex)
      · simp only [presses_paired, hprim, if_true, Bool.and_eq_true, Bool.not_eq_true'] at hp
        exact ih _ true hp.2 (by simp) (hs.1 e rfl (hclear hp.1))
    | release e =>
      simp only [presses_paired] at hp
      have h := hs.2.1 e rfl
      exact ih _ false hp (fun _ => h) (by simp [h.1])
    | motion e =>
      simp only [presses_paired] at hp
      have h := hs.2.2 (by simp) (by simp)
      exact ih _ pending hp (by rw [h.1, h.2]; exact hclear) (by rw [h.1, h.2]; exact hex)
    | leave e =>
      simp only [presses_paired] at hp
      have h := hs.2.2 (by simp) (by simp)
      exact ih _ pending hp (by rw [h.1, h.2]; exact hclear) (by rw [h.1, h.2]; exact hex)
    | drag_begin c =>
      simp only [presses_paired] at hp
      have h := hs.2.2 (by simp) (by simp)
      exact ih _ pending hp (by rw [h.1, h.2]; exact hclear) (by rw [h.1, h.2]; exact hex)
    | move_cursor s n =>
      simp only [presses_paired] at hp
      have h := hs.2.2 (by simp) (by simp)
      exact ih _ pending hp (by rw [h.1, h.2]; exact hclear) (by rw [h.1, h.2]; exact hex)

/-- C1 (amended): from the initial state, and from any other state in either mode in
which both flags are false, every finite sequence of press, release, motion, leave,
drag-begin and cursor-move events in which no first press of button 1 arrives before
the release that follows the previous first press of button 1 reaches a state in which
`button_release_unblocks_dnd` and `button_release_enables_rubber_banding` are not both
true, whatever the base widget answers.  Presses of other buttons and double- or
triple-click presses may arrive at any point of the sequence. -/
theorem suspension_flags_exclusive_of_paired (G : Gtk W) (tv : ExoTreeView W)
    (events : List Event)
    (hu : tv.priv.button_release_unblocks_dnd = false)
    (hr : tv.priv.button_release_enables_rubber_banding = false)
    (h : presses_paired false events = true) :
    ¬ ((run G tv events).priv.button_release_unblocks_dnd = true
      ∧ (run G tv events).priv.button_release_enables_rubber_banding = true) :=
  run_suspension_flags G events tv false h (fun _ => ⟨hu, hr⟩) (by simp [hu])

/-- C1 (witness): from the initial state of the reference widget, the events of a
double-click on row `[0]` up to its `GDK_2BUTTON_PRESS`: first press, release, first
press, double press.  The sequence is paired and ends with only
`button_release_enables_rubber_banding` set. -/
theorem suspension_flags_exclusive_of_paired_witness :
    presses_paired false
        [Event.press (press_at 100 0), Event.release (release_at 100 0),
          Event.press (press_at 100 0), Event.press (double_press_at 100 0)] = true
    ∧ (run refGtk (ExoTreeView.init (refWidget []))
        [Event.press (press_at 100 0), Event.release (release_at 100 0),
          Event.press (press_at 100 0),
          Event.press (double_press_at 100 0)]).priv.button_release_enables_rubber_banding
      = true
    ∧ ¬ ((run refGtk (ExoTreeView.init (refWidget []))
          [Event.press (press_at 100 0), Event.release (release_at 100 0),
            Event.press (press_at 100 0),
            Event.press (double_press_at 100 0)]).priv.button_release_unblocks_dnd = true
      ∧ (run refGtk (ExoTreeView.init (refWidget []))
          [Event.press (press_at 100 0), Event.release (release_at 100 0),
            Event.press (press_at 100 0),
            Event.press (double_press_at 100 0)]).priv.button_release_enables_rubber_banding
        = true) :=
  ⟨rfl, rfl, suspension_flags_exclusive_of_paired refGtk (ExoTreeView.init (refWidget []))
    _ rfl rfl rfl⟩

/-- One event and the rubber-banding switch: folding the new calls over the old value
of `button_release_enables_rubber_banding` gives its new value. -/
theorem step_rubber_banding_fold (G : Gtk W) (tv : ExoTreeView W) (ev : Event) :
    (new_calls tv (step G tv ev)).foldl rubber_banding_step
        tv.priv.button_release_enables_rubber_banding
      = (step G tv ev).priv.button_release_enables_rubber_banding := by
  obtain ⟨cs, h1, h2, _⟩ := step_trace G tv ev
  rw [new_calls_eq _ _ _ h1, foldl_rubber_banding_step_filter, h2]
  cases ev with
  | press e =>
    show _ = (exo_tree_view_button_press_event G tv e).1.priv.button_release_enables_rubber_banding
    rw [(press_event_flags G tv e).2]
    cases hc : press_is_consumed G tv e <;>
      cases ha : press_arbitrates G (press_at_arbitration G tv e).base e <;>
      cases hu : press_on_unselected G (press_at_arbitration G tv e).base
        (press_path G tv e) <;>
      cases hd : G.has_site_data (press_at_arbitration G tv e).base <;>
      simp [step_suspension_calls, press_arbitrate_calls, rubber_banding_step, hc, ha, hu, hd]
  | release e =>
    show _ = (exo_tree_view_button_release_event G tv
        e).1.priv.button_release_enables_rubber_banding
    rw [release_event_priv]
    cases hu : tv.priv.button_release_unblocks_dnd <;>
      cases hr : tv.priv.button_release_enables_rubber_banding <;>
      cases hs : G.has_site_data (release_branch G tv e).base <;>
      simp [step_suspension_calls, release_epilogue_calls, rubber_banding_step, hu, hr, hs]
  | motion e =>
    show _ = (exo_tree_view_motion_notify_event G tv e).1.priv.button_release_enables_rubber_banding
    rw [(motion_event_suspension_flags G tv e).2]; rfl
  | leave e => rfl
  | drag_begin c => rfl
  | move_cursor s n => rfl

/-- One event and the block count: folding the new calls over 1 or 0, according to the
old value of `button_release_unblocks_dnd`, gives 1 or 0 according to its new value,
when the drag-site data always exists and a first press of button 1 only arrives
while the flag is clear. -/
theorem step_block_fold (G : Gtk W) (hsite : ∀ w, G.has_site_data w = true)
    (tv : ExoTreeView W) (ev : Event)
    (hp : ∀ e, ev = Event.press e → is_primary_first_press e = true →
      tv.priv.button_release_unblocks_dnd = false) :
    (new_calls tv (step G tv ev)).foldl block_step
        (if tv.priv.button_release_unblocks_dnd = true then 1 else 0)
      = if (step G tv ev).priv.button_release_unblocks_dnd = true then 1 else 0 := by
  obtain ⟨cs, h1, h2, _⟩ := step_trace G tv ev
  rw [new_calls_eq _ _ _ h1, foldl_block_step_filter, h2]
  cases ev with
  | press e =>
    show _ = if (exo_tree_view_button_press_event G tv e).1.priv.button_release_unblocks_dnd
      = true then 1 else 0
    cases hprim : is_primary_first_press e
    · obtain ⟨h3, _, h4⟩ := press_not_primary G tv e hprim
      rw [h3, h4]; rfl
    · rw [(press_event_flags G tv e).1, hp e rfl hprim]
      cases hc : press_is_consumed G tv e <;>
        cases ha : press_arbitrates G (press_at_arbitration G tv e).base e <;>
        cases hu : press_on_unselected G (press_at_arbitration G tv e).base
          (press_path G tv e) <;>
        simp [step_suspension_calls, press_arbitrate_calls, block_step, hc, ha, hu, hsite]
  | release e =>
    show _ = if (exo_tree_view_button_release_event G tv e).1.priv.button_release_unblocks_dnd
      = true then 1 else 0
    rw [release_event_priv]
    cases hu : tv.priv.button_release_unblocks_dnd <;>
      cases hr : tv.priv.button_release_enables_rubber_banding <;>
      simp [step_suspension_calls, release_epilogue_calls, block_step, hu, hr, hsite]
  | motion e =>
    show _ = if (exo_tree_view_motion_notify_event G tv e).1.priv.button_release_unblocks_dnd
      = true then 1 else 0
    rw [(motion_event_suspension_flags G tv e).1]; rfl
  | leave e => rfl
  | drag_begin c => rfl
  | move_cursor s n => rfl

theorem run_rubber_banding_fold (G : Gtk W) (events : List Event) :
    ∀ tv : ExoTreeView W,
      (new_calls tv (run G tv events)).foldl rubber_banding_step
          tv.priv.button_release_enables_rubber_banding
        = (run G tv events).priv.button_release_enables_rubber_banding := by
  induction events with
  | nil =>
    intro tv
    rw [new_calls_eq tv _ [] (by simp [run])]; rfl
  | cons ev es ih =>
    intro tv
    have h1 := (step_applied G tv ev).trace
    have h2 := (run_applied G es (step G tv ev)).trace
    have htr : (run G tv (ev :: es)).trace = tv.trace
        ++ (new_calls tv (step G tv ev) ++ new_calls (step G tv ev) (run G (step G tv ev) es)) := by
      show (run G (step G tv ev) es).trace = _
      rw [h2, h1, List.append_assoc]
    rw [new_calls_eq _ _ _ htr, List.foldl_append, step_rubber_banding_fold]
    exact ih (step G tv ev)

theorem run_block_fold (G : Gtk W) (hsite : ∀ w, G.has_site_data w = true)
    (events : List Event) :
    ∀ (tv : ExoTreeView W) (pending : Bool),
      presses_paired pending events = true →
      (pending = false → tv.priv.button_release_unblocks_dnd = false) →
      (new_calls tv (run G tv events)).foldl block_step
          (if tv.priv.button_release_unblocks_dnd = true then 1 else 0)
        = if (run G tv events).priv.button_release_unblocks_dnd = true then 1 else 0 := by
  induction events with
  | nil =>
    intro tv pending _ _
    rw [new_calls_eq tv _ [] (by simp [run])]; rfl
  | cons ev es ih =>
    intro tv pending hp hclear
    have hs := step_suspension_flags G tv ev
    have h1 := (step_applied G tv ev).trace
    have h2 := (run_applied G es (step G tv ev)).trace
    have htr : (run G tv (ev :: es)).trace = tv.trace
        ++ (new_calls tv (step G tv ev) ++ new_calls (step G tv ev) (run G (step G tv ev) es)) := by
      show (run G (step G tv ev) es).trace = _
      rw [h2, h1, List.append_assoc]
    have hrun : run G tv (ev :: es) = run G (step G tv ev) es := rfl
    rw [new_calls_eq _ _ _ htr, List.foldl_append, hrun]
    cases ev with
    | press e =>
      cases hprim : is_primary_first_press e
      · simp only [presses_paired, hprim, Bool.false_eq_true, if_false] at hp
        rw [step_block_fold G hsite tv _ (by intro e1 he hp1; cases he; simp [hprim] at hp1)]
        have h3 : (step G tv (Event.press e)).priv.button_release_unblocks_dnd
            = tv.priv.button_release_unblocks_dnd := (press_not_primary G tv e hprim).1
        exact ih _ pending hp (by rw [h3]; exact hclear)
      · simp only [presses_paired, hprim, if_true, Bool.and_eq_true, Bool.not_eq_true'] at hp
        rw [step_block_fold G hsite tv _ (fun _ _ _ => hclear hp.1)]
        exact ih _ true hp.2 (by simp)
    | release e =>
      simp only [presses_paired] at hp
      rw [step_block_fold G hsite tv _ (by simp)]
      exact ih _ false hp (fun _ => (hs.2.1 e rfl).1)
    | motion e =>
      simp only [presses_paired] at hp
      have hf := hs.2.2 (by simp) (by simp)
      rw [step_block_fold G hsite tv _ (by simp)]
      exact ih _ pending hp (by rw [hf.1]; exact hclear)
    | leave e =>
      simp only [presses_paired] at hp
      have hf := hs.2.2 (by simp) (by simp)
      rw [step_block_fold G hsite tv _ (by simp)]
      exact ih _ pending hp (by rw [hf.1]; exact hclear)
    | drag_begin c =>
      simp only [presses_paired] at hp
      have hf := hs.2.2 (by simp) (by simp)
      rw [step_block_fold G hsite tv _ (by simp)]
      exact ih _ pending hp (by rw [hf.1]; exact hclear)
    | move_cursor s n =>
      simp only [presses_paired] at hp
      have hf := hs.2.2 (by simp) (by simp)
      rw [step_block_fold G hsite tv _ (by simp)]
      exact ih _ pending hp (by rw [hf.1]; exact hclear)

/-- C13 (amended): from the initial state, and from any other state in either mode in
which both flags are false, count the calls made since.  After every finite sequence
of events the controller has rubber-banding disabled (its last `set_rubber_banding`
call, if any, passed `FALSE`) exactly while `button_release_enables_rubber_banding` is
true.  When the drag-site data exists whenever it is looked up and no first press of
button 1 arrives before the release that follows the previous one, the block count of
the drag-and-drop handlers, counted from 0, is 1 while `button_release_unblocks_dnd`
is true and 0 while it is false.  The counted calls are the ones made on the base
widget: it is the widget of entry after the library functions of these calls. -/
theorem suspension_flags_track_calls (G : Gtk W) (tv : ExoTreeView W) (events : List Event)
    (hu : tv.priv.button_release_unblocks_dnd = false)
    (hr : tv.priv.button_release_enables_rubber_banding = false) :
    rubber_banding_disabled (new_calls tv (run G tv events))
        = (run G tv events).priv.button_release_enables_rubber_banding
    ∧ ((∀ w1, G.has_site_data w1 = true) → presses_paired false events = true →
        block_count (new_calls tv (run G tv events))
          = if (run G tv events).priv.button_release_unblocks_dnd = true then 1 else 0)
    ∧ (run G tv events).base = G.apply_all tv.base (new_calls tv (run G tv events)) := by
  refine ⟨?_, ?_, (run_applied G events tv).base⟩
  · have h := run_rubber_banding_fold G events tv
    rw [hr] at h
    exact h
  · intro hsite hp
    have h := run_block_fold G hsite events tv false hp (fun _ => hu)
    rw [hu] at h
    exact h

/-- C13 (witness): on the reference widget with drag-site data that always exists, the
events of a double-click on the unselected row `[0]` up to its `GDK_2BUTTON_PRESS`,
stopped after the first press (count 1, flag set) and run to the double press (count
0, flag clear, rubber-banding disabled). -/
theorem suspension_flags_track_calls_witness :
    (block_count (new_calls (ExoTreeView.init (refWidget []))
          (run refGtkSite (ExoTreeView.init (refWidget []))
            [Event.press (press_at 100 0)])) = 1
      ∧ (run refGtkSite (ExoTreeView.init (refWidget []))
          [Event.press (press_at 100 0)]).priv.button_release_unblocks_dnd = true)
    ∧ (block_count (new_calls (ExoTreeView.init (refWidget []))
          (run refGtkSite (ExoTreeView.init (refWidget []))
            [Event.press (press_at 100 0), Event.release (release_at 100 0),
              Event.press (press_at 100 0), Event.press (double_press_at 100 0)]))
        = if (run refGtkSite (ExoTreeView.init (refWidget []))
            [Event.press (press_at 100 0), Event.release (release_at 100 0),
              Event.press (press_at 100 0),
              Event.press (double_press_at 100 0)]).priv.button_release_unblocks_dnd = true
          then 1 else 0)
    ∧ rubber_banding_disabled (new_calls (ExoTreeView.init (refWidget []))
        (run refGtkSite (ExoTreeView.init (refWidget []))
          [Event.press (press_at 100 0), Event.release (release_at 100 0),
            Event.press (press_at 100 0), Event.press (double_press_at 100 0)])) = true :=
  ⟨⟨rfl, rfl⟩,
    (suspension_flags_track_calls refGtkSite (ExoTreeView.init (refWidget []))
      [Event.press (press_at 100 0), Event.release (release_at 100 0),
        Event.press (press_at 100 0), Event.press (double_press_at 100 0)] rfl rfl).2.1
      (fun _ => rfl) rfl,
    rfl⟩

/-! ## The base widget after a release -/

theorem release_branch_base_calls (G : Gtk W) (tv : ExoTreeView W) (e : GdkEventButton) :
    (release_branch G tv e).base = G.apply_all tv.base (release_branch_calls G tv e) := by
  have h := (release_branch_applied G tv e).base
  rw [new_calls_eq _ _ _ (release_branch_trace G tv e)] at h
  exact h

/-- After lines 401-466 come the calls that lift the suspensions and the parent's
release handler, all made on the base widget. -/
theorem release_event_base_calls (G : Gtk W) (tv : ExoTreeView W) (e : GdkEventButton) :
    (exo_tree_view_button_release_event G tv e).1.base
      = G.apply_all (release_branch G tv e).base
        (release_epilogue_calls G tv e ++ [Call.parent_button_release_event e]) := by
  have h := (release_event_applied G tv e).base
  have htr : (exo_tree_view_button_release_event G tv e).1.trace
      = tv.trace ++ (release_branch_calls G tv e
        ++ (release_epilogue_calls G tv e ++ [Call.parent_button_release_event e])) := by
    rw [release_event_trace]; simp only [List.append_assoc]
  rw [new_calls_eq _ _ _ htr] at h
  rw [h, release_branch_base_calls]
  simp only [Gtk.apply_all, List.foldl_append]

/-- The base widget after lines 468-487. -/
theorem release_before_parent_base (G : Gtk W) (tv : ExoTreeView W) (e : GdkEventButton) :
    (release_unblock_dnd G (release_branch G tv e)).base
        = (if tv.priv.button_release_unblocks_dnd = true
              ∧ G.has_site_data (release_branch G tv e).base = true
            then G.handlers_unblock_matched (release_branch G tv e).base
            else (release_branch G tv e).base)
    ∧ (release_before_parent G tv e).base
        = (if tv.priv.button_release_enables_rubber_banding = true
            then G.set_rubber_banding (release_unblock_dnd G (release_branch G tv e)).base true
            else (release_unblock_dnd G (release_branch G tv e)).base) := by
  have hp := release_branch_priv G tv e
  constructor
  · unfold release_unblock_dnd unblock_dnd
    rw [hp]
    cases tv.priv.button_release_unblocks_dnd <;>
      cases G.has_site_data (release_branch G tv e).base <;> simp
  · unfold release_before_parent release_enable_rubber_banding
    have hp2 : (release_unblock_dnd G (release_branch G tv
        e)).priv.button_release_enables_rubber_banding
        = tv.priv.button_release_enables_rubber_banding := by
      unfold release_unblock_dnd
      split_ifs <;> simp [hp]
    rw [hp2]
    cases tv.priv.button_release_enables_rubber_banding <;> simp

/-! ## C6: one activation for a press and a release -/

/-- C6 (amended): in single-click mode, a primary first-press with no modifier on the
bin window at a point that resolves to an unselected row `R`, immediately followed by
a release on the bin window at a point that resolves to `R` and lies outside the
expander band of `R`.  The press handler makes no `row_activated` call: the base
widget after it is the widget of entry after calls none of which is `row_activated`.
The release handler makes exactly one, for `R` and the resolved column:
`G.row_activated` is applied to the base widget left by the selection step, and only
the calls that lift the suspensions and the parent's release handler follow. -/
theorem press_release_activates_once (G : Gtk W) (tv : ExoTreeView W)
    (e1 e2 : GdkEventButton) (R : GtkTreePath) (col : GtkTreeViewColumn)
    (hs : tv.priv.single_click = true)
    (h1w : e1.window = G.get_bin_window tv.base)
    (h1t : e1.type = GdkEventType.GDK_BUTTON_PRESS) (h1b : e1.button = 1)
    (h1m : e1.state &&& G.default_mod_mask = 0)
    (_h1p : path_at G tv.base e1.x e1.y = some R)
    (_h1u : G.path_is_selected tv.base R = false)
    (h2w : e2.window = G.get_bin_window (exo_tree_view_button_press_event G tv e1).1.base)
    (h2p : G.get_path_at_pos (exo_tree_view_button_press_event G tv e1).1.base e2.x.to_gint
        e2.y.to_gint = some (R, col))
    (h2x : on_expander G (exo_tree_view_button_press_event G tv e1).1.base e2.x R = false) :
    ((∀ c ∈ new_calls tv (exo_tree_view_button_press_event G tv e1).1, Call.is_row_activated c
        = false)
      ∧ (exo_tree_view_button_press_event G tv e1).1.base
          = G.apply_all tv.base (new_calls tv (exo_tree_view_button_press_event G tv e1).1))
    ∧ (new_calls (exo_tree_view_button_press_event G tv e1).1 (exo_tree_view_button_release_event G
        (exo_tree_view_button_press_event G tv e1).1 e2).1).filter
        Call.is_row_activated = [Call.row_activated R col]
    ∧ (release_branch G (exo_tree_view_button_press_event G tv e1).1 e2).base
        = G.row_activated
          (if G.path_is_selected (exo_tree_view_button_press_event G tv e1).1.base R = true
            then G.set_cursor (G.unselect_all (exo_tree_view_button_press_event G tv e1).1.base) R
                col else (exo_tree_view_button_press_event G tv e1).1.base) R col
    ∧ (exo_tree_view_button_release_event G (exo_tree_view_button_press_event G tv e1).1 e2).1.base
        = G.apply_all (release_branch G (exo_tree_view_button_press_event G tv e1).1 e2).base
          (release_epilogue_calls G (exo_tree_view_button_press_event G tv e1).1 e2
              ++ [Call.parent_button_release_event e2])
    ∧ (∀ c ∈ release_epilogue_calls G (exo_tree_view_button_press_event G tv e1).1 e2,
        c = Call.handlers_unblock_matched ∨ c = Call.set_rubber_banding true) := by
  obtain ⟨hs1, ha1⟩ := press_qualifying_priv G tv e1 hs h1w h1t h1b h1m
  have hb : release_branch_calls G (exo_tree_view_button_press_event G tv e1).1 e2
      = select_only_calls G (exo_tree_view_button_press_event G tv e1).1.base R col
          ++ [Call.row_activated R col] := by
    unfold release_branch_calls
    simp [release_on_bin_window, h2w, hs1, ha1, h2p, h2x]
  refine ⟨⟨press_event_no_row_activated G tv e1, (press_event_applied G tv e1).base⟩,
    ?_, ?_, release_event_base_calls G (exo_tree_view_button_press_event G tv e1).1 e2,
        release_epilogue_calls_kind G (exo_tree_view_button_press_event G tv e1).1 e2⟩
  · rw [new_calls_eq _ _ _ (by rw [release_event_trace, List.append_assoc,
      List.append_assoc])]
    rw [hb]
    unfold select_only_calls release_epilogue_calls
    split_ifs <;> simp [Call.is_row_activated]
  · rw [release_branch_base_calls, hb]
    unfold select_only_calls
    split_ifs <;> rfl

/-- C6 (witness): press on row `[0]` of the reference widget, release on the same row
at `x = 100`: one `row_activated`, recorded by the widget. -/
theorem press_release_activates_once_witness :
    (new_calls
        (exo_tree_view_button_press_event refGtk
          ((ExoTreeView.init (refWidget [])).set_single_click true) (press_at 100 0)).1
        (exo_tree_view_button_release_event refGtk
          (exo_tree_view_button_press_event refGtk
            ((ExoTreeView.init (refWidget [])).set_single_click true) (press_at 100 0)).1
          (release_at 100 0)).1).filter Call.is_row_activated
      = [Call.row_activated [0] 0]
    ∧ (exo_tree_view_button_release_event refGtk
        (exo_tree_view_button_press_event refGtk
          ((ExoTreeView.init (refWidget [])).set_single_click true) (press_at 100 0)).1
        (release_at 100 0)).1.base.activated = [([0], 0)] :=
  ⟨(press_release_activates_once refGtk
    ((ExoTreeView.init (refWidget [])).set_single_click true)
    (press_at 100 0) (release_at 100 0) [0] 0 rfl rfl rfl rfl rfl rfl rfl rfl rfl rfl).2.1,
    rfl⟩

/-! ## C7: the activation branch of the release handler -/

/-- C7: a release on the bin window in single-click mode with the activation flag
set, at a point that resolves to `(row, col)` outside the expander band.  When the row
is selected the handler applies to the base widget, in this order, `unselect_all`,
`set_cursor (row, col)` and `row_activated (row, col)`; when it is not, `row_activated
(row, col)` alone.  These are its calls up to line 466; only the calls that lift the
suspensions and the parent's release handler follow, and the activation flag is false
afterwards. -/
theorem release_activation_calls (G : Gtk W) (tv : ExoTreeView W) (e : GdkEventButton)
    (row : GtkTreePath) (col : GtkTreeViewColumn)
    (hw : e.window = G.get_bin_window tv.base) (hs : tv.priv.single_click = true)
    (ha : tv.priv.button_release_activates = true)
    (hp : G.get_path_at_pos tv.base e.x.to_gint e.y.to_gint = some (row, col))
    (hx : on_expander G tv.base e.x row = false) :
    (exo_tree_view_button_release_event G tv e).1.trace
        = tv.trace
          ++ (if G.path_is_selected tv.base row = true then
                [Call.unselect_all, Call.set_cursor row col, Call.row_activated row col]
              else [Call.row_activated row col])
          ++ release_epilogue_calls G tv e ++ [Call.parent_button_release_event e]
    ∧ (release_branch G tv e).base
        = (if G.path_is_selected tv.base row = true then
            G.row_activated (G.set_cursor (G.unselect_all tv.base) row col) row col
          else G.row_activated tv.base row col)
    ∧ (exo_tree_view_button_release_event G tv e).1.base
        = G.apply_all (release_branch G tv e).base
          (release_epilogue_calls G tv e ++ [Call.parent_button_release_event e])
    ∧ (∀ c ∈ release_epilogue_calls G tv e,
        c = Call.handlers_unblock_matched ∨ c = Call.set_rubber_banding true)
    ∧ (exo_tree_view_button_release_event G tv e).1.priv.button_release_activates = false := by
  have hb : release_branch_calls G tv e
      = (if G.path_is_selected tv.base row = true then
          [Call.unselect_all, Call.set_cursor row col, Call.row_activated row col]
        else [Call.row_activated row col]) := by
    unfold release_branch_calls select_only_calls
    simp only [release_on_bin_window, hw, hs, ha, hp, hx]
    split_ifs <;> simp_all
  refine ⟨?_, ?_, release_event_base_calls G tv e, release_epilogue_calls_kind G tv e, ?_⟩
  · rw [release_event_trace, hb]
  · rw [release_branch_base_calls, hb]
    split_ifs <;> rfl
  · rw [release_event_priv]
    simp [release_on_bin_window, hw, hs]

/-- C7 (witness): releases on the reference widget at `x = 100` on row `[0]`, once
with the row selected and once with it unselected; the widget ends with row `[0]`
alone selected, the cursor on it and one activation, or with one activation only. -/
theorem release_activation_calls_witness :
    ((exo_tree_view_button_release_event refGtk
          (((ExoTreeView.init (refWidget [[0], [1]])).set_single_click true).set_activates
            true)
          (release_at 100 0)).1.trace
        = [Call.unselect_all, Call.set_cursor [0] 0, Call.row_activated [0] 0,
            Call.parent_button_release_event (release_at 100 0)]
      ∧ (release_branch refGtk
          (((ExoTreeView.init (refWidget [[0], [1]])).set_single_click true).set_activates
            true)
          (release_at 100 0)).base
        = { refWidget [[0]] with cursor := some ([0], 0), activated := [([0], 0)] })
    ∧ ((exo_tree_view_button_release_event refGtk
          (((ExoTreeView.init (refWidget [])).set_single_click true).set_activates true)
          (release_at 100 0)).1.trace
        = [Call.row_activated [0] 0, Call.parent_button_release_event (release_at 100 0)]
      ∧ (release_branch refGtk
          (((ExoTreeView.init (refWidget [])).set_single_click true).set_activates true)
          (release_at 100 0)).base
        = { refWidget [] with activated := [([0], 0)] }) :=
  ⟨⟨(release_activation_calls refGtk
      (((ExoTreeView.init (refWidget [[0], [1]])).set_single_click true).set_activates true)
      (release_at 100 0) [0] 0 rfl rfl rfl rfl rfl).1, rfl⟩,
    ⟨(release_activation_calls refGtk
      (((ExoTreeView.init (refWidget [])).set_single_click true).set_activates true)
      (release_at 100 0) [0] 0 rfl rfl rfl rfl rfl).1, rfl⟩⟩

/-! ## C8: a release outside the activation branch -/

/-- C8: for a release that does not take the activation branch.  On the bin window
with no modifier held, `button_release_unblocks_dnd` false and a selected row
`(row, col)` at the release point, the handler applies `unselect_all` and then
`set_cursor (row, col)` to the base widget, and never `row_activated`.  On the bin
window with a modifier held, or the flag set, or no row at the point, or an unselected
row there, and also off the bin window, lines 401-466 leave the base widget as it was.
In each case only the calls that lift the suspensions and the parent's release handler
follow, none of which changes the selection or the cursor or activates a row. -/
theorem release_selection_calls (G : Gtk W) (tv : ExoTreeView W) (e : GdkEventButton)
    (hna : ¬ (e.window = G.get_bin_window tv.base ∧ tv.priv.single_click = true
      ∧ tv.priv.button_release_activates = true)) :
    (∀ row col, e.window = G.get_bin_window tv.base →
        e.state &&& G.default_mod_mask = 0 →
        tv.priv.button_release_unblocks_dnd = false →
        G.get_path_at_pos tv.base e.x.to_gint e.y.to_gint = some (row, col) →
        G.path_is_selected tv.base row = true →
        (exo_tree_view_button_release_event G tv e).1.trace
            = tv.trace ++ [Call.unselect_all, Call.set_cursor row col]
              ++ release_epilogue_calls G tv e ++ [Call.parent_button_release_event e]
          ∧ (release_branch G tv e).base = G.set_cursor (G.unselect_all tv.base) row col)
    ∧ ((e.state &&& G.default_mod_mask ≠ 0 ∨ tv.priv.button_release_unblocks_dnd = true
          ∨ G.get_path_at_pos tv.base e.x.to_gint e.y.to_gint = none
          ∨ (∃ row col, G.get_path_at_pos tv.base e.x.to_gint e.y.to_gint = some (row, col)
              ∧ G.path_is_selected tv.base row = false)
          ∨ e.window ≠ G.get_bin_window tv.base) →
        (exo_tree_view_button_release_event G tv e).1.trace
            = tv.trace ++ release_epilogue_calls G tv e ++ [Call.parent_button_release_event e]
          ∧ (release_branch G tv e).base = tv.base)
    ∧ (exo_tree_view_button_release_event G tv e).1.base
        = G.apply_all (release_branch G tv e).base
          (release_epilogue_calls G tv e ++ [Call.parent_button_release_event e])
    ∧ (∀ c ∈ release_epilogue_calls G tv e ++ [Call.parent_button_release_event e],
        Call.is_selection_change c = false ∧ Call.is_row_activated c = false) := by
  have hna1 : release_on_bin_window G tv e = true →
      (tv.priv.single_click && tv.priv.button_release_activates) = false := by
    intro h
    simp only [release_on_bin_window, decide_eq_true_eq] at h
    cases h1 : tv.priv.single_click <;> cases h2 : tv.priv.button_release_activates <;>
      simp_all
  refine ⟨?_, ?_, release_event_base_calls G tv e, ?_⟩
  · intro row col hw hm hu hp hsel
    have hw1 : release_on_bin_window G tv e = true := by simp [release_on_bin_window, hw]
    have hb : release_branch_calls G tv e = [Call.unselect_all, Call.set_cursor row col] := by
      unfold release_branch_calls select_only_calls
      simp [hw1, hna1 hw1, no_modifier, hm, hu, hp, hsel]
    constructor
    · rw [release_event_trace, hb]
    · rw [release_branch_base_calls, hb]; rfl
  · intro h
    have hb : release_branch_calls G tv e = [] := by
      unfold release_branch_calls select_only_calls
      by_cases hw1 : release_on_bin_window G tv e = true
      · rw [if_pos hw1, hna1 hw1]
        simp only [Bool.false_eq_true, if_false]
        rcases h with h | h | h | ⟨row, col, h, h1⟩ | h
        · simp [no_modifier, h]
        · simp [h]
        · simp [h]
        · simp [h, h1]
        · simp [release_on_bin_window, h] at hw1
      · rw [if_neg hw1]
    constructor
    · rw [release_event_trace, hb, List.append_nil]
    · rw [release_branch_base_calls, hb]; rfl
  · intro c hc
    rcases List.mem_append.mp hc with h | h
    · rcases release_epilogue_calls_kind G tv e c h with rfl | rfl <;>
        simp [Call.is_selection_change, Call.is_row_activated]
    · simp only [List.mem_singleton] at h
      subst h
      simp [Call.is_selection_change, Call.is_row_activated]

/-- C8 (witness): in double-click mode on the reference widget with rows `[0]` and
`[1]` selected, a release on row `[1]` leaves `[1]` alone selected with the cursor on
it, and a release off the bin window leaves the widget as it was. -/
theorem release_selection_calls_witness :
    ((exo_tree_view_button_release_event refGtk (ExoTreeView.init (refWidget [[0], [1]]))
          (release_at 100 1)).1.trace
        = [Call.unselect_all, Call.set_cursor [1] 0,
            Call.parent_button_release_event (release_at 100 1)]
      ∧ (exo_tree_view_button_release_event refGtk (ExoTreeView.init (refWidget [[0], [1]]))
          (release_at 100 1)).1.base
        = { refWidget [[1]] with cursor := some ([1], 0) })
    ∧ ((exo_tree_view_button_release_event refGtk (ExoTreeView.init (refWidget [[0], [1]]))
          { release_at 100 1 with window := 2 }).1.trace
        = [Call.parent_button_release_event { release_at 100 1 with window := 2 }]
      ∧ (release_branch refGtk (ExoTreeView.init (refWidget [[0], [1]]))
          { release_at 100 1 with window := 2 }).base = refWidget [[0], [1]]) :=
  ⟨⟨((release_selection_calls refGtk (ExoTreeView.init (refWidget [[0], [1]]))
      (release_at 100 1) (by decide)).1 [1] 0 rfl rfl rfl rfl rfl).1, rfl⟩,
    (release_selection_calls refGtk (ExoTreeView.init (refWidget [[0], [1]]))
      { release_at 100 1 with window := 2 } (by decide)).2.1
      (Or.inr (Or.inr (Or.inr (Or.inr (by decide)))))⟩

/-! ## C10: lifting the suspensions on release -/

/-- C10: after the release handler both suspension flags are false.  The handler
applies `handlers_unblock_matched` to the base widget once if
`button_release_unblocks_dnd` was true on entry and the drag-site data exists when it
is looked up, and not at all otherwise; it then applies `set_rubber_banding (TRUE)`
once if `button_release_enables_rubber_banding` was true on entry, and does not set
rubber-banding at all otherwise; the parent's release handler runs on the result. -/
theorem release_lifts_suspensions (G : Gtk W) (tv : ExoTreeView W) (e : GdkEventButton) :
    (exo_tree_view_button_release_event G tv e).1.priv.button_release_unblocks_dnd = false
    ∧ (exo_tree_view_button_release_event G tv e).1.priv.button_release_enables_rubber_banding
        = false
    ∧ (new_calls tv (exo_tree_view_button_release_event G tv e).1).count
        Call.handlers_unblock_matched
        = (if tv.priv.button_release_unblocks_dnd = true
              ∧ G.has_site_data (release_branch G tv e).base = true then 1 else 0)
    ∧ (new_calls tv (exo_tree_view_button_release_event G tv e).1).filter Call.is_set_rubber_banding
        = (if tv.priv.button_release_enables_rubber_banding = true
            then [Call.set_rubber_banding true] else [])
    ∧ (release_unblock_dnd G (release_branch G tv e)).base
        = (if tv.priv.button_release_unblocks_dnd = true
              ∧ G.has_site_data (release_branch G tv e).base = true
            then G.handlers_unblock_matched (release_branch G tv e).base
            else (release_branch G tv e).base)
    ∧ (release_before_parent G tv e).base
        = (if tv.priv.button_release_enables_rubber_banding = true
            then G.set_rubber_banding (release_unblock_dnd G (release_branch G tv e)).base true
            else (release_unblock_dnd G (release_branch G tv e)).base)
    ∧ (exo_tree_view_button_release_event G tv e).1.base
        = (G.parent_button_release_event (release_before_parent G tv e).base e).1 := by
  have hk := release_branch_calls_kind G tv e
  have hcount : (release_branch_calls G tv e).count Call.handlers_unblock_matched = 0 := by
    rw [List.count_eq_zero]
    intro hmem
    rcases hk _ hmem with h | ⟨p, c, h⟩ | ⟨p, c, h⟩ <;> simp at h
  have hfilter : (release_branch_calls G tv e).filter Call.is_set_rubber_banding = [] := by
    rw [List.filter_eq_nil_iff]
    intro c hmem
    rcases hk _ hmem with h | ⟨p, c, h⟩ | ⟨p, c, h⟩ <;> subst h <;>
      simp [Call.is_set_rubber_banding]
  refine ⟨by rw [release_event_priv], by rw [release_event_priv], ?_, ?_,
    (release_before_parent_base G tv e).1, (release_before_parent_base G tv e).2, rfl⟩
  · rw [new_calls_eq _ _ _ (by rw [release_event_trace, List.append_assoc, List.append_assoc])]
    rw [List.count_append, hcount]
    unfold release_epilogue_calls
    cases tv.priv.button_release_unblocks_dnd <;>
      cases G.has_site_data (release_branch G tv e).base <;>
      cases tv.priv.button_release_enables_rubber_banding <;> simp
  · rw [new_calls_eq _ _ _ (by rw [release_event_trace, List.append_assoc, List.append_assoc])]
    rw [List.filter_append, hfilter]
    unfold release_epilogue_calls
    cases tv.priv.button_release_unblocks_dnd <;>
      cases G.has_site_data (release_branch G tv e).base <;>
      cases tv.priv.button_release_enables_rubber_banding <;>
      simp [Call.is_set_rubber_banding]

/-! ## The base widget after the arbitration of a press -/

/-- The base widget after lines 317-345, from the base widget `w` in which line 317 is
reached. -/
theorem press_before_parent_base (G : Gtk W) (tv : ExoTreeView W) (e : GdkEventButton) :
    (press_before_parent G tv e).base
      = (if press_arbitrates G (press_at_arbitration G tv e).base e = true then
          (if press_on_unselected G (press_at_arbitration G tv e).base (press_path G tv e) = true
            then (if G.has_site_data (press_at_arbitration G tv e).base = true
              then G.handlers_block_matched (press_at_arbitration G tv e).base
              else (press_at_arbitration G tv e).base)
            else G.set_rubber_banding (press_at_arbitration G tv e).base false)
        else (press_at_arbitration G tv e).base) := by
  show (press_arbitrate G (press_at_arbitration G tv e) e (press_path G tv e)).base = _
  unfold press_arbitrate block_dnd
  split_ifs <;> simp

/-! ## C11: the arbitration of a press -/

/-- C11 (amended): take a press that is not consumed, and the base widget state in
which line 317 is reached.  If the widget is in multiple selection mode with
rubber-banding enabled, the button is 1 and the type is `GDK_BUTTON_PRESS`, then: when
no row was resolved or the resolved row is not selected, the handler blocks the
drag-and-drop handlers if the drag-site data exists (and makes no blocking call if it
does not), sets `button_release_unblocks_dnd`, does not set rubber-banding and leaves
`button_release_enables_rubber_banding` as it was; when the resolved row is selected,
it calls `set_rubber_banding (FALSE)`, sets `button_release_enables_rubber_banding`,
blocks nothing and leaves `button_release_unblocks_dnd` as it was.  If the mode is not
multiple, or rubber-banding is disabled, or the button is not 1, or the type is not
`GDK_BUTTON_PRESS`, it changes neither flag and makes no call that touches the
drag-and-drop handlers or rubber-banding.  Each call is made on the base widget: the
parent's handler is called on the widget of line 317 after
`G.handlers_block_matched`, after `G.set_rubber_banding (FALSE)`, or unchanged, and the
widget after the handler is the widget of entry after the handler's calls. -/
theorem press_arbitration (G : Gtk W) (tv : ExoTreeView W) (e : GdkEventButton) :
    (press_is_consumed G tv e = false →
      G.get_mode (press_at_arbitration G tv e).base = GtkSelectionMode.GTK_SELECTION_MULTIPLE →
      G.get_rubber_banding (press_at_arbitration G tv e).base = true → e.button = 1 →
      e.type = GdkEventType.GDK_BUTTON_PRESS →
        ((press_path G tv e = none
            ∨ ∃ p, press_path G tv e = some p
                ∧ G.path_is_selected (press_at_arbitration G tv e).base p = false) →
          ((new_calls tv (exo_tree_view_button_press_event G tv e).1).filter
              Call.is_suspension_call)
              = (if G.has_site_data (press_at_arbitration G tv e).base = true
                  then [Call.handlers_block_matched] else [])
            ∧ (exo_tree_view_button_press_event G tv e).1.priv.button_release_unblocks_dnd = true
            ∧ (exo_tree_view_button_press_event G tv e).1.priv.button_release_enables_rubber_banding
              = tv.priv.button_release_enables_rubber_banding
            ∧ (press_before_parent G tv e).base
              = (if G.has_site_data (press_at_arbitration G tv e).base = true
                  then G.handlers_block_matched (press_at_arbitration G tv e).base
                  else (press_at_arbitration G tv e).base))
        ∧ (∀ p, press_path G tv e = some p
            → G.path_is_selected (press_at_arbitration G tv e).base p = true →
          ((new_calls tv (exo_tree_view_button_press_event G tv e).1).filter
              Call.is_suspension_call) = [Call.set_rubber_banding false]
            ∧ (exo_tree_view_button_press_event G tv
                e).1.priv.button_release_enables_rubber_banding = true
            ∧ (exo_tree_view_button_press_event G tv e).1.priv.button_release_unblocks_dnd
                = tv.priv.button_release_unblocks_dnd
            ∧ (press_before_parent G tv e).base
              = G.set_rubber_banding (press_at_arbitration G tv e).base false))
    ∧ ((G.get_mode (press_at_arbitration G tv e).base ≠ GtkSelectionMode.GTK_SELECTION_MULTIPLE
          ∨ G.get_rubber_banding (press_at_arbitration G tv e).base = false ∨ e.button ≠ 1
          ∨ e.type ≠ GdkEventType.GDK_BUTTON_PRESS) →
        ((new_calls tv (exo_tree_view_button_press_event G tv e).1).filter Call.is_suspension_call)
            = []
          ∧ (exo_tree_view_button_press_event G tv e).1.priv.button_release_unblocks_dnd
              = tv.priv.button_release_unblocks_dnd
          ∧ (exo_tree_view_button_press_event G tv e).1.priv.button_release_enables_rubber_banding
            = tv.priv.button_release_enables_rubber_banding
          ∧ (press_before_parent G tv e).base = (press_at_arbitration G tv e).base)
    ∧ (press_is_consumed G tv e = false →
        (exo_tree_view_button_press_event G tv e).1.base
          = (press_after_parent G
              (press_parent G (press_before_parent G tv e) e).1 e (press_path G tv e)
              (press_selected_paths G tv e)).base
        ∧ (press_parent G (press_before_parent G tv e) e).1.base
          = (G.parent_button_press_event (press_before_parent G tv e).base e).1)
    ∧ (exo_tree_view_button_press_event G tv e).1.base
        = G.apply_all tv.base (new_calls tv (exo_tree_view_button_press_event G tv e).1) := by
  have hcalls := press_event_suspension_calls G tv e
  obtain ⟨hu, hr⟩ := press_event_flags G tv e
  have hbase := press_before_parent_base G tv e
  refine ⟨?_, ?_, ?_, (press_event_applied G tv e).base⟩
  · intro hc hmode hrb hb ht
    have harb : press_arbitrates G (press_at_arbitration G tv e).base e = true := by
      simp [press_arbitrates, hmode, hrb, hb, ht]
    refine ⟨?_, ?_⟩
    · intro hp
      have hon : press_on_unselected G (press_at_arbitration G tv e).base (press_path G tv e)
          = true := by
        rcases hp with hp | ⟨p, hp, hsel⟩
        · simp [press_on_unselected, hp]
        · simp [press_on_unselected, hp, hsel]
      rw [hcalls, hu, hr, hc, hbase, harb, hon]
      simp [press_arbitrate_calls, harb, hon]
    · intro p hp hsel
      have hon : press_on_unselected G (press_at_arbitration G tv e).base (press_path G tv e)
          = false := by
        simp [press_on_unselected, hp, hsel]
      rw [hcalls, hu, hr, hc, hbase, harb, hon]
      simp [press_arbitrate_calls, harb, hon]
  · intro h
    have harb : press_arbitrates G (press_at_arbitration G tv e).base e = false := by
      unfold press_arbitrates
      rcases h with h | h | h | h <;> simp [h]
    rw [hcalls, hu, hr, hbase, harb]
    simp [press_arbitrate_calls, harb]
  · intro hc
    unfold exo_tree_view_button_press_event
    rw [hc]
    exact ⟨rfl, rfl⟩

/-- C11 (witness): on the reference widget, a press on the unselected row `[0]`
blocks the handlers of the widget once, and a press on the selected row `[0]` disables
its rubber-banding. -/
theorem press_arbitration_witness :
    ((new_calls (ExoTreeView.init (refWidget []))
          (exo_tree_view_button_press_event refGtk (ExoTreeView.init (refWidget []))
            (press_at 100 0)).1).filter Call.is_suspension_call
        = [Call.handlers_block_matched]
      ∧ (exo_tree_view_button_press_event refGtk (ExoTreeView.init (refWidget []))
          (press_at 100 0)).1.priv.button_release_unblocks_dnd = true
      ∧ (exo_tree_view_button_press_event refGtk (ExoTreeView.init (refWidget []))
          (press_at 100 0)).1.priv.button_release_enables_rubber_banding = false
      ∧ (press_before_parent refGtk (ExoTreeView.init (refWidget []))
          (press_at 100 0)).base = { refWidget [] with blocked := 1 })
    ∧ ((new_calls (ExoTreeView.init (refWidget [[0]]))
          (exo_tree_view_button_press_event refGtk (ExoTreeView.init (refWidget [[0]]))
            (press_at 100 0)).1).filter Call.is_suspension_call
        = [Call.set_rubber_banding false]
      ∧ (exo_tree_view_button_press_event refGtk (ExoTreeView.init (refWidget [[0]]))
          (press_at 100 0)).1.priv.button_release_enables_rubber_banding = true
      ∧ (exo_tree_view_button_press_event refGtk (ExoTreeView.init (refWidget [[0]]))
          (press_at 100 0)).1.priv.button_release_unblocks_dnd = false
      ∧ (press_before_parent refGtk (ExoTreeView.init (refWidget [[0]]))
          (press_at 100 0)).base
        = { refWidget [[0]] with
            rubber_banding := false
            select_function := some GtkTreeSelectionFunc.exo_noop_false }) :=
  ⟨((press_arbitration refGtk (ExoTreeView.init (refWidget [])) (press_at 100 0)).1
      rfl rfl rfl rfl rfl).1 (Or.inr ⟨[0], rfl, rfl⟩),
    ((press_arbitration refGtk (ExoTreeView.init (refWidget [[0]])) (press_at 100 0)).1
      rfl rfl rfl rfl rfl).2 [0] rfl rfl⟩

/-! ## C12: the arbitration of a press with a modifier held -/

/-- C12 (amended): the arbitration does not look at the modifiers.  For a press with a
default modifier held: if the widget is in multiple selection mode with rubber-banding
enabled, the button is 1 and the type is `GDK_BUTTON_PRESS`, the handler arbitrates as
for an unmodified press (on no row or an unselected row it blocks the drag-and-drop
handlers when the drag-site data exists and sets `button_release_unblocks_dnd`; on a
selected row it disables rubber-banding and sets
`button_release_enables_rubber_banding`); otherwise it blocks no handler, does not
disable rubber-banding and leaves both flags unchanged.  Each call is made on the base
widget: the parent's handler is called on the widget of entry after
`G.handlers_block_matched`, after `G.set_rubber_banding (FALSE)`, or unchanged. -/
theorem press_with_modifier_arbitration (G : Gtk W) (tv : ExoTreeView W)
    (e : GdkEventButton) (hm : e.state &&& G.default_mod_mask ≠ 0) :
    (G.get_mode tv.base = GtkSelectionMode.GTK_SELECTION_MULTIPLE →
      G.get_rubber_banding tv.base = true → e.button = 1 →
      e.type = GdkEventType.GDK_BUTTON_PRESS →
        ((press_path G tv e = none
            ∨ ∃ p, press_path G tv e = some p ∧ G.path_is_selected tv.base p = false) →
          ((new_calls tv (exo_tree_view_button_press_event G tv e).1).filter
              Call.is_suspension_call)
              = (if G.has_site_data tv.base = true then [Call.handlers_block_matched]
                else [])
            ∧ (exo_tree_view_button_press_event G tv e).1.priv.button_release_unblocks_dnd = true
            ∧ (exo_tree_view_button_press_event G tv e).1.priv.button_release_enables_rubber_banding
              = tv.priv.button_release_enables_rubber_banding
            ∧ (press_before_parent G tv e).base
              = (if G.has_site_data tv.base = true
                  then G.handlers_block_matched tv.base else tv.base))
        ∧ (∀ p, press_path G tv e = some p → G.path_is_selected tv.base p = true →
          ((new_calls tv (exo_tree_view_button_press_event G tv e).1).filter
              Call.is_suspension_call) = [Call.set_rubber_banding false]
            ∧ (exo_tree_view_button_press_event G tv
                e).1.priv.button_release_enables_rubber_banding = true
            ∧ (exo_tree_view_button_press_event G tv e).1.priv.button_release_unblocks_dnd
                = tv.priv.button_release_unblocks_dnd
            ∧ (press_before_parent G tv e).base = G.set_rubber_banding tv.base false))
    ∧ ((G.get_mode tv.base ≠ GtkSelectionMode.GTK_SELECTION_MULTIPLE
          ∨ G.get_rubber_banding tv.base = false ∨ e.button ≠ 1
          ∨ e.type ≠ GdkEventType.GDK_BUTTON_PRESS) →
        ((new_calls tv (exo_tree_view_button_press_event G tv e).1).filter Call.is_suspension_call)
            = []
          ∧ (exo_tree_view_button_press_event G tv e).1.priv.button_release_unblocks_dnd
              = tv.priv.button_release_unblocks_dnd
          ∧ (exo_tree_view_button_press_event G tv e).1.priv.button_release_enables_rubber_banding
            = tv.priv.button_release_enables_rubber_banding
          ∧ (press_before_parent G tv e).base = tv.base)
    ∧ (e.type ≠ GdkEventType.GDK_2BUTTON_PRESS →
        (exo_tree_view_button_press_event G tv e).1.base
          = (press_after_parent G
              (press_parent G (press_before_parent G tv e) e).1 e (press_path G tv e)
              (press_selected_paths G tv e)).base
        ∧ (press_parent G (press_before_parent G tv e) e).1.base
          = (G.parent_button_press_event (press_before_parent G tv e).base e).1)
    ∧ (exo_tree_view_button_press_event G tv e).1.base
        = G.apply_all tv.base (new_calls tv (exo_tree_view_button_press_event G tv e).1) := by
  have hcalls := press_event_suspension_calls G tv e
  obtain ⟨hu, hr⟩ := press_event_flags G tv e
  have hbase := press_before_parent_base G tv e
  rw [press_at_arbitration_modified G tv e hm] at hcalls hu hr hbase
  refine ⟨?_, ?_, ?_, (press_event_applied G tv e).base⟩
  · intro hmode hrb hb ht
    have hc : press_is_consumed G tv e = false := by simp [press_is_consumed, ht]
    have harb : press_arbitrates G tv.base e = true := by
      simp [press_arbitrates, hmode, hrb, hb, ht]
    refine ⟨?_, ?_⟩
    · intro hp
      have hon : press_on_unselected G tv.base (press_path G tv e) = true := by
        rcases hp with hp | ⟨p, hp, hsel⟩
        · simp [press_on_unselected, hp]
        · simp [press_on_unselected, hp, hsel]
      rw [hcalls, hu, hr, hc, hbase, harb, hon]
      simp [press_arbitrate_calls, harb, hon]
    · intro p hp hsel
      have hon : press_on_unselected G tv.base (press_path G tv e) = false := by
        simp [press_on_unselected, hp, hsel]
      rw [hcalls, hu, hr, hc, hbase, harb, hon]
      simp [press_arbitrate_calls, harb, hon]
  · intro h
    have harb : press_arbitrates G tv.base e = false := by
      unfold press_arbitrates
      rcases h with h | h | h | h <;> simp [h]
    rw [hcalls, hu, hr, hbase, harb]
    simp [press_arbitrate_calls, harb]
  · intro ht
    have hc : press_is_consumed G tv e = false := by simp [press_is_consumed, ht]
    unfold exo_tree_view_button_press_event
    rw [hc]
    exact ⟨rfl, rfl⟩

/-- C12 (witness): with Shift held on the reference widget, a press of button 1 on
the selected row `[0]` disables the rubber-banding of the widget, and a press of
button 3 arbitrates nothing and leaves the widget as it was. -/
theorem press_with_modifier_arbitration_witness :
    ((new_calls (ExoTreeView.init (refWidget [[0]]))
          (exo_tree_view_button_press_event refGtk (ExoTreeView.init (refWidget [[0]]))
            (press_with 1 1 100 0)).1).filter Call.is_suspension_call
        = [Call.set_rubber_banding false]
      ∧ (exo_tree_view_button_press_event refGtk (ExoTreeView.init (refWidget [[0]]))
          (press_with 1 1 100 0)).1.priv.button_release_enables_rubber_banding
        = true
      ∧ (exo_tree_view_button_press_event refGtk (ExoTreeView.init (refWidget [[0]]))
          (press_with 1 1 100 0)).1.priv.button_release_unblocks_dnd = false
      ∧ (press_before_parent refGtk (ExoTreeView.init (refWidget [[0]]))
          (press_with 1 1 100 0)).base = { refWidget [[0]] with rubber_banding := false })
    ∧ ((new_calls (ExoTreeView.init (refWidget [[0]]))
          (exo_tree_view_button_press_event refGtk (ExoTreeView.init (refWidget [[0]]))
            (press_with 1 3 100 0)).1).filter
          Call.is_suspension_call = []
      ∧ (exo_tree_view_button_press_event refGtk (ExoTreeView.init (refWidget [[0]]))
          (press_with 1 3 100 0)).1.priv.button_release_unblocks_dnd
        = false
      ∧ (exo_tree_view_button_press_event refGtk (ExoTreeView.init (refWidget [[0]]))
          (press_with 1 3 100 0)).1.priv.button_release_enables_rubber_banding = false
      ∧ (press_before_parent refGtk (ExoTreeView.init (refWidget [[0]]))
          (press_with 1 3 100 0)).base = refWidget [[0]]) :=
  ⟨((press_with_modifier_arbitration refGtk (ExoTreeView.init (refWidget [[0]]))
      (press_with 1 1 100 0) (by decide)).1 rfl rfl rfl rfl).2 [0] rfl rfl,
    (press_with_modifier_arbitration refGtk (ExoTreeView.init (refWidget [[0]]))
      (press_with 1 3 100 0) (by decide)).2.1
      (Or.inr (Or.inr (Or.inl (by decide))))⟩

/-! ## C14: hover notifications -/

/-- C14: in single-click mode with `button_release_unblocks_dnd` false, a motion event
on the bin window emits `item-hovered` exactly when the row resolved at its
coordinates is not equal, as an optional path, to the tracked hover path; the payload
is the resolved row (possibly none) and afterwards the hover path is the resolved row.
The emission is made on the base widget: the parent's motion handler runs on the
widget after `G.emit_item_hovered` when the row differs and on the widget of entry
when it does not.  Along any sequence of such motion events the mode and the flag
persist, the first payload differs from the hover path of entry, no two consecutive
payloads are equal, and the base widget is the widget of entry after the calls made. -/
theorem hover_notifications (G : Gtk W) (tv : ExoTreeView W)
    (hs : tv.priv.single_click = true) (hd : tv.priv.button_release_unblocks_dnd = false) :
    (∀ e : GdkEventMotion, e.window = G.get_bin_window tv.base →
      new_calls tv (exo_tree_view_motion_notify_event G tv e).1
          = (if path_at G tv.base e.x e.y ≠ tv.priv.hover_path
              then [Call.item_hovered (path_at G tv.base e.x e.y)] else [])
            ++ [Call.parent_motion_notify_event e]
      ∧ exo_tree_view_get_hover_path (exo_tree_view_motion_notify_event G tv e).1
          = path_at G tv.base e.x e.y
      ∧ (exo_tree_view_motion_notify_event G tv e).1.base
          = (G.parent_motion_notify_event
              (if path_at G tv.base e.x e.y ≠ tv.priv.hover_path
                then G.emit_item_hovered tv.base (path_at G tv.base e.x e.y)
                else tv.base) e).1)
    ∧ (∀ es : List GdkEventMotion, motions_on_bin_window G tv es = true →
      List.Chain (fun a b => a ≠ b) tv.priv.hover_path
          (hover_payloads (new_calls tv (run_motions G tv es)))
        ∧ (run_motions G tv es).priv.single_click = true
        ∧ (run_motions G tv es).priv.button_release_unblocks_dnd = false
        ∧ (run_motions G tv es).base
          = G.apply_all tv.base (new_calls tv (run_motions G tv es))) := by
  refine ⟨fun e hw => ?_, fun es hon => ?_⟩
  · obtain ⟨h1, h2⟩ := motion_event_tracked G tv e hs hd hw
    refine ⟨h1, h2, ?_⟩
    have hb : (motion_before_parent G tv e).base
        = (if path_at G tv.base e.x e.y ≠ tv.priv.hover_path
            then G.emit_item_hovered tv.base (path_at G tv.base e.x e.y)
            else tv.base) := by
      unfold motion_before_parent motion_hover
      simp only [hw, hs, hd, decide_True, Bool.and_self, if_true, Bool.false_eq_true,
        if_false]
      by_cases hne : path_at G tv.base e.x e.y ≠ tv.priv.hover_path
      · rw [if_pos ((hover_changed_iff _ _).mpr hne), if_pos hne]
        rfl
      · rw [if_neg (fun h => hne ((hover_changed_iff _ _).mp h)), if_neg hne]
    rw [← hb]
    rfl
  · obtain ⟨h1, h2, h3⟩ := run_motions_chain G es tv hs hd hon
    exact ⟨h1, h2, h3, (run_motions_applied G es tv).base⟩

/-- C14 (witness): on the reference widget in single-click mode, motion over row
`[0]`, again over row `[0]`, then over row `[1]` emits `[0]` and then `[1]`, and the
widget receives exactly these two notifications. -/
theorem hover_notifications_witness :
    hover_payloads (new_calls ((ExoTreeView.init (refWidget [])).set_single_click true)
        (run_motions refGtk ((ExoTreeView.init (refWidget [])).set_single_click true)
          [motion_at 100 0, motion_at 100 0, motion_at 100 1]))
      = [some [0], some [1]]
    ∧ (run_motions refGtk ((ExoTreeView.init (refWidget [])).set_single_click true)
        [motion_at 100 0, motion_at 100 0, motion_at 100 1]).base.hovered
      = [some [0], some [1]]
    ∧ List.Chain (fun a b => a ≠ b)
        ((ExoTreeView.init (refWidget [])).set_single_click true).priv.hover_path
        (hover_payloads (new_calls ((ExoTreeView.init (refWidget [])).set_single_click true)
          (run_motions refGtk ((ExoTreeView.init (refWidget [])).set_single_click true)
            [motion_at 100 0, motion_at 100 0, motion_at 100 1]))) :=
  ⟨rfl, rfl, ((hover_notifications refGtk
    ((ExoTreeView.init (refWidget [])).set_single_click true)
    rfl rfl).2 [motion_at 100 0, motion_at 100 0, motion_at 100 1] rfl).1⟩

/-! ## C16: the hover path after a notification -/

/-- C16 (amended): whenever the press, release, motion, leave or drag-begin handler
changes the hover path, it emits `item-hovered` and the last payload it emits is the
new value; the cursor-move handler clears the hover path, emits nothing and hands the
base widget of entry to the parent's handler.  Every emission is made on the base
widget: after any event sequence the base widget is the widget of entry after the
library function of each recorded call, `G.emit_item_hovered` for `item-hovered`.  So
along every event sequence that holds no cursor move, from any state, once a
notification has been emitted the hover-path accessor returns the payload of the most
recent one. -/
theorem hover_path_follows_notifications (G : Gtk W) (tv : ExoTreeView W) :
    (∀ ev, (∀ s n, ev ≠ Event.move_cursor s n) →
      (step G tv ev).priv.hover_path ≠ tv.priv.hover_path →
      last_hovered (new_calls tv (step G tv ev)) = some (step G tv ev).priv.hover_path)
    ∧ (∀ events, no_move_cursor events = true →
      ∀ p, last_hovered (new_calls tv (run G tv events)) = some p →
        exo_tree_view_get_hover_path (run G tv events) = p)
    ∧ (∀ events,
        (run G tv events).base = G.apply_all tv.base (new_calls tv (run G tv events)))
    ∧ (∀ s n, (exo_tree_view_move_cursor G tv s n).1.priv.hover_path = none
      ∧ hover_payloads (new_calls tv (exo_tree_view_move_cursor G tv s n).1) = []
      ∧ (exo_tree_view_move_cursor G tv s n).1.base = (G.parent_move_cursor tv.base s n).1) := by
  refine ⟨?_, ?_, fun events => (run_applied G events tv).base, ?_⟩
  · intro ev hev hchange
    obtain ⟨cs, h1, _, hp⟩ := step_trace G tv ev
    unfold last_hovered
    rw [new_calls_eq _ _ _ h1, hp]
    rcases step_hover_path G tv ev hev with ⟨_, hsame⟩ | hlast
    · exact absurd hsame hchange
    · exact hlast
  · intro events hn p hp
    rcases run_hover_path G events tv hn with ⟨hnil, _⟩ | hlast
    · unfold last_hovered at hp
      rw [hnil] at hp
      simp at hp
    · rw [hlast] at hp
      exact Option.some.inj hp
  · intro s n
    refine ⟨rfl, ?_, rfl⟩
    rw [new_calls_eq tv _ [Call.parent_move_cursor s n] rfl]
    rfl

/-- C16 (witness): on the reference widget in single-click mode, a motion event onto
row `[0]` followed by a press: the widget has received the notification for `[0]` and
the accessor returns `[0]`. -/
theorem hover_path_follows_notifications_witness :
    no_move_cursor [Event.motion (motion_at 100 0), Event.press (press_at 100 0)] = true
    ∧ last_hovered (new_calls ((ExoTreeView.init (refWidget [])).set_single_click true)
        (run refGtk ((ExoTreeView.init (refWidget [])).set_single_click true)
          [Event.motion (motion_at 100 0), Event.press (press_at 100 0)]))
      = some (some [0])
    ∧ (run refGtk ((ExoTreeView.init (refWidget [])).set_single_click true)
        [Event.motion (motion_at 100 0), Event.press (press_at 100 0)]).base.hovered
      = [some [0]]
    ∧ exo_tree_view_get_hover_path
        (run refGtk ((ExoTreeView.init (refWidget [])).set_single_click true)
          [Event.motion (motion_at 100 0), Event.press (press_at 100 0)]) = some [0] :=
  ⟨rfl, rfl, rfl,
    (hover_path_follows_notifications refGtk
      ((ExoTreeView.init (refWidget [])).set_single_click true)).2.1
      [Event.motion (motion_at 100 0), Event.press (press_at 100 0)] rfl (some [0]) rfl⟩

/-! ## C20: the single-click setter -/

/-- C20: after `exo_tree_view_set_single_click` with the integer argument `v`,
`exo_tree_view_get_single_click` returns true exactly when `v` is not 0; the
`single-click` notification is emitted once when that value differs from the previous
mode and not at all otherwise: the base widget afterwards is `G.notify_single_click`
of the widget of entry in the first case and the widget of entry in the second.
Setting the same value again emits nothing and leaves the base widget as it is; no
other private field changes. -/
theorem set_single_click_notifies_on_change (G : Gtk W) (tv : ExoTreeView W) (v : Int) :
    (exo_tree_view_get_single_click (exo_tree_view_set_single_click G tv v) = true ↔ v ≠ 0)
    ∧ new_calls tv (exo_tree_view_set_single_click G tv v)
        = (if tv.priv.single_click ≠ decide (v ≠ 0) then [Call.notify_single_click] else [])
    ∧ (exo_tree_view_set_single_click G tv v).base
        = (if tv.priv.single_click ≠ decide (v ≠ 0) then G.notify_single_click tv.base
          else tv.base)
    ∧ (exo_tree_view_set_single_click G tv v).priv
        = { tv.priv with single_click := decide (v ≠ 0) }
    ∧ new_calls (exo_tree_view_set_single_click G tv v)
        (exo_tree_view_set_single_click G (exo_tree_view_set_single_click G tv v) v) = []
    ∧ (exo_tree_view_set_single_click G (exo_tree_view_set_single_click G tv v) v).base
        = (exo_tree_view_set_single_click G tv v).base := by
  have hpriv : (exo_tree_view_set_single_click G tv v).priv
      = { tv.priv with single_click := decide (v ≠ 0) } := by
    unfold exo_tree_view_set_single_click
    split_ifs with h
    · rfl
    · simp only [ne_eq, not_not] at h
      rcases tv with ⟨⟨a, u, r, sc, hp⟩, base, trace⟩
      simp only at h
      simp [h]
  have hsame : ∀ t : ExoTreeView W, t.priv.single_click = decide (v ≠ 0) →
      exo_tree_view_set_single_click G t v = t := by
    intro t ht
    unfold exo_tree_view_set_single_click
    rw [if_neg (by simp [ht])]
  refine ⟨?_, ?_, ?_, hpriv, ?_, ?_⟩
  · unfold exo_tree_view_get_single_click
    rw [hpriv]; simp
  · apply new_calls_eq
    unfold exo_tree_view_set_single_click
    split_ifs <;> simp
  · unfold exo_tree_view_set_single_click
    split_ifs <;> rfl
  · rw [hsame (exo_tree_view_set_single_click G tv v) (by rw [hpriv])]
    exact new_calls_eq _ _ [] (by simp)
  · rw [hsame (exo_tree_view_set_single_click G tv v) (by rw [hpriv])]

/-! ## C22: the expander band in `int` arithmetic -/

/-- A value that fits a 32-bit `int` is not changed by the wrap-around. -/
theorem gint_wrap_of_fits (n : Int) (h : fits_gint n) : gint_wrap n = n := by
  unfold fits_gint at h
  unfold gint_wrap
  omega

/-- The value of every 32-bit computation fits a 32-bit `int`. -/
theorem fits_gint_wrap (n : Int) : fits_gint (gint_wrap n) := by
  unfold fits_gint gint_wrap
  omega

/-- C22 (counterexample): with the style property `expander-size` at `G_MAXINT`, a
release at `x = 100` on the depth-1 row `[0]` in the activation branch satisfies
`x <= h / 2 + d * (e + 4)` over the integers, yet `expander_size += 4` wraps around,
the bound computed in `int` is negative and the handler activates the row. -/
theorem expander_size_overflow_activates :
    (release_at 100 0).x.value
        ≤ ((Int.tdiv (refGtkWide.style_horizontal_separator (refWidget [])) 2
          + gtk_tree_path_get_depth [0]
            * (refGtkWide.style_expander_size (refWidget []) + 4) : ℤ) : ℚ)
    ∧ expander_bound refGtkWide (refWidget []) [0] = -2147483644
    ∧ (new_calls (((ExoTreeView.init (refWidget [])).set_single_click true).set_activates true)
        (exo_tree_view_button_release_event refGtkWide
          (((ExoTreeView.init (refWidget [])).set_single_click true).set_activates true)
          (release_at 100 0)).1).filter Call.is_selection_or_activation
      = [Call.row_activated [0] 0]
    ∧ (exo_tree_view_button_release_event refGtkWide
        (((ExoTreeView.init (refWidget [])).set_single_click true).set_activates true)
        (release_at 100 0)).1.base.activated = [([0], 0)] :=
  ⟨(gdouble.le_gint_iff _ _).mp (by decide), by decide, by decide, by decide⟩

/-- C22 (amended): for a release on the bin window in single-click mode with the
activation flag set that resolves `(row, col)`, with style metrics `expander-size` and
`horizontal-separator`: the handler suppresses the activation exactly when the release
x-coordinate is at most the value that lines 419-424 compute in 32-bit `int` for
`horizontal-separator / 2 + depth * (expander-size + 4)`, with truncating division.
That value is the integer `horizontal-separator / 2 + depth * (expander-size + 4)`
whenever the metrics, the depth, `expander-size + 4`, the product and the sum fit an
`int`.  When the activation is suppressed the handler makes no selection, cursor or
activation call and lines 401-466 leave the base widget as it was; otherwise it
applies `unselect_all` and `set_cursor` when the row is selected and then
`row_activated` to the base widget.  The test reads only the depth of the row and the
metrics, so it applies to every row, and the activation flag is false afterwards in
both cases. -/
theorem expander_band_suppresses_activation (G : Gtk W) (tv : ExoTreeView W)
    (e : GdkEventButton) (row : GtkTreePath) (col : GtkTreeViewColumn)
    (hw : e.window = G.get_bin_window tv.base) (hs : tv.priv.single_click = true)
    (ha : tv.priv.button_release_activates = true)
    (hp : G.get_path_at_pos tv.base e.x.to_gint e.y.to_gint = some (row, col)) :
    ((new_calls tv (exo_tree_view_button_release_event G tv e).1).filter
        Call.is_selection_or_activation = []
      ↔ e.x.value ≤ ((expander_bound G tv.base row : ℤ) : ℚ))
    ∧ (e.x.value ≤ ((expander_bound G tv.base row : ℤ) : ℚ) →
      (release_branch G tv e).base = tv.base)
    ∧ (¬ e.x.value ≤ ((expander_bound G tv.base row : ℤ) : ℚ) →
      (new_calls tv (exo_tree_view_button_release_event G tv e).1).filter
          Call.is_selection_or_activation
          = select_only_calls G tv.base row col ++ [Call.row_activated row col]
        ∧ (release_branch G tv e).base
          = G.row_activated
            (if G.path_is_selected tv.base row = true
              then G.set_cursor (G.unselect_all tv.base) row col else tv.base) row col)
    ∧ (exo_tree_view_button_release_event G tv e).1.base
        = G.apply_all (release_branch G tv e).base
          (release_epilogue_calls G tv e ++ [Call.parent_button_release_event e])
    ∧ (fits_gint (G.style_horizontal_separator tv.base) →
        fits_gint (G.style_expander_size tv.base) →
        fits_gint (gtk_tree_path_get_depth row) →
        fits_gint (G.style_expander_size tv.base + 4) →
        fits_gint (gtk_tree_path_get_depth row * (G.style_expander_size tv.base + 4)) →
        fits_gint (Int.tdiv (G.style_horizontal_separator tv.base) 2
          + gtk_tree_path_get_depth row * (G.style_expander_size tv.base + 4)) →
        expander_bound G tv.base row
          = Int.tdiv (G.style_horizontal_separator tv.base) 2
            + gtk_tree_path_get_depth row * (G.style_expander_size tv.base + 4))
    ∧ (exo_tree_view_button_release_event G tv e).1.priv.button_release_activates = false := by
  have hx : on_expander G tv.base e.x row = true
      ↔ e.x.value ≤ ((expander_bound G tv.base row : ℤ) : ℚ) := by
    unfold on_expander
    exact gdouble.le_gint_iff _ _
  have htr : (exo_tree_view_button_release_event G tv e).1.trace
      = tv.trace ++ (release_branch_calls G tv e ++ release_epilogue_calls G tv e
        ++ [Call.parent_button_release_event e]) := by
    rw [release_event_trace]; simp only [List.append_assoc]
  have he : (release_epilogue_calls G tv e).filter Call.is_selection_or_activation = [] := by
    rw [List.filter_eq_nil_iff]
    intro c hmem
    rcases release_epilogue_calls_kind G tv e c hmem with h | h <;>
      subst h <;>
      simp [Call.is_selection_or_activation, Call.is_selection_change, Call.is_row_activated]
  have hsel : (select_only_calls G tv.base row col).filter Call.is_selection_or_activation
      = select_only_calls G tv.base row col := by
    unfold select_only_calls
    split_ifs <;>
      simp [Call.is_selection_or_activation, Call.is_selection_change, Call.is_row_activated]
  have hb : release_branch_calls G tv e
      = if on_expander G tv.base e.x row = true then []
        else select_only_calls G tv.base row col ++ [Call.row_activated row col] := by
    unfold release_branch_calls
    simp only [release_on_bin_window, hw, hs, ha, hp, decide_True, Bool.and_self, if_true]
    cases hon : on_expander G tv.base e.x row <;> simp
  have hfilter : (new_calls tv (exo_tree_view_button_release_event G tv e).1).filter
      Call.is_selection_or_activation
      = if on_expander G tv.base e.x row = true then []
        else select_only_calls G tv.base row col ++ [Call.row_activated row col] := by
    rw [new_calls_eq _ _ _ htr]
    simp only [List.filter_append, he, List.append_nil]
    rw [hb]
    cases hon : on_expander G tv.base e.x row
    · simp [hsel, Call.is_selection_or_activation, Call.is_selection_change,
        Call.is_row_activated]
    · simp [Call.is_selection_or_activation, Call.is_selection_change, Call.is_row_activated]
  refine ⟨?_, ?_, ?_, release_event_base_calls G tv e, ?_, ?_⟩
  · rw [hfilter, ← hx]
    cases hon : on_expander G tv.base e.x row <;> simp
  · intro hle
    rw [release_branch_base_calls, hb, if_pos (hx.mpr hle)]
    rfl
  · intro hnot
    refine ⟨by rw [hfilter, if_neg (fun h => hnot (hx.mp h))], ?_⟩
    rw [release_branch_base_calls, hb, if_neg (fun h => hnot (hx.mp h))]
    unfold select_only_calls
    split_ifs <;> rfl
  · intro h1 h2 h3 h4 h5 h6
    unfold expander_bound
    rw [gint_wrap_of_fits _ h1, gint_wrap_of_fits _ h2, gint_wrap_of_fits _ h3,
      gint_wrap_of_fits _ h4, gint_wrap_of_fits _ h5, gint_wrap_of_fits _ h6]
  · rw [release_event_priv]
    simp [release_on_bin_window, hw, hs]

/-- C22 (witness): on the reference tree, whose row `[0, 0]` has depth 2, the band of
that row ends at `2 / 2 + 2 * (10 + 4) = 29`: a release on it at `x = 29` in the
activation branch makes no selection, cursor or activation call and leaves the widget
as it was, and a release at `x = 30` activates the row. -/
theorem expander_band_suppresses_activation_witness :
    ((new_calls (((ExoTreeView.init refTree).set_single_click true).set_activates true)
        (exo_tree_view_button_release_event refGtk
          (((ExoTreeView.init refTree).set_single_click true).set_activates true)
          (release_at 29 1)).1).filter Call.is_selection_or_activation = []
      ∧ (exo_tree_view_button_release_event refGtk
          (((ExoTreeView.init refTree).set_single_click true).set_activates true)
          (release_at 29 1)).1.base = refTree
      ∧ expander_bound refGtk refTree [0, 0] = 29)
    ∧ ((new_calls (((ExoTreeView.init refTree).set_single_click true).set_activates true)
        (exo_tree_view_button_release_event refGtk
          (((ExoTreeView.init refTree).set_single_click true).set_activates true)
          (release_at 30 1)).1).filter Call.is_selection_or_activation
        = [Call.row_activated [0, 0] 0]
      ∧ (release_branch refGtk
          (((ExoTreeView.init refTree).set_single_click true).set_activates true)
          (release_at 30 1)).base = { refTree with activated := [([0, 0], 0)] }) :=
  ⟨⟨(expander_band_suppresses_activation refGtk
      (((ExoTreeView.init refTree).set_single_click true).set_activates true)
      (release_at 29 1) [0, 0] 0 rfl rfl rfl rfl).1.mpr
        ((gdouble.le_gint_iff _ _).mp (by decide)), by decide, by decide⟩,
    (expander_band_suppresses_activation refGtk
      (((ExoTreeView.init refTree).set_single_click true).set_activates true)
      (release_at 30 1) [0, 0] 0 rfl rfl rfl rfl).2.2.1
        (fun h => absurd ((gdouble.le_gint_iff _ _).mpr h) (by decide))⟩

/-! ## C9: when a press and a release keep the selection -/

/-- The reference library selects paths as the restoring of the selection needs. -/
theorem refGtk_selects_paths : SelectsPaths refGtk where
  selected_rows := by
    intro w p
    show p ∈ w.selected ↔ decide (p ∈ w.selected) = true
    simp
  select_path := by
    intro w p q h
    have h1 : w.select_function ≠ some GtkTreeSelectionFunc.exo_noop_false := h
    show decide (q ∈ (if p ∈ w.selected then w else w.set_selected (w.selected ++ [p])).selected)
      = (decide (q = p) || decide (q ∈ w.selected))
    by_cases hp : p ∈ w.selected
    · rw [if_pos hp]
      by_cases hq : q = p
      · subst hq; simp [hp]
      · simp [hq]
    · rw [if_neg hp]
      unfold RefWidget.set_selected
      rw [if_neg h1]
      by_cases hq : q = p
      · subst hq; simp
      · simp [hq]
  slot_select_path := by
    intro w p
    show (if p ∈ w.selected then w else w.set_selected (w.selected ++ [p])).select_function
      = w.select_function
    unfold RefWidget.set_selected
    split_ifs <;> rfl

/-- The library whose select functions let no row be selected honours the sentinel. -/
theorem refGtkVeto_honours_sentinel : HonoursSentinel refGtkVeto where
  is_tree_selection := fun _ => rfl
  get_set_select_function := fun _ _ => rfl
  selected_set_select_function := fun _ _ _ => rfl
  selected_set_rubber_banding := fun _ _ _ => rfl
  select_function_set_rubber_banding := fun _ _ => rfl
  selected_unblock := fun _ _ => rfl
  parent_press_selected := refGtk_honours_sentinel.parent_press_selected

/-- Selecting a list of paths again, with a select function other than the sentinel
installed: the paths of the list are selected, no other row changes, and the slot is
not written. -/
theorem select_paths_selected (G : Gtk W) (hL : SelectsPaths G) (ps : List GtkTreePath) :
    ∀ tv : ExoTreeView W,
      G.get_select_function tv.base ≠ some GtkTreeSelectionFunc.exo_noop_false →
      (∀ q, G.path_is_selected (select_paths G tv ps).base q
          = (decide (q ∈ ps) || G.path_is_selected tv.base q))
        ∧ G.get_select_function (select_paths G tv ps).base
          = G.get_select_function tv.base := by
  induction ps with
  | nil => intro tv _; exact ⟨fun q => by simp [select_paths], rfl⟩
  | cons p ps ih =>
    intro tv h
    have hslot : G.get_select_function
        (tv.call (Call.select_path p) (fun w => G.select_path w p)).base
        = G.get_select_function tv.base := hL.slot_select_path tv.base p
    obtain ⟨h1, h2⟩ := ih (tv.call (Call.select_path p) (fun w => G.select_path w p))
      (by rw [hslot]; exact h)
    refine ⟨fun q => ?_, ?_⟩
    · show G.path_is_selected (select_paths G
        (tv.call (Call.select_path p) (fun w => G.select_path w p)) ps).base q = _
      rw [h1 q]
      show (decide (q ∈ ps) || G.path_is_selected (G.select_path tv.base p) q) = _
      rw [hL.select_path tv.base p q h]
      by_cases hq : q = p
      · subst hq; simp
      · simp [hq]
    · show G.get_select_function (select_paths G
        (tv.call (Call.select_path p) (fun w => G.select_path w p)) ps).base = _
      rw [h2, hslot]

/-- Resetting the select function after the parent's handler leaves every row's
selected state as it was. -/
theorem press_reset_select_function_selected (G : Gtk W) (hG : HonoursSentinel G)
    (tv : ExoTreeView W) (q : GtkTreePath) :
    G.path_is_selected (press_reset_select_function G tv).base q
      = G.path_is_selected tv.base q := by
  unfold press_reset_select_function
  split_ifs
  · exact hG.selected_set_select_function tv.base none q
  · rfl

/-- A press of type `GDK_BUTTON_PRESS` with no modifier on a selected row `R`, with a
select function installed on entry (lines 308-309): the parent's handler is called on
the base widget of entry, possibly with rubber-banding disabled.  Afterwards (lines
353-373) the rows selected on entry are selected again on top of those that the parent
left selected if the parent left `R` selected and the sentinel is not installed; else
the selection is as the parent left it. -/
theorem press_on_selected_restores_selection (G : Gtk W) (hG : HonoursSentinel G)
    (hL : SelectsPaths G) (tv : ExoTreeView W) (e : GdkEventButton) (R : GtkTreePath)
    (ht : e.type = GdkEventType.GDK_BUTTON_PRESS)
    (hm : e.state &&& G.default_mod_mask = 0)
    (hw : e.window = G.get_bin_window tv.base)
    (hp : path_at G tv.base e.x e.y = some R)
    (hsel : G.path_is_selected tv.base R = true)
    (hf : G.get_select_function tv.base ≠ none) :
    ((press_before_parent G tv e).base = tv.base
      ∨ (press_before_parent G tv e).base = G.set_rubber_banding tv.base false)
    ∧ ∀ q, G.path_is_selected (exo_tree_view_button_press_event G tv e).1.base q
      = if G.path_is_selected (G.parent_button_press_event (press_before_parent G tv e).base e).1 R
          = true ∧ G.get_select_function (G.parent_button_press_event (press_before_parent G tv
          e).base e).1 ≠ some GtkTreeSelectionFunc.exo_noop_false
        then (G.path_is_selected tv.base q || G.path_is_selected (G.parent_button_press_event
            (press_before_parent G tv e).base e).1 q)
        else G.path_is_selected (G.parent_button_press_event (press_before_parent G tv e).base e).1
            q := by
  have hpath : press_path G tv e = some R := by
    simp [press_path, press_on_bin_window, hw, hp]
  have hc : ¬ press_is_consumed G tv e = true := by simp [press_is_consumed, ht]
  have hcl : (press_classify G tv e).base = tv.base := by
    unfold press_classify press_unselect_empty
    rw [hpath]; simp [press_on_bin_window, hw]
  have hpre : press_preserve G (press_classify G tv e) e (some R)
      = (press_classify G tv e, G.get_selected_rows tv.base) := by
    unfold press_preserve
    simp [press_on_selected, ht, no_modifier, hm, hG.is_tree_selection, hsel, hf, hcl]
  have hsp : press_selected_paths G tv e = G.get_selected_rows tv.base := by
    unfold press_selected_paths; rw [hpath, hpre]
  refine ⟨?_, ?_⟩
  · unfold press_before_parent press_arbitrate
    rw [hpath, hpre]
    have hon : press_on_unselected G (press_classify G tv e).base (some R) = false := by
      simp [press_on_unselected, hcl, hsel]
    simp only [hon, Bool.false_eq_true, if_false]
    split_ifs
    · right; simp [hcl]
    · left; exact hcl
  · intro q
    have hos : ∀ X : ExoTreeView W, X.base
        = (G.parent_button_press_event (press_before_parent G tv e).base e).1 →
        press_on_selected G X.base e (some R)
            = G.path_is_selected (G.parent_button_press_event (press_before_parent G tv e).base
            e).1 R := by
      intro X hX
      simp [press_on_selected, ht, no_modifier, hm, hG.is_tree_selection, hX]
    unfold exo_tree_view_button_press_event
    rw [if_neg hc, hsp, hpath]
    show G.path_is_selected (press_after_parent G
      (press_parent G (press_before_parent G tv e) e).1 e (some R)
      (G.get_selected_rows tv.base)).base q = _
    unfold press_after_parent
    rw [press_reset_select_function_selected G hG]
    unfold press_restore
    rw [hos _ rfl]
    by_cases h1 : G.path_is_selected (G.parent_button_press_event (press_before_parent G tv e).base
        e).1 R = true
    · by_cases h2 : G.get_select_function (G.parent_button_press_event (press_before_parent G tv
        e).base e).1 = some GtkTreeSelectionFunc.exo_noop_false
      · have h2a : G.get_select_function (press_parent G (press_before_parent G tv e) e).1.base
            = some GtkTreeSelectionFunc.exo_noop_false := h2
        rw [if_pos h1, if_neg (not_not.mpr h2a), if_neg (fun h => h.2 h2)]
        rfl
      · have h2a : G.get_select_function (press_parent G (press_before_parent G tv e) e).1.base
            ≠ some GtkTreeSelectionFunc.exo_noop_false := h2
        rw [if_pos h1, if_pos h2a, if_pos ⟨h1, h2⟩]
        rw [(select_paths_selected G hL _ _ h2a).1 q]
        have hmem : decide (q ∈ G.get_selected_rows tv.base) = G.path_is_selected tv.base q := by
          rw [Bool.eq_iff_iff, decide_eq_true_eq]
          exact hL.selected_rows tv.base q
        rw [hmem]
        rfl
    · rw [if_neg h1, if_neg (fun h => h1 h.1)]
      rfl

/-- A release that triggers no activation and does not narrow the selection makes no
call in lines 401-466. -/
theorem release_branch_calls_nil (G : Gtk W) (tv : ExoTreeView W) (e : GdkEventButton)
    (hna : ∀ c ∈ new_calls tv (exo_tree_view_button_release_event G tv e).1,
      Call.is_row_activated c = false)
    (h2 : release_narrows G tv e = false) : release_branch_calls G tv e = [] := by
  rw [new_calls_eq _ _ _ (by rw [release_event_trace, List.append_assoc,
    List.append_assoc])] at hna
  have hna1 : ∀ c ∈ release_branch_calls G tv e, Call.is_row_activated c = false :=
    fun c hc => hna c (List.mem_append_left _ hc)
  unfold release_narrows at h2
  unfold release_branch_calls at hna1 ⊢
  cases hw : release_on_bin_window G tv e
  · simp
  · cases hact : (tv.priv.single_click && tv.priv.button_release_activates)
    · cases hmod : (no_modifier G e.state && !tv.priv.button_release_unblocks_dnd)
      · simp
      · cases hpos : G.get_path_at_pos tv.base e.x.to_gint e.y.to_gint with
        | none => simp
        | some pc =>
          obtain ⟨p, c⟩ := pc
          simp only [hw, hact, hmod, hpos, Bool.not_false, Bool.and_self, Bool.true_and] at h2
          simp [select_only_calls, h2]
    · cases hpos : G.get_path_at_pos tv.base e.x.to_gint e.y.to_gint with
      | none => simp
      | some pc =>
        obtain ⟨p, c⟩ := pc
        cases hon : on_expander G tv.base e.x p
        · have hmem : Call.row_activated p c ∈ release_branch_calls G tv e := by
            unfold release_branch_calls
            simp [hw, hact, hpos, hon]
          unfold release_branch_calls at hmem
          exact absurd (hna1 _ hmem) (by simp [Call.is_row_activated])
        · simp [hon]

/-- A release that makes no call in lines 401-466 leaves every row's selected state
as it was, up to the call of the parent's handler. -/
theorem release_keeps_selection (G : Gtk W) (hG : HonoursSentinel G) (tv : ExoTreeView W)
    (e : GdkEventButton) (hb : release_branch_calls G tv e = []) (p : GtkTreePath) :
    G.path_is_selected (release_before_parent G tv e).base p
      = G.path_is_selected tv.base p := by
  have hbase := release_branch_base G tv e hb
  unfold release_before_parent release_enable_rubber_banding release_unblock_dnd unblock_dnd
  split_ifs <;>
    simp [hbase, hG.selected_set_rubber_banding, hG.selected_unblock]

/-- C9 (counterexample): two gestures of an unmodified primary first-press on the
selected row `[0]` with rows `[0]` and `[1]` selected, in double-click mode, followed
by a release at a different position that emits no `row-activated`.  In the first the
release is on row `[1]`: lines 444-460 unselect all rows and row `[0]` is no longer
selected.  In the second the application has installed a select function that lets
no row be selected, over a library that honours the sentinel, and the release is on
an empty area: the parent's handler narrows the selection to `[0]`, lines 353-364
cannot select `[1]` again and row `[1]` is no longer selected. -/
theorem press_release_loses_selection :
    (refGtk.path_is_selected (refWidget [[0], [1]]) [0] = true
      ∧ (new_calls
            (exo_tree_view_button_press_event refGtk (ExoTreeView.init (refWidget [[0], [1]]))
              (press_at 100 0)).1
            (exo_tree_view_button_release_event refGtk
              (exo_tree_view_button_press_event refGtk
                (ExoTreeView.init (refWidget [[0], [1]])) (press_at 100 0)).1
              (release_at 100 1)).1).filter Call.is_row_activated = []
      ∧ refGtk.path_is_selected
          (release_before_parent refGtk
            (exo_tree_view_button_press_event refGtk (ExoTreeView.init (refWidget [[0], [1]]))
              (press_at 100 0)).1
            (release_at 100 1)).base [0] = false)
    ∧ (refGtkVeto.path_is_selected refWidgetCustom [0] = true
      ∧ refGtkVeto.path_is_selected refWidgetCustom [1] = true
      ∧ (new_calls
            (exo_tree_view_button_press_event refGtkVeto (ExoTreeView.init refWidgetCustom)
              (press_at 100 0)).1
            (exo_tree_view_button_release_event refGtkVeto
              (exo_tree_view_button_press_event refGtkVeto
                (ExoTreeView.init refWidgetCustom) (press_at 100 0)).1
              (release_at 100 5)).1).filter Call.is_row_activated = []
      ∧ release_narrows refGtkVeto
          (exo_tree_view_button_press_event refGtkVeto (ExoTreeView.init refWidgetCustom)
            (press_at 100 0)).1 (release_at 100 5) = false
      ∧ refGtkVeto.path_is_selected
          (release_before_parent refGtkVeto
            (exo_tree_view_button_press_event refGtkVeto (ExoTreeView.init refWidgetCustom)
              (press_at 100 0)).1
            (release_at 100 5)).base [1] = false) := by
  exact ⟨⟨rfl, rfl, rfl⟩, ⟨rfl, rfl, rfl, rfl, rfl⟩⟩

/-- C9 (amended): over a base widget that honours the sentinel select function, take
an unmodified primary first-press on a selected row `R`, followed by a release that
emits no `row-activated` and does not take the narrowing branch of lines 444-460 on a
selected row.  With no select function installed on entry, the set of selected rows
after the release handler's own processing equals the set before the press.  With a
select function installed on entry and a library whose `select_path` selects, the
same holds if that function is the sentinel; if it is another function, the two sets
are equal exactly when the parent's press handler left `R` selected, left no row
selected that was not selected before, and, in case it left the sentinel installed,
left every row selected that was selected before: the rows remembered at lines
308-309 are selected again at lines 353-364 on top of what the parent left. -/
theorem press_release_keeps_selection (G : Gtk W) (hG : HonoursSentinel G)
    (tv : ExoTreeView W) (e1 e2 : GdkEventButton) (R : GtkTreePath)
    (h1t : e1.type = GdkEventType.GDK_BUTTON_PRESS) (_h1b : e1.button = 1)
    (h1m : e1.state &&& G.default_mod_mask = 0)
    (h1w : e1.window = G.get_bin_window tv.base)
    (h1p : path_at G tv.base e1.x e1.y = some R)
    (h1s : G.path_is_selected tv.base R = true)
    (hna : ∀ c ∈ new_calls (exo_tree_view_button_press_event G tv e1).1
        (exo_tree_view_button_release_event G (exo_tree_view_button_press_event G tv e1).1 e2).1,
      Call.is_row_activated c = false)
    (h2 : release_narrows G (exo_tree_view_button_press_event G tv e1).1 e2 = false) :
    (G.get_select_function tv.base = none →
      ∀ p, G.path_is_selected (release_before_parent G (exo_tree_view_button_press_event G tv e1).1
          e2).base p = G.path_is_selected tv.base p)
    ∧ (SelectsPaths G → G.get_select_function tv.base = some GtkTreeSelectionFunc.exo_noop_false →
      ∀ p, G.path_is_selected (release_before_parent G (exo_tree_view_button_press_event G tv e1).1
          e2).base p = G.path_is_selected tv.base p)
    ∧ (SelectsPaths G → G.get_select_function tv.base ≠ none →
      G.get_select_function tv.base ≠ some GtkTreeSelectionFunc.exo_noop_false →
      ((∀ p, G.path_is_selected (release_before_parent G (exo_tree_view_button_press_event G tv
          e1).1 e2).base p = G.path_is_selected tv.base p)
        ↔ (G.path_is_selected (G.parent_button_press_event (press_before_parent G tv e1).base e1).1
            R = true
          ∧ (∀ q, G.path_is_selected (G.parent_button_press_event (press_before_parent G tv
              e1).base e1).1 q = true → G.path_is_selected tv.base q = true)
          ∧ (G.get_select_function (G.parent_button_press_event (press_before_parent G tv e1).base
              e1).1 = some GtkTreeSelectionFunc.exo_noop_false →
            ∀ q, G.path_is_selected tv.base q = true
                → G.path_is_selected (G.parent_button_press_event (press_before_parent G tv
                e1).base e1).1 q = true)))) := by
  have hb := release_branch_calls_nil G (exo_tree_view_button_press_event G tv e1).1 e2 hna h2
  have hfin : ∀ p, G.path_is_selected (release_before_parent G (exo_tree_view_button_press_event G
      tv e1).1 e2).base p
      = G.path_is_selected (exo_tree_view_button_press_event G tv e1).1.base p :=
    fun p => release_keeps_selection G hG (exo_tree_view_button_press_event G tv e1).1 e2 hb p
  refine ⟨?_, ?_, ?_⟩
  · intro hf p
    rw [hfin p]
    exact press_on_selected_keeps_selection G hG tv e1 R h1t h1m h1w h1p h1s hf p
  · intro hL hf p
    obtain ⟨hwb, hform⟩ := press_on_selected_restores_selection G hG hL tv e1 R h1t h1m h1w
      h1p h1s (by rw [hf]; simp)
    have hslot : G.get_select_function (press_before_parent G tv e1).base
        = some GtkTreeSelectionFunc.exo_noop_false := by
      rcases hwb with h | h
      · rw [h, hf]
      · rw [h, hG.select_function_set_rubber_banding, hf]
    have hselb : G.path_is_selected (press_before_parent G tv e1).base p
        = G.path_is_selected tv.base p := by
      rcases hwb with h | h
      · rw [h]
      · rw [h, hG.selected_set_rubber_banding]
    have hpar : G.path_is_selected (G.parent_button_press_event (press_before_parent G tv e1).base
        e1).1 p = G.path_is_selected tv.base p := by
      rw [hG.parent_press_selected _ e1 p hslot, hselb]
    rw [hfin p, hform p, hpar]
    split_ifs <;> simp
  · intro hL hf _
    obtain ⟨_, hform⟩ := press_on_selected_restores_selection G hG hL tv e1 R h1t h1m h1w
      h1p h1s hf
    constructor
    · intro H
      have H1 : ∀ q, (if G.path_is_selected (G.parent_button_press_event (press_before_parent G tv
          e1).base e1).1 R = true
          ∧ G.get_select_function (G.parent_button_press_event (press_before_parent G tv e1).base
          e1).1 ≠ some GtkTreeSelectionFunc.exo_noop_false
          then (G.path_is_selected tv.base q || G.path_is_selected (G.parent_button_press_event
              (press_before_parent G tv e1).base e1).1 q)
          else G.path_is_selected (G.parent_button_press_event (press_before_parent G tv e1).base
              e1).1 q) = G.path_is_selected tv.base q := by
        intro q
        rw [← hform q, ← hfin q]
        exact H q
      by_cases hC : G.path_is_selected (G.parent_button_press_event (press_before_parent G tv
          e1).base e1).1 R = true
          ∧ G.get_select_function (G.parent_button_press_event (press_before_parent G tv e1).base
          e1).1 ≠ some GtkTreeSelectionFunc.exo_noop_false
      · refine ⟨hC.1, ?_, fun h => absurd h hC.2⟩
        intro q hq
        have := H1 q
        rw [if_pos hC, hq] at this
        simpa using this.symm
      · have H2 : ∀ q, G.path_is_selected (G.parent_button_press_event (press_before_parent G tv
          e1).base e1).1 q = G.path_is_selected tv.base q := by
          intro q
          have := H1 q
          rw [if_neg hC] at this
          exact this
        refine ⟨by rw [H2 R]; exact h1s, fun q hq => by rw [← H2 q]; exact hq,
          fun _ q hq => by rw [H2 q]; exact hq⟩
    · rintro ⟨ha, hsub, hsent⟩ p
      rw [hfin p, hform p]
      by_cases hC : G.path_is_selected (G.parent_button_press_event (press_before_parent G tv
          e1).base e1).1 R = true
          ∧ G.get_select_function (G.parent_button_press_event (press_before_parent G tv e1).base
          e1).1 ≠ some GtkTreeSelectionFunc.exo_noop_false
      · rw [if_pos hC]
        cases hq : G.path_is_selected (G.parent_button_press_event (press_before_parent G tv
            e1).base e1).1 p
        · simp
        · simp [hsub p hq]
      · rw [if_neg hC]
        have hs : G.get_select_function (G.parent_button_press_event (press_before_parent G tv
            e1).base e1).1 = some GtkTreeSelectionFunc.exo_noop_false := by
          by_contra h
          exact hC ⟨ha, h⟩
        cases hq : G.path_is_selected tv.base p
        · cases hq2 : G.path_is_selected (G.parent_button_press_event (press_before_parent G tv
            e1).base e1).1 p
          · rfl
          · rw [hsub p hq2] at hq
            exact absurd hq (by simp)
        · exact hsent hs p hq

/-- C9 (witness): on the reference widget in double-click mode with rows `[0]` and
`[1]` selected, a press on `[0]` and a release on an empty area.  With no select
function installed, row `[1]` is selected afterwards as before.  With the select
function `custom 0` installed, the parent's handler unselects row `[1]` and the
handler selects it again. -/
theorem press_release_keeps_selection_witness :
    (refGtk.path_is_selected
        (release_before_parent refGtk
          (exo_tree_view_button_press_event refGtk (ExoTreeView.init (refWidget [[0], [1]]))
            (press_at 100 0)).1 (release_at 100 5)).base [1]
      = refGtk.path_is_selected (refWidget [[0], [1]]) [1])
    ∧ refGtk.path_is_selected
        (refGtk.parent_button_press_event
          (press_before_parent refGtk (ExoTreeView.init refWidgetCustom)
            (press_at 100 0)).base (press_at 100 0)).1 [1] = false
    ∧ (refGtk.path_is_selected
        (release_before_parent refGtk
          (exo_tree_view_button_press_event refGtk (ExoTreeView.init refWidgetCustom)
            (press_at 100 0)).1 (release_at 100 5)).base [1]
      = refGtk.path_is_selected refWidgetCustom [1]) :=
  ⟨(press_release_keeps_selection refGtk refGtk_honours_sentinel
      (ExoTreeView.init (refWidget [[0], [1]])) (press_at 100 0) (release_at 100 5) [0]
      rfl rfl rfl rfl rfl rfl (by decide) rfl).1 rfl [1],
    rfl,
    ((press_release_keeps_selection refGtk refGtk_honours_sentinel
      (ExoTreeView.init refWidgetCustom) (press_at 100 0) (release_at 100 5) [0]
      rfl rfl rfl rfl rfl rfl (by decide) rfl).2.2 refGtk_selects_paths
        (by decide) (by decide)).mpr
      ⟨rfl,
        fun q hq => by
          have hq1 : decide (q ∈ [([0] : GtkTreePath)]) = true := hq
          have hq2 : q = [0] := by simpa using hq1
          subst hq2
          rfl,
        fun h => absurd h (by decide)⟩ [1]⟩

end Exo
